import Mathlib

/-!
# Display / Surface lifecycle of libEGL (ANGLE, WP8 port)

A shallow embedding of `libEGL/Display.cpp`, `libEGL/Surface.cpp` and
`libEGL/main_egl.cpp`.

* Pointers and native handles are natural numbers, `0` is the null pointer.
* `EGLint` / `EGLenum` values are integers; the sums and differences that
  `Surface::swapRect` computes are brought back into 32 bits (`wrapEGLint`).
* The rendering backend, the swap chains, the windowing layer and the
  allocator are collaborators outside these files.  Every call into them is
  recorded in a trace (most recent call first) and its answer is an arbitrary
  function of the trace so far, so a fixed `Env` stands for one complete
  behaviour of all collaborators.
* Dereferencing a null `mRenderer` / `mSwapChain` has no defined behaviour;
  the functions that can do so return `Option`, `none` standing for it.
* `ASSERT` and `UNIMPLEMENTED` are compiled out (release build).
-/

namespace egl

/-- Pointers and native handles; `0` is `NULL`. -/
abbrev Handle := Nat

/-! ## Constants of `EGL/egl.h` and `gles2/gl2ext.h` (Khronos values) -/

def EGL_FALSE : Int := 0
def EGL_SUCCESS : Int := 0x3000
def EGL_NOT_INITIALIZED : Int := 0x3001
def EGL_BAD_ALLOC : Int := 0x3003
def EGL_BAD_ATTRIBUTE : Int := 0x3004
def EGL_BAD_MATCH : Int := 0x3009
def EGL_BAD_PARAMETER : Int := 0x300C
def EGL_BAD_SURFACE : Int := 0x300D
def EGL_CONTEXT_LOST : Int := 0x300E
def EGL_NONE : Int := 0x3038
def EGL_HEIGHT : Int := 0x3056
def EGL_WIDTH : Int := 0x3057
def EGL_LARGEST_PBUFFER : Int := 0x3058
def EGL_NO_TEXTURE : Int := 0x305C
def EGL_TEXTURE_RGB : Int := 0x305D
def EGL_TEXTURE_RGBA : Int := 0x305E
def EGL_TEXTURE_2D : Int := 0x305F
def EGL_TEXTURE_FORMAT : Int := 0x3080
def EGL_TEXTURE_TARGET : Int := 0x3081
def EGL_MIPMAP_TEXTURE : Int := 0x3082
def EGL_BACK_BUFFER : Int := 0x3084
def EGL_SINGLE_BUFFER : Int := 0x3085
def EGL_RENDER_BUFFER : Int := 0x3086
def EGL_VG_COLORSPACE : Int := 0x3087
def EGL_VG_ALPHA_FORMAT : Int := 0x3088
def EGL_DISPLAY_SCALING : Int := 10000
def GL_RGBA8_OES : Int := 0x8058
def GL_DEPTH24_STENCIL8_OES : Int := 0x88F0

/-- The null surface handle returned by a failed creation. -/
def EGL_NO_SURFACE : Handle := 0

/-! ## Collaborators -/

/-- One call into a collaborator (backend, swap chain, window system,
context library), with its arguments. -/
inductive Event where
  | glCreateRenderer
  | glDestroyRenderer (renderer : Handle)
  | testDeviceLost (notify : Bool)
  | resetDevice
  | getNonPower2TextureSupport
  | rendererNotifyDeviceLost
  | createSwapChain (window shareHandle : Handle) (backBufferFormat depthBufferFormat : Int)
  | swapChainDelete (swapChain : Handle)
  | swapChainReset (swapChain : Handle) (width height interval : Int)
  | swapChainResize (swapChain : Handle) (width height : Int)
  | swapChainSwapRect (swapChain : Handle) (x y width height : Int)
  | swapChainRecreate (swapChain : Handle)
  | getClientRect (window : Handle)
  | releaseTexImage (texture : Handle)
  | newSurface
  | glCreateContext (shareContext renderer : Handle) (notifyResets robustAccess : Bool)
  | glDestroyContext (context : Handle)
  | markContextLost (context : Handle)
  | glMakeCurrent (context display surface : Handle)
  deriving DecidableEq, Repr

/-- The behaviour of the collaborators: the answer of each call as a function
of the trace up to and including that call (most recent first). -/
structure Env where
  /-- Value of `Renderer::getMinSwapInterval()`. -/
  minSwapInterval : Int
  /-- Value of `Renderer::getMaxSwapInterval()`. -/
  maxSwapInterval : Int
  /-- Address proposed by `new rx::Renderer11`. -/
  newRenderer : List Event → Handle
  /-- Status of `Renderer::initialize()` inside `glCreateRenderer`. -/
  rendererInitialize : List Event → Int
  testDeviceLost : List Event → Bool
  resetDevice : List Event → Bool
  getNonPower2TextureSupport : List Event → Bool
  /-- Result of `Renderer::createSwapChain`, `0` when it fails. -/
  createSwapChain : List Event → Handle
  /-- Status of `SwapChain::reset`. -/
  swapChainReset : List Event → Int
  /-- Status of `SwapChain::resize`. -/
  swapChainResize : List Event → Int
  /-- Status of `SwapChain::swapRect`. -/
  swapChainSwapRect : List Event → Int
  /-- The window geometry query (`GetClientRect`, or `get_screen_size` on
  WinRT where it cannot fail): the client width and height, or `none`. -/
  getClientRect : List Event → Option (Int × Int)
  /-- Address proposed by the allocator for `new Surface`. -/
  newSurface : List Event → Handle
  /-- Address proposed for the context made by `glCreateContext`. -/
  newContext : List Event → Handle
  /-- Result of `glGetCurrentContext()`. -/
  glGetCurrentContext : List Event → Handle
  /-- Content of a member that is read before it is first written. -/
  indeterminate : List Event → Bool

/-- The record `g_current` of `main_egl.cpp`. -/
structure Current where
  error : Int
  API : Int
  display : Handle
  drawSurface : Handle
  readSurface : Handle
  deriving DecidableEq, Repr

/-- Everything outside the `Display` object: the current-state record and
the trace of collaborator calls, most recent first. -/
structure World where
  current : Current
  trace : List Event
  deriving DecidableEq, Repr

/-- Record a collaborator call. -/
def World.log (w : World) (e : Event) : World :=
  { w with trace := e :: w.trace }

/-- Embeds `egl::setCurrentError`. -/
def setCurrentError (w : World) (error : Int) : World :=
  { w with current := { w.current with error := error } }

/-- Embeds `egl::getCurrentError`. -/
def getCurrentError (w : World) : Int :=
  w.current.error

/-- Embeds `egl::error(EGLint)`; the two-argument template of `libEGL/main.h`
calls it and hands back its second argument. -/
def error (w : World) (errorCode : Int) : World :=
  setCurrentError w errorCode

/-- Modelled from the spec: the template `success(value)` of `libEGL/main.h`,
which is not among the sources; it records `EGL_SUCCESS` and hands back its
argument. -/
def success (w : World) : World :=
  setCurrentError w EGL_SUCCESS

/-! ## Surface -/

/-- The members of `egl::Surface`; `self` is the address of the object
(`mDisplay` is the single display and is not stored). -/
structure Surface where
  self : Handle
  mRenderer : Handle
  mShareHandle : Handle
  mSwapChain : Handle
  mWindow : Handle
  mHeight : Int
  mWidth : Int
  mPixelAspectRatio : Int
  mTextureFormat : Int
  mTextureTarget : Int
  mSwapInterval : Int
  mSwapIntervalDirty : Bool
  mTexture : Handle
  deriving DecidableEq, Repr

/-- Modelled from the spec: `gl::Context` is declared in `libGLESv2/Context.h`,
which is not among the sources; the lifecycle manager sees its address and
the flag saying whether it requested device-loss notifications. -/
structure Context where
  self : Handle
  resetNotification : Bool
  deriving DecidableEq, Repr

/-- Modelled from the spec: `gl::Context::isResetNotificationEnabled`. -/
def Context.isResetNotificationEnabled (c : Context) : Bool :=
  c.resetNotification

/-- The members of `egl::Display`.  The two `std::set`s of pointers are lists
of the objects pointed to, kept in address order (the iteration order of the
set).  The vendor string is left out. -/
structure Display where
  mRenderer : Handle
  mSurfaceSet : List Surface
  mContextSet : List Context
  deriving DecidableEq, Repr

/-- Embeds `Display::notifyDeviceLost`; `markContextLost` is a call into the
context library. -/
def Display.notifyDeviceLost (d : Display) (w : World) : World :=
  error (d.mContextSet.foldl (fun w0 c => w0.log (Event.markContextLost c.self)) w)
    EGL_CONTEXT_LOST

/-- Embeds `Surface::setSwapInterval`. -/
def Surface.setSwapInterval (env : Env) (s : Surface) (interval : Int) : Option Surface :=
  if s.mSwapInterval = interval then some s
  else if s.mRenderer = 0 then none
  else
    let s1 := { s with mSwapInterval := interval }
    let s2 := { s1 with mSwapInterval := max s1.mSwapInterval env.minSwapInterval }
    let s3 := { s2 with mSwapInterval := min s2.mSwapInterval env.maxSwapInterval }
    some { s3 with mSwapIntervalDirty := true }

/-- Embeds the constructor `Surface(Display*, EGLNativeWindowType)`;
`dirty0` is the content of `mSwapIntervalDirty` before its first write. -/
def Surface.mkWindow (env : Env) (self renderer window : Handle) (dirty0 : Bool) :
    Option Surface :=
  Surface.setSwapInterval env
    { self := self, mRenderer := renderer, mShareHandle := 0, mSwapChain := 0,
      mWindow := window, mHeight := -1, mWidth := -1,
      mPixelAspectRatio := 1 * EGL_DISPLAY_SCALING,
      mTextureFormat := EGL_NO_TEXTURE, mTextureTarget := EGL_NO_TEXTURE,
      mSwapInterval := -1, mSwapIntervalDirty := dirty0, mTexture := 0 } 1

/-- Embeds the constructor
`Surface(Display*, HANDLE, EGLint, EGLint, EGLenum, EGLenum)`. -/
def Surface.mkOffscreen (env : Env) (self renderer shareHandle : Handle)
    (width height textureFormat textureType : Int) (dirty0 : Bool) : Option Surface :=
  Surface.setSwapInterval env
    { self := self, mRenderer := renderer, mShareHandle := shareHandle, mSwapChain := 0,
      mWindow := 0, mHeight := height, mWidth := width,
      mPixelAspectRatio := 1 * EGL_DISPLAY_SCALING,
      mTextureFormat := textureFormat, mTextureTarget := textureType,
      mSwapInterval := -1, mSwapIntervalDirty := dirty0, mTexture := 0 } 1

/-- Embeds `Surface::getWidth`. -/
def Surface.getWidth (s : Surface) : Int := s.mWidth

/-- Embeds `Surface::getHeight`. -/
def Surface.getHeight (s : Surface) : Int := s.mHeight

/-- Embeds `Surface::getWindowHandle`. -/
def Surface.getWindowHandle (s : Surface) : Handle := s.mWindow

/-- Embeds `Surface::getSwapChain`. -/
def Surface.getSwapChain (s : Surface) : Handle := s.mSwapChain

/-- Embeds `Surface::release`. -/
def Surface.release (s : Surface) (w : World) : Surface × World :=
  let w1 := if s.mSwapChain ≠ 0 then w.log (Event.swapChainDelete s.mSwapChain) else w
  let s1 := { s with mSwapChain := 0 }
  if s1.mTexture ≠ 0 then
    ({ s1 with mTexture := 0 }, w1.log (Event.releaseTexImage s1.mTexture))
  else (s1, w1)

/-- Embeds `Surface::resetSwapChain(int, int)`. -/
def Surface.resetSwapChainWH (env : Env) (s : Surface) (backbufferWidth backbufferHeight : Int)
    (w : World) : Option (Bool × Surface × World) :=
  if s.mSwapChain = 0 then none
  else
    let w1 := w.log (Event.swapChainReset s.mSwapChain backbufferWidth backbufferHeight
      s.mSwapInterval)
    let status := env.swapChainReset w1.trace
    if status = EGL_CONTEXT_LOST then
      if s.mRenderer = 0 then none
      else some (false, s, w1.log Event.rendererNotifyDeviceLost)
    else if status ≠ EGL_SUCCESS then some (false, s, error w1 status)
    else
      some (true, { s with mWidth := backbufferWidth, mHeight := backbufferHeight,
                           mSwapIntervalDirty := false }, w1)

/-- The second half of the zero-argument `Surface::resetSwapChain()`, once the
target size is known: the swap chain is asked from the backend and reset, and
deleted again when the reset fails. -/
def Surface.createAndReset (env : Env) (s : Surface) (width height : Int) (w : World) :
    Option (Bool × Surface × World) :=
  if s.mRenderer = 0 then none
  else
    let w1 := w.log (Event.createSwapChain s.mWindow s.mShareHandle GL_RGBA8_OES
      GL_DEPTH24_STENCIL8_OES)
    let s1 := { s with mSwapChain := env.createSwapChain w1.trace }
    if s1.mSwapChain = 0 then some (false, s1, error w1 EGL_BAD_ALLOC)
    else
      match Surface.resetSwapChainWH env s1 width height w1 with
      | none => none
      | some (true, s2, w2) => some (true, s2, w2)
      | some (false, s2, w2) =>
        some (false, { s2 with mSwapChain := 0 }, w2.log (Event.swapChainDelete s2.mSwapChain))

/-- Embeds the zero-argument `Surface::resetSwapChain()`. -/
def Surface.resetSwapChain (env : Env) (s : Surface) (w : World) :
    Option (Bool × Surface × World) :=
  if s.mWindow ≠ 0 then
    let w1 := w.log (Event.getClientRect s.getWindowHandle)
    match env.getClientRect w1.trace with
    | none => some (false, s, error w1 EGL_BAD_SURFACE)
    | some (width, height) => s.createAndReset env width height w1
  else s.createAndReset env s.mWidth s.mHeight w

/-- Embeds `Surface::initialize`. -/
def Surface.initialize (env : Env) (s : Surface) (w : World) :
    Option (Bool × Surface × World) :=
  match Surface.resetSwapChain env s w with
  | none => none
  | some (false, s1, w1) => some (false, s1, w1)
  | some (true, s1, w1) => some (true, s1, w1)

/-- Embeds `Surface::resizeSwapChain`; `d` is the display `mDisplay` points to. -/
def Surface.resizeSwapChain (env : Env) (d : Display) (s : Surface)
    (backbufferWidth backbufferHeight : Int) (w : World) : Option (Bool × Surface × World) :=
  if s.mSwapChain = 0 then none
  else
    let w1 := w.log (Event.swapChainResize s.mSwapChain backbufferWidth backbufferHeight)
    let status := env.swapChainResize w1.trace
    if status = EGL_CONTEXT_LOST then some (false, s, d.notifyDeviceLost w1)
    else if status ≠ EGL_SUCCESS then some (false, s, error w1 status)
    else some (true, { s with mWidth := backbufferWidth, mHeight := backbufferHeight }, w1)

/-- Embeds `Surface::checkForOutOfDateSwapChain`.  The results of the reset and
of the resize are dropped, and `mSwapIntervalDirty` is read again after them. -/
def Surface.checkForOutOfDateSwapChain (env : Env) (d : Display) (s : Surface) (w : World) :
    Option (Bool × Surface × World) :=
  let w1 := w.log (Event.getClientRect s.getWindowHandle)
  match env.getClientRect w1.trace with
  | none => some (false, s, w1)
  | some (clientWidth, clientHeight) =>
    let sizeDirty : Bool := clientWidth ≠ s.getWidth ∨ clientHeight ≠ s.getHeight
    let changed : Option (Surface × World) :=
      if s.mSwapIntervalDirty then
        (s.resetSwapChainWH env clientWidth clientHeight w1).map (fun r => r.2)
      else if sizeDirty then
        (s.resizeSwapChain env d clientWidth clientHeight w1).map (fun r => r.2)
      else some (s, w1)
    match changed with
    | none => none
    | some (s2, w2) =>
      if s2.mSwapIntervalDirty || sizeDirty then
        if w2.current.drawSurface = s2.self then
          some (true, s2, w2.log (Event.glMakeCurrent (env.glGetCurrentContext w2.trace)
            w2.current.display s2.self))
        else some (true, s2, w2)
      else some (false, s2, w2)

/-- The value of an `EGLint` (a 32-bit two's complement integer) that holds
the result `n` of a sum or difference: `n` brought into
`-2147483648 .. 2147483647` modulo `4294967296`. -/
def wrapEGLint (n : Int) : Int :=
  (n + 2147483648) % 4294967296 - 2147483648

/-- Embeds `Surface::swapRect`; the sums and differences are 32-bit. -/
def Surface.swapRect (env : Env) (d : Display) (s : Surface) (x y width height : Int)
    (w : World) : Option (Bool × Surface × World) :=
  if s.mSwapChain = 0 then some (true, s, w)
  else
    let width := if wrapEGLint (x + width) > s.mWidth then wrapEGLint (s.mWidth - x) else width
    let height :=
      if wrapEGLint (y + height) > s.mHeight then wrapEGLint (s.mHeight - y) else height
    if width = 0 ∨ height = 0 then some (true, s, w)
    else
      let w1 := w.log (Event.swapChainSwapRect s.mSwapChain x y width height)
      let status := env.swapChainSwapRect w1.trace
      if status = EGL_CONTEXT_LOST then
        if s.mRenderer = 0 then none
        else some (false, s, w1.log Event.rendererNotifyDeviceLost)
      else if status ≠ EGL_SUCCESS then some (false, s, error w1 status)
      else
        match s.checkForOutOfDateSwapChain env d w1 with
        | none => none
        | some (_, s2, w2) => some (true, s2, w2)

/-- Embeds `Surface::swap`. -/
def Surface.swap (env : Env) (d : Display) (s : Surface) (w : World) :
    Option (Bool × Surface × World) :=
  s.swapRect env d 0 0 s.mWidth s.mHeight w

/-- Embeds `Surface::setBoundTexture`. -/
def Surface.setBoundTexture (s : Surface) (texture : Handle) : Surface :=
  { s with mTexture := texture }

/-- Embeds `Surface::getBoundTexture`. -/
def Surface.getBoundTexture (s : Surface) : Handle := s.mTexture

/-! ## Display -/

/-- Embeds the constructor `Display::Display()`. -/
def Display.new : Display :=
  { mRenderer := 0, mSurfaceSet := [], mContextSet := [] }

/-- The address handed out by `new`: never null and never the address of a
live object.  The proposal of the allocator is taken when it meets both. -/
def freshHandle (live : List Handle) (proposal : Handle) : Handle :=
  if proposal ≠ 0 ∧ proposal ∉ live then proposal else live.foldr max 0 + 1

/-- Embeds `std::set<T*>::insert`: the element is placed in address order, and
nothing is inserted when the address is already a member. -/
def setInsert {α : Type} (key : α → Handle) (x : α) : List α → List α
  | [] => [x]
  | y :: rest =>
    if key x < key y then x :: y :: rest
    else if key x = key y then y :: rest
    else y :: setInsert key x rest

/-- Embeds `std::set<T*>::erase(key)`. -/
def setErase {α : Type} (key : α → Handle) (p : Handle) (l : List α) : List α :=
  l.filter (fun y => key y ≠ p)

/-- Embeds `Display::isInitialized`. -/
def Display.isInitialized (d : Display) : Bool :=
  d.mRenderer ≠ 0

/-- Embeds `Display::isValidContext`. -/
def Display.isValidContext (d : Display) (context : Handle) : Bool :=
  d.mContextSet.any (fun c => c.self = context)

/-- Embeds `Display::isValidSurface`. -/
def Display.isValidSurface (d : Display) (surface : Handle) : Bool :=
  d.mSurfaceSet.any (fun s => s.self = surface)

/-- Embeds `Display::hasExistingWindowSurface`. -/
def Display.hasExistingWindowSurface (d : Display) (window : Handle) : Bool :=
  d.mSurfaceSet.any (fun s => s.mWindow = window)

/-- Embeds `glDestroyRenderer` of `Renderer.cpp`: `delete renderer` runs the
destructor of the backend, and does nothing on a null pointer. -/
def glDestroyRenderer (w : World) (renderer : Handle) : World :=
  if renderer ≠ 0 then w.log (Event.glDestroyRenderer renderer) else w

/-- Embeds `glCreateRenderer` of `Renderer.cpp`; when the backend fails to
initialize, `delete renderer` runs its destructor as `glDestroyRenderer` does. -/
def glCreateRenderer (env : Env) (w : World) : Handle × World :=
  let w1 := w.log Event.glCreateRenderer
  let renderer := freshHandle [] (env.newRenderer w1.trace)
  let status := if renderer ≠ 0 then env.rendererInitialize w1.trace else EGL_BAD_ALLOC
  if status = EGL_SUCCESS then (renderer, w1) else (0, glDestroyRenderer w1 renderer)

/-- Embeds `Display::destroySurface`.  `delete surface` runs `~Surface`, that
is `release()`, on the object; deleting a non-null pointer that is not a
live surface is undefined. -/
def Display.destroySurface (d : Display) (w : World) (surface : Handle) :
    Option (Display × World) :=
  if surface = 0 then some ({ d with mSurfaceSet := setErase Surface.self surface d.mSurfaceSet }, w)
  else
    match d.mSurfaceSet.find? (fun s => s.self = surface) with
    | none => none
    | some s =>
      some ({ d with mSurfaceSet := setErase Surface.self surface d.mSurfaceSet },
            (s.release w).2)

/-- Embeds `Display::destroyContext`. -/
def Display.destroyContext (d : Display) (w : World) (context : Handle) : Display × World :=
  ({ d with mContextSet := setErase Context.self context d.mContextSet },
   w.log (Event.glDestroyContext context))

/-- The loop `while (!mSurfaceSet.empty()) destroySurface(*mSurfaceSet.begin())`
of `Display::terminate`, with a bound on the number of iterations. -/
def Display.terminateSurfaces : Nat → Display → World → Option (Display × World)
  | 0, d, w => if d.mSurfaceSet.isEmpty then some (d, w) else none
  | fuel + 1, d, w =>
    match d.mSurfaceSet with
    | [] => some (d, w)
    | s :: _ =>
      match d.destroySurface w s.self with
      | none => none
      | some (d1, w1) => Display.terminateSurfaces fuel d1 w1

/-- The loop `while (!mContextSet.empty()) destroyContext(*mContextSet.begin())`
of `Display::terminate`, with a bound on the number of iterations. -/
def Display.terminateContexts : Nat → Display → World → Option (Display × World)
  | 0, d, w => if d.mContextSet.isEmpty then some (d, w) else none
  | fuel + 1, d, w =>
    match d.mContextSet with
    | [] => some (d, w)
    | c :: _ =>
      let r := d.destroyContext w c.self
      Display.terminateContexts fuel r.1 r.2

/-- Embeds `Display::terminate`; each loop gets as many iterations as its set
has members. -/
def Display.terminate (d : Display) (w : World) : Option (Display × World) :=
  match Display.terminateSurfaces d.mSurfaceSet.length d w with
  | none => none
  | some (d1, w1) =>
    match Display.terminateContexts d1.mContextSet.length d1 w1 with
    | none => none
    | some (d2, w2) => some ({ d2 with mRenderer := 0 }, glDestroyRenderer w2 d2.mRenderer)

/-- Embeds `Display::initialize`.  The four capability queries are getters
whose results are dropped, and the vendor string is left out. -/
def Display.initialize (env : Env) (d : Display) (w : World) :
    Option (Bool × Display × World) :=
  if d.isInitialized then some (true, d, w)
  else
    let r := glCreateRenderer env w
    let d1 := { d with mRenderer := r.1 }
    if d1.mRenderer = 0 then
      match d1.terminate r.2 with
      | none => none
      | some (d2, w2) => some (false, d2, error w2 EGL_NOT_INITIALIZED)
    else if !d1.isInitialized then
      match d1.terminate r.2 with
      | none => none
      | some (d2, w2) => some (false, d2, w2)
    else some (true, d1, r.2)

/-- The first loop over `mSurfaceSet` in `Display::restoreLostDevice`:
`release()` on every surface, in set order. -/
def releaseSurfaces : List Surface → World → List Surface × World
  | [], w => ([], w)
  | s :: rest, w =>
    let r := s.release w
    let rs := releaseSurfaces rest r.2
    (r.1 :: rs.1, rs.2)

/-- The second loop over `mSurfaceSet` in `Display::restoreLostDevice`:
`resetSwapChain()` on every surface, in set order, the result dropped. -/
def resetSurfaces (env : Env) : List Surface → World → Option (List Surface × World)
  | [], w => some ([], w)
  | s :: rest, w =>
    match s.resetSwapChain env w with
    | none => none
    | some (_, s1, w1) =>
      match resetSurfaces env rest w1 with
      | none => none
      | some (rest1, w2) => some (s1 :: rest1, w2)

/-- Embeds `Display::restoreLostDevice`. -/
def Display.restoreLostDevice (env : Env) (d : Display) (w : World) :
    Option (Bool × Display × World) :=
  if d.mContextSet.any Context.isResetNotificationEnabled then some (false, d, w)
  else
    let r := releaseSurfaces d.mSurfaceSet w
    let d1 := { d with mSurfaceSet := r.1 }
    if d1.mRenderer = 0 then none
    else
      let w2 := r.2.log Event.resetDevice
      if !env.resetDevice w2.trace then some (false, d1, error w2 EGL_BAD_ALLOC)
      else
        match resetSurfaces env d1.mSurfaceSet w2 with
        | none => none
        | some (ss, w3) => some (true, { d1 with mSurfaceSet := ss }, w3)

/-- The block `if (mRenderer->testDeviceLost(false)) { if (!restoreLostDevice())
return ...; }` shared by the three creation functions: `false` when the
caller has to give up. -/
def Display.recoverIfLost (env : Env) (d : Display) (w : World) :
    Option (Bool × Display × World) :=
  if d.mRenderer = 0 then none
  else
    let w1 := w.log (Event.testDeviceLost false)
    if env.testDeviceLost w1.trace then d.restoreLostDevice env w1
    else some (true, d, w1)

/-- Embeds `Display::createContext`.  Modelled from the spec: `glCreateContext`
(not among the sources) makes a new context object carrying the requested
notification flag. -/
def Display.createContext (env : Env) (d : Display) (w : World) (shareContext : Handle)
    (notifyResets robustAccess : Bool) : Option (Handle × Display × World) :=
  if d.mRenderer = 0 then some (0, d, w)
  else
    match d.recoverIfLost env w with
    | none => none
    | some (false, d1, w1) => some (0, d1, w1)
    | some (true, d1, w1) =>
      let w2 := w1.log (Event.glCreateContext shareContext d1.mRenderer notifyResets robustAccess)
      let context : Context :=
        { self := freshHandle (d1.mContextSet.map Context.self) (env.newContext w2.trace),
          resetNotification := notifyResets }
      some (context.self,
            { d1 with mContextSet := setInsert Context.self context d1.mContextSet }, w2)

/-! ## Attribute lists and surface creation -/

/-- Outcome of walking an attribute list: the values gathered, or the error
code handed to `error`. -/
inductive Parsed (α : Type) where
  | ok (value : α)
  | fail (errorCode : Int)
  deriving DecidableEq, Repr

/-- One pass through the `switch` of `Display::createWindowSurface` for the key
`attribList[0]`; `value` is `attribList[1]`, `none` when it lies beyond the
array.  The result is `none` when a value beyond the array is read. -/
def windowAttrib (key : Int) (value : Option Int) : Option (Parsed Unit) :=
  if key = EGL_RENDER_BUFFER then
    match value with
    | none => none
    | some v =>
      if v = EGL_BACK_BUFFER then some (Parsed.ok ())
      else if v = EGL_SINGLE_BUFFER then some (Parsed.fail EGL_BAD_MATCH)
      else some (Parsed.fail EGL_BAD_ATTRIBUTE)
  else if key = EGL_VG_COLORSPACE then some (Parsed.fail EGL_BAD_MATCH)
  else if key = EGL_VG_ALPHA_FORMAT then some (Parsed.fail EGL_BAD_MATCH)
  else some (Parsed.fail EGL_BAD_ATTRIBUTE)

/-- The loop `while (*attribList != EGL_NONE) { ...; attribList += 2; }` of
`Display::createWindowSurface` over the array the pointer refers to; `none`
when the walk leaves the array. -/
def parseWindowAttribs : List Int → Option (Parsed Unit)
  | [] => none
  | [k] =>
    if k = EGL_NONE then some (Parsed.ok ())
    else
      match windowAttrib k none with
      | some (Parsed.fail e) => some (Parsed.fail e)
      | _ => none
  | k :: v :: rest =>
    if k = EGL_NONE then some (Parsed.ok ())
    else
      match windowAttrib k (some v) with
      | none => none
      | some (Parsed.fail e) => some (Parsed.fail e)
      | some (Parsed.ok _) => parseWindowAttribs rest

/-- The locals `width`, `height`, `textureFormat`, `textureTarget` of
`Display::createOffscreenSurface`. -/
structure OffscreenAttribs where
  width : Int
  height : Int
  textureFormat : Int
  textureTarget : Int
  deriving DecidableEq, Repr

/-- The initial values of the locals of `Display::createOffscreenSurface`. -/
def OffscreenAttribs.init : OffscreenAttribs :=
  { width := 0, height := 0, textureFormat := EGL_NO_TEXTURE, textureTarget := EGL_NO_TEXTURE }

/-- One pass through the `switch` of `Display::createOffscreenSurface`. -/
def offscreenAttrib (key : Int) (value : Option Int) (a : OffscreenAttribs) :
    Option (Parsed OffscreenAttribs) :=
  if key = EGL_WIDTH then
    match value with
    | none => none
    | some v => some (Parsed.ok { a with width := v })
  else if key = EGL_HEIGHT then
    match value with
    | none => none
    | some v => some (Parsed.ok { a with height := v })
  else if key = EGL_LARGEST_PBUFFER then
    match value with
    | none => none
    | some _ => some (Parsed.ok a)
  else if key = EGL_TEXTURE_FORMAT then
    match value with
    | none => none
    | some v =>
      if v = EGL_NO_TEXTURE ∨ v = EGL_TEXTURE_RGB ∨ v = EGL_TEXTURE_RGBA then
        some (Parsed.ok { a with textureFormat := v })
      else some (Parsed.fail EGL_BAD_ATTRIBUTE)
  else if key = EGL_TEXTURE_TARGET then
    match value with
    | none => none
    | some v =>
      if v = EGL_NO_TEXTURE ∨ v = EGL_TEXTURE_2D then
        some (Parsed.ok { a with textureTarget := v })
      else some (Parsed.fail EGL_BAD_ATTRIBUTE)
  else if key = EGL_MIPMAP_TEXTURE then
    match value with
    | none => none
    | some v =>
      if v ≠ EGL_FALSE then some (Parsed.fail EGL_BAD_ATTRIBUTE)
      else some (Parsed.ok a)
  else if key = EGL_VG_COLORSPACE then some (Parsed.fail EGL_BAD_MATCH)
  else if key = EGL_VG_ALPHA_FORMAT then some (Parsed.fail EGL_BAD_MATCH)
  else some (Parsed.fail EGL_BAD_ATTRIBUTE)

/-- The attribute loop of `Display::createOffscreenSurface`. -/
def parseOffscreenAttribs : List Int → OffscreenAttribs → Option (Parsed OffscreenAttribs)
  | [], _ => none
  | [k], a =>
    if k = EGL_NONE then some (Parsed.ok a)
    else
      match offscreenAttrib k none a with
      | some (Parsed.fail e) => some (Parsed.fail e)
      | _ => none
  | k :: v :: rest, a =>
    if k = EGL_NONE then some (Parsed.ok a)
    else
      match offscreenAttrib k (some v) a with
      | none => none
      | some (Parsed.fail e) => some (Parsed.fail e)
      | some (Parsed.ok a1) => parseOffscreenAttribs rest a1

/-- Modelled from the spec: `gl::isPow2` of `libGLESv2/mathutil.h`, which is not
among the sources; it is called on positive sizes only. -/
def isPow2 (x : Int) : Bool :=
  x ≠ 0 ∧ x.toNat &&& (x.toNat - 1) = 0

/-- The block `if (attribList) { while ... }` of `Display::createWindowSurface`;
`none` as argument is the null pointer. -/
def readWindowAttribs : Option (List Int) → Option (Parsed Unit)
  | none => some (Parsed.ok ())
  | some l => parseWindowAttribs l

/-- The block `if (attribList) { while ... }` of `Display::createOffscreenSurface`. -/
def readOffscreenAttribs : Option (List Int) → Option (Parsed OffscreenAttribs)
  | none => some (Parsed.ok OffscreenAttribs.init)
  | some l => parseOffscreenAttribs l OffscreenAttribs.init

/-- The test of `Display::createOffscreenSurface` on the pairing of texture
format and texture target. -/
def textureMismatch (a : OffscreenAttribs) : Bool :=
  (a.textureFormat ≠ EGL_NO_TEXTURE ∧ a.textureTarget = EGL_NO_TEXTURE) ∨
  (a.textureFormat = EGL_NO_TEXTURE ∧ a.textureTarget ≠ EGL_NO_TEXTURE)

/-- The test of `Display::createOffscreenSurface` on power-of-two sizes; the
backend is only asked when a texture format was requested. -/
def Display.needsPow2 (env : Env) (d : Display) (a : OffscreenAttribs) (w : World) :
    Option (Bool × World) :=
  if a.textureFormat ≠ EGL_NO_TEXTURE then
    if d.mRenderer = 0 then none
    else
      let w1 := w.log Event.getNonPower2TextureSupport
      some (!env.getNonPower2TextureSupport w1.trace
              && (!isPow2 a.width || !isPow2 a.height), w1)
  else some (false, w)

/-- The tail shared by both creation functions, from `new Surface` on:
`initialize()`, then `delete surface` on failure, else insertion and
`success(surface)`. -/
def Display.adoptSurface (env : Env) (d : Display) (w : World) (surface : Surface) :
    Option (Handle × Display × World) :=
  match surface.initialize env w with
  | none => none
  | some (false, s1, w1) => some (EGL_NO_SURFACE, d, (s1.release w1).2)
  | some (true, s1, w1) =>
    some (s1.self, { d with mSurfaceSet := setInsert Surface.self s1 d.mSurfaceSet }, success w1)

/-- The part of `Display::createOffscreenSurface` after the checks on the
attributes: device-loss recovery, `new Surface`, `initialize()`, insertion. -/
def Display.makeOffscreenSurface (env : Env) (d : Display) (w : World) (shareHandle : Handle)
    (a : OffscreenAttribs) : Option (Handle × Display × World) :=
  match d.recoverIfLost env w with
  | none => none
  | some (false, d1, w1) => some (EGL_NO_SURFACE, d1, w1)
  | some (true, d1, w1) =>
    let w2 := w1.log Event.newSurface
    let self := freshHandle (d1.mSurfaceSet.map Surface.self) (env.newSurface w2.trace)
    match Surface.mkOffscreen env self d1.mRenderer shareHandle a.width a.height
            a.textureFormat a.textureTarget (env.indeterminate w2.trace) with
    | none => none
    | some surface => d1.adoptSurface env w2 surface

/-- The part of `Display::createWindowSurface` after the checks on the
attributes and on the window: device-loss recovery, `new Surface`,
`initialize()`, insertion. -/
def Display.makeWindowSurface (env : Env) (d : Display) (w : World) (window : Handle) :
    Option (Handle × Display × World) :=
  match d.recoverIfLost env w with
  | none => none
  | some (false, d1, w1) => some (EGL_NO_SURFACE, d1, w1)
  | some (true, d1, w1) =>
    let w2 := w1.log Event.newSurface
    let self := freshHandle (d1.mSurfaceSet.map Surface.self) (env.newSurface w2.trace)
    match Surface.mkWindow env self d1.mRenderer window (env.indeterminate w2.trace) with
    | none => none
    | some surface => d1.adoptSurface env w2 surface

/-- Embeds `Display::createWindowSurface`; `attribList` is `none` for a null
pointer, else the array it points to. -/
def Display.createWindowSurface (env : Env) (d : Display) (w : World) (window : Handle)
    (attribList : Option (List Int)) : Option (Handle × Display × World) :=
  match readWindowAttribs attribList with
  | none => none
  | some (Parsed.fail e) => some (EGL_NO_SURFACE, d, error w e)
  | some (Parsed.ok _) =>
    if d.hasExistingWindowSurface window then some (EGL_NO_SURFACE, d, error w EGL_BAD_ALLOC)
    else d.makeWindowSurface env w window

/-- Embeds `Display::createOffscreenSurface`. -/
def Display.createOffscreenSurface (env : Env) (d : Display) (w : World) (shareHandle : Handle)
    (attribList : Option (List Int)) : Option (Handle × Display × World) :=
  match readOffscreenAttribs attribList with
  | none => none
  | some (Parsed.fail e) => some (EGL_NO_SURFACE, d, error w e)
  | some (Parsed.ok a) =>
    if a.width < 0 ∨ a.height < 0 then some (EGL_NO_SURFACE, d, error w EGL_BAD_PARAMETER)
    else if a.width = 0 ∨ a.height = 0 then some (EGL_NO_SURFACE, d, error w EGL_BAD_ATTRIBUTE)
    else
      match d.needsPow2 env a w with
      | none => none
      | some (true, w1) => some (EGL_NO_SURFACE, d, error w1 EGL_BAD_MATCH)
      | some (false, w1) =>
        if textureMismatch a then some (EGL_NO_SURFACE, d, error w1 EGL_BAD_MATCH)
        else d.makeOffscreenSurface env w1 shareHandle a

/-- The loop of `Display::recreateSwapChains`: `getSwapChain()->recreate()` on
every surface, undefined on a surface without swap chain. -/
def recreateSurfaces : List Surface → World → Option World
  | [], w => some w
  | s :: rest, w =>
    if s.getSwapChain = 0 then none
    else recreateSurfaces rest (w.log (Event.swapChainRecreate s.getSwapChain))

/-- Embeds `Display::recreateSwapChains`. -/
def Display.recreateSwapChains (d : Display) (w : World) : Option World :=
  recreateSurfaces d.mSurfaceSet w

/-! ## Sequences of calls -/

/-- A call of a member function of `Surface`, with its arguments. -/
inductive SurfaceCall where
  | init
  | release
  | resetSwapChain
  | resizeSwapChain (backbufferWidth backbufferHeight : Int)
  | resetSwapChainWH (backbufferWidth backbufferHeight : Int)
  | swapRect (x y width height : Int)
  | swap
  | checkForOutOfDateSwapChain
  | setSwapInterval (interval : Int)
  | setBoundTexture (texture : Handle)
  deriving DecidableEq, Repr

/-- Run one call on a surface; `d` is the display the surface belongs to. -/
def Surface.call (env : Env) (d : Display) (s : Surface) (w : World) :
    SurfaceCall → Option (Surface × World)
  | SurfaceCall.init => ( Surface.initialize env s w).map (fun r => r.2)
  | SurfaceCall.release => some (s.release w)
  | SurfaceCall.resetSwapChain => (s.resetSwapChain env w).map (fun r => r.2)
  | SurfaceCall.resizeSwapChain bw bh => (s.resizeSwapChain env d bw bh w).map (fun r => r.2)
  | SurfaceCall.resetSwapChainWH bw bh => (s.resetSwapChainWH env bw bh w).map (fun r => r.2)
  | SurfaceCall.swapRect x y width height =>
    (s.swapRect env d x y width height w).map (fun r => r.2)
  | SurfaceCall.swap => (s.swap env d w).map (fun r => r.2)
  | SurfaceCall.checkForOutOfDateSwapChain =>
    (s.checkForOutOfDateSwapChain env d w).map (fun r => r.2)
  | SurfaceCall.setSwapInterval interval => (s.setSwapInterval env interval).map (fun s1 => (s1, w))
  | SurfaceCall.setBoundTexture texture => some (s.setBoundTexture texture, w)

/-- Run a sequence of calls on one surface, each with the display as it is at
that moment. -/
def Surface.run (env : Env) : List (Display × SurfaceCall) → Surface × World →
    Option (Surface × World)
  | [], st => some st
  | (d, c) :: rest, st =>
    match Surface.call env d st.1 st.2 c with
    | none => none
    | some st1 => Surface.run env rest st1

/-- A call of a member function of `Display`, with its arguments. -/
inductive DisplayCall where
  | init
  | terminate
  | createWindowSurface (window : Handle) (attribList : Option (List Int))
  | createOffscreenSurface (shareHandle : Handle) (attribList : Option (List Int))
  | createContext (shareContext : Handle) (notifyResets robustAccess : Bool)
  | destroySurface (surface : Handle)
  | destroyContext (context : Handle)
  | restoreLostDevice
  deriving DecidableEq, Repr

/-- Run one call on the display. -/
def Display.call (env : Env) (d : Display) (w : World) : DisplayCall → Option (Display × World)
  | DisplayCall.init => ( Display.initialize env d w).map (fun r => r.2)
  | DisplayCall.terminate => d.terminate w
  | DisplayCall.createWindowSurface window attribList =>
    (d.createWindowSurface env w window attribList).map (fun r => r.2)
  | DisplayCall.createOffscreenSurface shareHandle attribList =>
    (d.createOffscreenSurface env w shareHandle attribList).map (fun r => r.2)
  | DisplayCall.createContext shareContext notifyResets robustAccess =>
    (d.createContext env w shareContext notifyResets robustAccess).map (fun r => r.2)
  | DisplayCall.destroySurface surface => d.destroySurface w surface
  | DisplayCall.destroyContext context => some (d.destroyContext w context)
  | DisplayCall.restoreLostDevice => (d.restoreLostDevice env w).map (fun r => r.2)

/-- Run a sequence of calls on the display. -/
def Display.run (env : Env) : List DisplayCall → Display × World → Option (Display × World)
  | [], st => some st
  | c :: rest, st =>
    match Display.call env st.1 st.2 c with
    | none => none
    | some st1 => Display.run env rest st1

/-! ## Classes of events -/

/-- Deleting a swap chain or releasing a texture image. -/
def Event.isRelease : Event → Bool
  | Event.swapChainDelete _ => true
  | Event.releaseTexImage _ => true
  | _ => false

/-- A request to the backend for a new swap chain. -/
def Event.isCreateSwapChain : Event → Bool
  | Event.createSwapChain _ _ _ _ => true
  | _ => false

/-! ## Concrete collaborators and states used in the examples -/

/-- A backend on which every call succeeds, no device is lost, the window is
800 x 600 and swap intervals range over `0 .. 4`. -/
def envOk : Env :=
  { minSwapInterval := 0
    maxSwapInterval := 4
    newRenderer := fun _ => 1
    rendererInitialize := fun _ => EGL_SUCCESS
    testDeviceLost := fun _ => false
    resetDevice := fun _ => true
    getNonPower2TextureSupport := fun _ => true
    createSwapChain := fun t => 100 + t.length
    swapChainReset := fun _ => EGL_SUCCESS
    swapChainResize := fun _ => EGL_SUCCESS
    swapChainSwapRect := fun _ => EGL_SUCCESS
    getClientRect := fun _ => some (800, 600)
    newSurface := fun t => 10 + t.length
    newContext := fun t => 50 + t.length
    glGetCurrentContext := fun _ => 0
    indeterminate := fun _ => false }

/-- As `envOk`, but the backend cannot make a swap chain for an offscreen
target. -/
def envNoOffscreen : Env :=
  { envOk with
    createSwapChain := fun t =>
      match t with
      | Event.createSwapChain 0 _ _ _ :: _ => 0
      | _ => 7 }

/-- As `envOk`, but the device reset fails. -/
def envResetFails : Env :=
  { envOk with resetDevice := fun _ => false }

/-- A sample world: no collaborator has been called and the recorded error is
`EGL_SUCCESS`, as after a call that succeeded. -/
def worldInit : World :=
  { current := { error := EGL_SUCCESS, API := 0, display := 0, drawSurface := 0,
                 readSurface := 0 },
    trace := [] }

/-- A live 64 x 64 offscreen surface. -/
def sampleOffscreen : Surface :=
  { self := 1, mRenderer := 1, mShareHandle := 0, mSwapChain := 5, mWindow := 0,
    mHeight := 64, mWidth := 64, mPixelAspectRatio := 10000,
    mTextureFormat := EGL_NO_TEXTURE, mTextureTarget := EGL_NO_TEXTURE,
    mSwapInterval := 1, mSwapIntervalDirty := false, mTexture := 0 }

/-- A live 640 x 480 surface on window `9`, bound to texture `4`. -/
def sampleWindow : Surface :=
  { self := 2, mRenderer := 1, mShareHandle := 0, mSwapChain := 6, mWindow := 9,
    mHeight := 480, mWidth := 640, mPixelAspectRatio := 10000,
    mTextureFormat := EGL_NO_TEXTURE, mTextureTarget := EGL_NO_TEXTURE,
    mSwapInterval := 1, mSwapIntervalDirty := false, mTexture := 4 }

/-- An initialized display with the two sample surfaces and no context. -/
def displayTwo : Display :=
  { mRenderer := 1, mSurfaceSet := [sampleOffscreen, sampleWindow], mContextSet := [] }

/-- As `displayTwo`, with one context that asked for reset notifications. -/
def displayNotifying : Display :=
  { displayTwo with mContextSet := [{ self := 3, resetNotification := true }] }

/-- The trace at the moment `Display::restoreLostDevice` calls
`mRenderer->resetDevice()`: every surface has been released. -/
def resetDeviceCall (d : Display) (w : World) : List Event :=
  Event.resetDevice :: (releaseSurfaces d.mSurfaceSet w).2.trace

/-- The members of a surface that only its constructor and
`setSwapInterval` write. -/
def Surface.Kept (s s1 : Surface) : Prop :=
  s1.self = s.self ∧ s1.mRenderer = s.mRenderer ∧ s1.mWindow = s.mWindow ∧
  s1.mShareHandle = s.mShareHandle ∧ s1.mSwapInterval = s.mSwapInterval

/-- The value `n` clamped into `[lo, hi]`. -/
def clampInterval (lo hi n : Int) : Int :=
  if n < lo then lo else if hi < n then hi else n

/-- The window surface on window `9` at address `10`, as its constructor
leaves it under `envOk`. -/
def sampleConstructed : Surface :=
  { self := 10, mRenderer := 1, mShareHandle := 0, mSwapChain := 0, mWindow := 9,
    mHeight := -1, mWidth := -1, mPixelAspectRatio := 10000,
    mTextureFormat := EGL_NO_TEXTURE, mTextureTarget := EGL_NO_TEXTURE,
    mSwapInterval := 1, mSwapIntervalDirty := true, mTexture := 0 }

/-! ## Attribute lists as key/value pairs -/

/-- The array behind an `EGL_NONE`-terminated list of key/value pairs. -/
def attribArray : List (Int × Int) → List Int
  | [] => [EGL_NONE]
  | (key, value) :: rest => key :: value :: attribArray rest

/-- The keys with a `case` of their own in `Display::createWindowSurface`. -/
def windowKeys : List Int :=
  [EGL_RENDER_BUFFER, EGL_VG_COLORSPACE, EGL_VG_ALPHA_FORMAT]

/-- The keys with a `case` of their own in `Display::createOffscreenSurface`. -/
def offscreenKeys : List Int :=
  [EGL_WIDTH, EGL_HEIGHT, EGL_LARGEST_PBUFFER, EGL_TEXTURE_FORMAT, EGL_TEXTURE_TARGET,
   EGL_MIPMAP_TEXTURE, EGL_VG_COLORSPACE, EGL_VG_ALPHA_FORMAT]

/-- The pairs `Display::createWindowSurface` answers with `EGL_BAD_MATCH`. -/
def windowBadMatch (p : Int × Int) : Prop :=
  p.1 = EGL_VG_COLORSPACE ∨ p.1 = EGL_VG_ALPHA_FORMAT ∨
  (p.1 = EGL_RENDER_BUFFER ∧ p.2 = EGL_SINGLE_BUFFER)

/-- The pairs `Display::createOffscreenSurface` answers with `EGL_BAD_MATCH`. -/
def offscreenBadMatch (p : Int × Int) : Prop :=
  p.1 = EGL_VG_COLORSPACE ∨ p.1 = EGL_VG_ALPHA_FORMAT

/-- The identity of a surface within its display: its address and the window
it is bound to. -/
def Surface.ident (s : Surface) : Handle × Handle :=
  (s.self, s.getWindowHandle)

/-- Two surface identities that can be live together: the addresses differ,
and the windows differ unless both are null. -/
def identsApart (a b : Handle × Handle) : Prop :=
  a.1 ≠ b.1 ∧ (a.2 = b.2 → a.2 = 0)

/-- The surface set of the display holds each surface once and each window
at most once. -/
def Display.surfacesApart (d : Display) : Prop :=
  (d.mSurfaceSet.map Surface.ident).Pairwise identsApart

/-- The outcome of a creation call that returned `r` for a surface on
`window` and left the display `d1`: either nothing was created and the
surfaces kept their identities, or `r` is a new address, not null, and the
surface set is the old one (identities kept) with an initialized surface at
`r` inserted. -/
def Created (d d1 : Display) (r window : Handle) : Prop :=
  (r = EGL_NO_SURFACE ∧ d1.mSurfaceSet.map Surface.ident = d.mSurfaceSet.map Surface.ident) ∨
  (r ≠ EGL_NO_SURFACE ∧ r ∉ d.mSurfaceSet.map Surface.self ∧
    ∃ s1 l, l.map Surface.ident = d.mSurfaceSet.map Surface.ident ∧
      s1.ident = (r, window) ∧ s1.mSwapChain ≠ 0 ∧
      d1.mSurfaceSet = setInsert Surface.self s1 l)

/-- As `envOk`, but the geometry query reports the size the sample surfaces
already have: 640 x 480 for window `9`, 64 x 64 otherwise. -/
def envSameSize : Env :=
  { envOk with
    getClientRect := fun t =>
      match t with
      | Event.getClientRect 9 :: _ => some (640, 480)
      | _ => some (64, 64) }

/-- As `worldInit`, with the surface at address `2` as current draw surface. -/
def worldDrawing : World :=
  { worldInit with current := { worldInit.current with drawSurface := 2 } }

/-- An initialized display without surfaces or contexts. -/
def displayEmpty : Display :=
  { mRenderer := 1, mSurfaceSet := [], mContextSet := [] }

/-- A call of `glDestroyContext`. -/
def Event.isDestroyContext : Event → Bool
  | Event.glDestroyContext _ => true
  | _ => false

/-- The call `Display::terminate` makes on the backend pointer `renderer`:
its destructor, unless the pointer is null. -/
def rendererTeardown (renderer : Handle) : List Event :=
  if renderer ≠ 0 then [Event.glDestroyRenderer renderer] else []

/-- A display with both sample surfaces and two contexts. -/
def displayFull : Display :=
  { displayTwo with
    mContextSet := [{ self := 3, resetNotification := false },
                    { self := 8, resetNotification := true }] }

/-- As `envOk`, but the backend supports the swap interval `0` only. -/
def envIntervalZero : Env :=
  { envOk with maxSwapInterval := 0 }

/-- As `envOk`, but the backend reports a lost device at every test. -/
def envLost : Env :=
  { envOk with testDeviceLost := fun _ => true }

/-- The world `w1` comes after `w`: its trace is the trace of `w` with
further calls on top. -/
def World.Extends (w w1 : World) : Prop :=
  ∃ new, w1.trace = new ++ w.trace

/-- Every surface of the display has a swap chain. -/
def Display.allLive (d : Display) : Prop :=
  ∀ s ∈ d.mSurfaceSet, s.getSwapChain ≠ 0

/-- The calls `Surface::release` makes on `s`, most recent first: `delete` on
the swap chain if there is one, then `releaseTexImage` on the bound texture if
there is one. -/
def Surface.releaseCalls (s : Surface) : List Event :=
  (if s.mTexture ≠ 0 then [Event.releaseTexImage s.mTexture] else []) ++
  (if s.mSwapChain ≠ 0 then [Event.swapChainDelete s.mSwapChain] else [])

/-- What the recovery protocol prescribes for one surface once the size to ask
for is known, stated over the calls made rather than taken from
`Surface::resetSwapChain`: `s` is the surface as it was before
`restoreLostDevice`, `t` the calls made so far; the result is the surface
afterwards and the calls made by then.  The surface has been released.  It
gets the swap chain the backend returns, with the size asked for and
`mSwapIntervalDirty` cleared, when the backend returns a swap chain and the
reset of that swap chain with the size asked for and the swap interval of
the surface reports success.  In every other case it stays as released,
without swap chain and with its old size; a swap chain whose reset failed is
deleted, after the backend has been notified if the status was
context-lost. -/
def Surface.recreatedAt (env : Env) (s : Surface) (width height : Int) (t : List Event) :
    Surface × List Event :=
  let released : Surface := { s with mSwapChain := 0, mTexture := 0 }
  let create :=
    Event.createSwapChain s.mWindow s.mShareHandle GL_RGBA8_OES GL_DEPTH24_STENCIL8_OES :: t
  let swapChain := env.createSwapChain create
  let reset := Event.swapChainReset swapChain width height s.mSwapInterval :: create
  if swapChain = 0 then (released, create)
  else if env.swapChainReset reset = EGL_SUCCESS then
    ({ released with mSwapChain := swapChain, mWidth := width, mHeight := height,
                     mSwapIntervalDirty := false }, reset)
  else if env.swapChainReset reset = EGL_CONTEXT_LOST then
    (released, Event.swapChainDelete swapChain :: Event.rendererNotifyDeviceLost :: reset)
  else (released, Event.swapChainDelete swapChain :: reset)

/-- What the recovery protocol prescribes for one surface, `t` being the calls
made so far when the re-creation of its swap chain begins.  The size asked
for is the client size that the geometry query, made now, reports for a
window-bound surface, and the surface's own width and height otherwise; when
the query fails the surface stays as released, without swap chain and with
its old size. -/
def Surface.restoredAt (env : Env) (s : Surface) (t : List Event) : Surface × List Event :=
  if s.mWindow ≠ 0 then
    match env.getClientRect (Event.getClientRect s.mWindow :: t) with
    | none => ({ s with mSwapChain := 0, mTexture := 0 }, Event.getClientRect s.mWindow :: t)
    | some (width, height) =>
      s.recreatedAt env width height (Event.getClientRect s.mWindow :: t)
  else s.recreatedAt env s.mWidth s.mHeight t

/-- What the recovery protocol prescribes for the surfaces `l`, restored one
after the other in set order, the first beginning after the calls `t`: the
surfaces afterwards and the calls made by then. -/
def restoredFrom (env : Env) : List Surface → List Event → List Surface × List Event
  | [], t => ([], t)
  | s :: rest, t =>
    let r := s.restoredAt env t
    let rs := restoredFrom env rest r.2
    (r.1 :: rs.1, rs.2)

/-! # Properties -/

/-! ## Frame lemmas for the surface functions -/

theorem Surface.release_fst (s : Surface) (w : World) :
    (s.release w).1 = { s with mSwapChain := 0, mTexture := 0 } := by
  cases s with
  | mk self r sh sc win h wd par tf tt si sid tex =>
    by_cases ht : tex = 0
    · subst ht; simp [Surface.release]
    · simp [Surface.release, ht]

theorem Surface.release_current (s : Surface) (w : World) :
    (s.release w).2.current = w.current := by
  by_cases h1 : s.mSwapChain = 0 <;> by_cases h2 : s.mTexture = 0 <;>
    simp [Surface.release, World.log, h1, h2]

theorem Event.not_create_of_release {e : Event} (h : e.isRelease = true) :
    e.isCreateSwapChain = false := by
  cases e <;> simp_all [Event.isRelease, Event.isCreateSwapChain]

theorem Surface.release_trace (s : Surface) (w : World) :
    ∃ new, (s.release w).2.trace = new ++ w.trace ∧ ∀ e ∈ new, e.isRelease = true := by
  unfold Surface.release World.log
  by_cases h1 : s.mSwapChain = 0 <;> by_cases h2 : s.mTexture = 0
  · exact ⟨[], by simp [h1, h2]⟩
  · exact ⟨[Event.releaseTexImage s.mTexture], by simp [h1, h2, Event.isRelease]⟩
  · exact ⟨[Event.swapChainDelete s.mSwapChain], by simp [h1, h2, Event.isRelease]⟩
  · exact ⟨[Event.releaseTexImage s.mTexture, Event.swapChainDelete s.mSwapChain],
      by simp [h1, h2, Event.isRelease]⟩

theorem releaseSurfaces_fst (l : List Surface) (w : World) :
    (releaseSurfaces l w).1 = l.map (fun s => { s with mSwapChain := 0, mTexture := 0 }) := by
  induction l generalizing w with
  | nil => rfl
  | cons s rest ih => simp [releaseSurfaces, Surface.release_fst, ih]

theorem releaseSurfaces_current (l : List Surface) (w : World) :
    (releaseSurfaces l w).2.current = w.current := by
  induction l generalizing w with
  | nil => rfl
  | cons s rest ih => simp [releaseSurfaces, Surface.release_current, ih]

theorem releaseSurfaces_trace (l : List Surface) (w : World) :
    ∃ new, (releaseSurfaces l w).2.trace = new ++ w.trace ∧ ∀ e ∈ new, e.isRelease = true := by
  induction l generalizing w with
  | nil => exact ⟨[], by simp [releaseSurfaces]⟩
  | cons s rest ih =>
    obtain ⟨n1, h1, h1'⟩ := Surface.release_trace s w
    obtain ⟨n2, h2, h2'⟩ := ih (s.release w).2
    refine ⟨n2 ++ n1, ?_, ?_⟩
    · simp [releaseSurfaces, h2, h1]
    · intro e he
      rcases List.mem_append.mp he with h | h
      · exact h2' e h
      · exact h1' e h

theorem Surface.resetSwapChainWH_eq {env : Env} {s s' : Surface} {bw bh : Int} {w w' : World}
    {b : Bool} (h : s.resetSwapChainWH env bw bh w = some (b, s', w')) :
    s.mSwapChain ≠ 0 ∧
    ((b = true ∧ s' = { s with mWidth := bw, mHeight := bh, mSwapIntervalDirty := false }) ∨
     (b = false ∧ s' = s)) := by
  unfold Surface.resetSwapChainWH at h
  split at h
  · cases h
  · rename_i hsc
    refine ⟨hsc, ?_⟩
    simp only at h
    split at h
    · split at h
      · cases h
      · simp only [Option.some.injEq, Prod.mk.injEq] at h
        exact Or.inr ⟨h.1.symm, h.2.1.symm⟩
    · split at h
      · simp only [Option.some.injEq, Prod.mk.injEq] at h
        exact Or.inr ⟨h.1.symm, h.2.1.symm⟩
      · simp only [Option.some.injEq, Prod.mk.injEq] at h
        exact Or.inl ⟨h.1.symm, h.2.1.symm⟩

theorem Surface.createAndReset_eq {env : Env} {s s' : Surface} {width height : Int}
    {w w' : World} {b : Bool} (h : s.createAndReset env width height w = some (b, s', w')) :
    (b = true ∧ s'.mSwapChain ≠ 0 ∧
      s' = { s with mSwapChain := s'.mSwapChain, mWidth := width, mHeight := height,
                    mSwapIntervalDirty := false }) ∨
    (b = false ∧ s' = { s with mSwapChain := 0 }) := by
  unfold Surface.createAndReset at h
  simp only at h
  split at h
  · cases h
  · split at h
    · rename_i hz
      simp only [Option.some.injEq, Prod.mk.injEq] at h
      refine Or.inr ⟨h.1.symm, ?_⟩
      rw [← h.2.1, hz]
    · split at h
      · cases h
      · rename_i s2 w2 heq
        simp only [Option.some.injEq, Prod.mk.injEq] at h
        obtain ⟨hsc, hcase⟩ := Surface.resetSwapChainWH_eq heq
        rcases hcase with ⟨_, hs2⟩ | ⟨hf, _⟩
        · refine Or.inl ⟨h.1.symm, ?_, ?_⟩
          · rw [← h.2.1, hs2]; exact hsc
          · rw [← h.2.1, hs2]
        · cases hf
      · rename_i s2 w2 heq
        simp only [Option.some.injEq, Prod.mk.injEq] at h
        obtain ⟨hsc, hcase⟩ := Surface.resetSwapChainWH_eq heq
        rcases hcase with ⟨ht, _⟩ | ⟨_, hs2⟩
        · cases ht
        · refine Or.inr ⟨h.1.symm, ?_⟩
          rw [← h.2.1, hs2]

theorem Surface.resetSwapChain_eq {env : Env} {s s' : Surface} {w w' : World} {b : Bool}
    (h : s.resetSwapChain env w = some (b, s', w')) :
    (b = true ∧ s'.mSwapChain ≠ 0 ∧
      s' = { s with mSwapChain := s'.mSwapChain, mWidth := s'.mWidth, mHeight := s'.mHeight,
                    mSwapIntervalDirty := false } ∧
      (s.mWindow = 0 → s'.mWidth = s.mWidth ∧ s'.mHeight = s.mHeight) ∧
      (s.mWindow ≠ 0 → ∃ t, env.getClientRect t = some (s'.mWidth, s'.mHeight))) ∨
    (b = false ∧ (s' = s ∨ s' = { s with mSwapChain := 0 })) := by
  unfold Surface.resetSwapChain at h
  simp only at h
  split at h
  · rename_i hwin
    split at h
    · simp only [Option.some.injEq, Prod.mk.injEq] at h
      exact Or.inr ⟨h.1.symm, Or.inl h.2.1.symm⟩
    · rename_i cw chh hq
      rcases Surface.createAndReset_eq h with ⟨hb, hsc, hs⟩ | ⟨hb, hs⟩
      · refine Or.inl ⟨hb, hsc, ?_, fun h0 => absurd h0 hwin, fun _ => ⟨_, hq.trans ?_⟩⟩
        · rw [hs]
        · rw [hs]
      · exact Or.inr ⟨hb, Or.inr hs⟩
  · rename_i hwin
    have hwin0 : s.mWindow = 0 := by simpa using hwin
    rcases Surface.createAndReset_eq h with ⟨hb, hsc, hs⟩ | ⟨hb, hs⟩
    · refine Or.inl ⟨hb, hsc, ?_, fun _ => ?_, fun h0 => absurd hwin0 h0⟩
      · rw [hs]
      · rw [hs]; exact ⟨rfl, rfl⟩
    · exact Or.inr ⟨hb, Or.inr hs⟩

/-! ## Device-loss recovery -/

theorem resetSurfaces_forall₂ {env : Env} {l l' : List Surface} {w w' : World}
    (h : resetSurfaces env l w = some (l', w')) :
    List.Forall₂ (fun s s1 => ∃ b w0 w1, s.resetSwapChain env w0 = some (b, s1, w1)) l l' := by
  induction l generalizing l' w w' with
  | nil =>
    simp only [resetSurfaces, Option.some.injEq, Prod.mk.injEq] at h
    rw [← h.1]; exact List.Forall₂.nil
  | cons s rest ih =>
    simp only [resetSurfaces] at h
    split at h
    · cases h
    · rename_i b s1 w1 hs
      split at h
      · cases h
      · rename_i rest1 w2 hr
        simp only [Option.some.injEq, Prod.mk.injEq] at h
        rw [← h.1]
        exact List.Forall₂.cons ⟨b, w, w1, hs⟩ (ih hr)

/-- Claim C1. When a tracked context has reset notifications enabled,
`restoreLostDevice` returns `false` and leaves the display (the surface set and
every member of every surface) and the world (no collaborator is called, no
swap chain released or recreated) exactly as they were. -/
theorem restoreLostDevice_refused_when_notifying (env : Env) (d : Display) (w : World)
    (h : ∃ c ∈ d.mContextSet, c.isResetNotificationEnabled = true) :
    d.restoreLostDevice env w = some (false, d, w) := by
  have hany : d.mContextSet.any Context.isResetNotificationEnabled = true :=
    List.any_eq_true.mpr h
  simp [Display.restoreLostDevice, hany]

/-- Claim C1 at a concrete input: `displayNotifying`, one of whose contexts asked for reset notifications. -/
theorem restoreLostDevice_refused_when_notifying_witness :
    (∃ c ∈ displayNotifying.mContextSet, c.isResetNotificationEnabled = true) ∧
    displayNotifying.restoreLostDevice envResetFails worldInit
      = some (false, displayNotifying, worldInit) :=
  ⟨⟨⟨3, true⟩, by decide, rfl⟩,
   restoreLostDevice_refused_when_notifying envResetFails displayNotifying worldInit
     ⟨⟨3, true⟩, by decide, rfl⟩⟩

/-- Claim C2, as stated, fails: with a backend that cannot recreate the swap
chain of the offscreen surface and a window that now measures 800 x 600,
`restoreLostDevice` returns `true`, the offscreen surface is left without
swap chain and the window surface has changed from 640 x 480 to 800 x 600. -/
theorem restoreLostDevice_success_loses_swap_chain_and_size :
    ∃ d1 w1, displayTwo.restoreLostDevice envNoOffscreen worldInit = some (true, d1, w1) ∧
      d1.mSurfaceSet.map (fun s => (s.self, s.mSwapChain, s.mWidth, s.mHeight))
        = [(1, 0, 64, 64), (2, 7, 800, 600)] ∧
      displayTwo.mSurfaceSet.map (fun s => (s.self, s.mSwapChain, s.mWidth, s.mHeight))
        = [(1, 5, 64, 64), (2, 6, 640, 480)] :=
  ⟨_, _, rfl, by decide, by decide⟩

theorem Surface.createAndReset_recreatedAt {env : Env} {s s1 : Surface} {w w1 : World}
    {b : Bool} {width height : Int}
    (h : ({ s with mSwapChain := 0, mTexture := 0 } : Surface).createAndReset env width height w
      = some (b, s1, w1)) :
    (s1, w1.trace) = s.recreatedAt env width height w.trace := by
  unfold Surface.createAndReset Surface.resetSwapChainWH at h
  unfold Surface.recreatedAt
  simp only [World.log, error, setCurrentError] at h ⊢
  generalize env.createSwapChain (Event.createSwapChain s.mWindow s.mShareHandle GL_RGBA8_OES
          GL_DEPTH24_STENCIL8_OES :: w.trace) = sc at h ⊢
  generalize env.swapChainReset (Event.swapChainReset sc width height s.mSwapInterval
          :: Event.createSwapChain s.mWindow s.mShareHandle GL_RGBA8_OES
            GL_DEPTH24_STENCIL8_OES :: w.trace) = status at h ⊢
  have hne : ¬ EGL_SUCCESS = EGL_CONTEXT_LOST := by decide
  have hne2 : ¬ EGL_CONTEXT_LOST = EGL_SUCCESS := by decide
  by_cases hr : s.mRenderer = 0
  · simp [hr] at h
  by_cases hsc : sc = 0
  · simp [hr, hsc] at h
    simp [hsc, ← h.2.1, ← h.2.2]
  by_cases hok : status = EGL_SUCCESS
  · have hnl : ¬ status = EGL_CONTEXT_LOST := by rw [hok]; decide
    simp [hr, hsc, hok, hne] at h
    simp [hsc, hok, ← h.2.1, ← h.2.2]
  by_cases hl : status = EGL_CONTEXT_LOST
  · simp [hr, hsc, hl, hne2] at h
    simp [hsc, hl, hne2, ← h.2.1, ← h.2.2]
  · simp [hr, hsc, hok, hl] at h
    simp [hsc, hok, hl, ← h.2.1, ← h.2.2]

theorem Surface.resetSwapChain_restoredAt {env : Env} {s s1 : Surface} {w w1 : World}
    {b : Bool}
    (h : ({ s with mSwapChain := 0, mTexture := 0 } : Surface).resetSwapChain env w
      = some (b, s1, w1)) :
    (s1, w1.trace) = s.restoredAt env w.trace := by
  unfold Surface.resetSwapChain at h
  unfold Surface.restoredAt
  simp only [Surface.getWindowHandle, World.log] at h
  by_cases hwin : s.mWindow = 0
  · rw [if_neg (by simpa using hwin)] at h
    rw [if_neg (by simpa using hwin)]
    exact Surface.createAndReset_recreatedAt h
  · rw [if_pos (by simpa using hwin)] at h
    rw [if_pos (by simpa using hwin)]
    split at h
    · rename_i hq
      simp only [Option.some.injEq, Prod.mk.injEq] at h
      simp only [← h.2.1, ← h.2.2, error, setCurrentError]
    · rename_i cw chh hq
      exact Surface.createAndReset_recreatedAt h

theorem resetSurfaces_restoredFrom {env : Env} {l l1 : List Surface} {w w1 : World}
    (h : resetSurfaces env (l.map (fun s => { s with mSwapChain := 0, mTexture := 0 })) w
      = some (l1, w1)) :
    (l1, w1.trace) = restoredFrom env l w.trace := by
  induction l generalizing l1 w w1 with
  | nil =>
    simp only [List.map_nil, resetSurfaces, Option.some.injEq, Prod.mk.injEq] at h
    rw [← h.1, ← h.2]
    rfl
  | cons s rest ih =>
    simp only [List.map_cons, resetSurfaces] at h
    split at h
    · cases h
    · rename_i b s1 w2 hs
      split at h
      · cases h
      · rename_i rest1 w3 hr
        simp only [Option.some.injEq, Prod.mk.injEq] at h
        have h1 := Surface.resetSwapChain_restoredAt hs
        have h2 := ih hr
        have h1a : s1 = (s.restoredAt env w.trace).1 := congrArg Prod.fst h1
        have h1b : w2.trace = (s.restoredAt env w.trace).2 := congrArg Prod.snd h1
        rw [h1b] at h2
        have h2a := congrArg Prod.fst h2
        have h2b := congrArg Prod.snd h2
        simp only at h2a h2b
        simp only [restoredFrom, ← h1a, ← h2a, ← h2b, ← h.1, ← h.2]

theorem Surface.recreatedAt_shape (env : Env) (s : Surface) (width height : Int)
    (t : List Event) :
    (s.recreatedAt env width height t).1.self = s.self ∧
    (s.recreatedAt env width height t).1.mWindow = s.mWindow ∧
    (s.recreatedAt env width height t).1.mShareHandle = s.mShareHandle ∧
    (s.recreatedAt env width height t).1.mTexture = 0 ∧
    (((s.recreatedAt env width height t).1.mSwapChain ≠ 0 ∧
        (s.recreatedAt env width height t).1.mWidth = width ∧
        (s.recreatedAt env width height t).1.mHeight = height) ∨
      ((s.recreatedAt env width height t).1.mSwapChain = 0 ∧
        (s.recreatedAt env width height t).1.mWidth = s.mWidth ∧
        (s.recreatedAt env width height t).1.mHeight = s.mHeight)) := by
  unfold Surface.recreatedAt
  simp only
  split_ifs with h1 h2 h3
  · exact ⟨rfl, rfl, rfl, rfl, Or.inr ⟨rfl, rfl, rfl⟩⟩
  · exact ⟨rfl, rfl, rfl, rfl, Or.inl ⟨h1, rfl, rfl⟩⟩
  · exact ⟨rfl, rfl, rfl, rfl, Or.inr ⟨rfl, rfl, rfl⟩⟩
  · exact ⟨rfl, rfl, rfl, rfl, Or.inr ⟨rfl, rfl, rfl⟩⟩

theorem Surface.restoredAt_shape (env : Env) (s : Surface) (t : List Event) :
    (s.restoredAt env t).1.self = s.self ∧
    (s.restoredAt env t).1.mWindow = s.mWindow ∧
    (s.restoredAt env t).1.mShareHandle = s.mShareHandle ∧
    (s.restoredAt env t).1.mTexture = 0 ∧
    ((s.restoredAt env t).1.mSwapChain ≠ 0 ∨
      ((s.restoredAt env t).1.mSwapChain = 0 ∧ (s.restoredAt env t).1.mWidth = s.mWidth ∧
        (s.restoredAt env t).1.mHeight = s.mHeight)) ∧
    (s.mWindow = 0 →
      (s.restoredAt env t).1.mWidth = s.mWidth ∧ (s.restoredAt env t).1.mHeight = s.mHeight) := by
  unfold Surface.restoredAt
  by_cases hwin : s.mWindow = 0
  · rw [if_neg (by simpa using hwin)]
    obtain ⟨h1, h2, h3, h4, h5⟩ := Surface.recreatedAt_shape env s s.mWidth s.mHeight t
    refine ⟨h1, h2, h3, h4, ?_, fun _ => ?_⟩
    · rcases h5 with h | h
      · exact Or.inl h.1
      · exact Or.inr h
    · rcases h5 with h | h
      · exact h.2
      · exact h.2
  · rw [if_pos (by simpa using hwin)]
    split
    · exact ⟨rfl, rfl, rfl, rfl, Or.inr ⟨rfl, rfl, rfl⟩, fun h0 => absurd h0 hwin⟩
    · rename_i cw chh _
      obtain ⟨h1, h2, h3, h4, h5⟩ := Surface.recreatedAt_shape env s cw chh
        (Event.getClientRect s.mWindow :: t)
      refine ⟨h1, h2, h3, h4, ?_, fun h0 => absurd h0 hwin⟩
      rcases h5 with h | h
      · exact Or.inl h.1
      · exact Or.inr h

theorem restoredFrom_shape (env : Env) (l : List Surface) (t : List Event) :
    List.Forall₂ (fun s s1 =>
        s1.self = s.self ∧ s1.mWindow = s.mWindow ∧ s1.mShareHandle = s.mShareHandle ∧
        s1.mTexture = 0 ∧
        (s1.mSwapChain ≠ 0 ∨
          (s1.mSwapChain = 0 ∧ s1.mWidth = s.mWidth ∧ s1.mHeight = s.mHeight)) ∧
        (s.mWindow = 0 → s1.mWidth = s.mWidth ∧ s1.mHeight = s.mHeight))
      l (restoredFrom env l t).1 := by
  induction l generalizing t with
  | nil => exact List.Forall₂.nil
  | cons s rest ih =>
    simp only [restoredFrom]
    exact List.Forall₂.cons (Surface.restoredAt_shape env s t) (ih _)

/-- Claim C2, amended.  If `restoreLostDevice` returns `true`, the device reset
made after the releases succeeded, the context set and the backend are
unchanged, and the surface set and the calls made are the ones `restoredFrom`
prescribes: the surfaces were restored one after the other, in set order,
after the reset, each as `Surface.restoredAt` says.  So every surface that was
live is still in the set, in its place, with its identity, window and share
handle and without bound texture; an offscreen surface keeps its width and
height; and a surface has a swap chain again, with the size asked for at its
re-creation, exactly when the geometry query (for a window-bound surface),
the backend's `createSwapChain` and the reset of the new swap chain all
succeeded at that moment, and otherwise has none and keeps its width and
height. -/
theorem restoreLostDevice_success_restored (env : Env) (d d1 : Display) (w w1 : World)
    (h : d.restoreLostDevice env w = some (true, d1, w1)) :
    env.resetDevice (resetDeviceCall d w) = true ∧
    d1.mSurfaceSet = (restoredFrom env d.mSurfaceSet (resetDeviceCall d w)).1 ∧
    w1.trace = (restoredFrom env d.mSurfaceSet (resetDeviceCall d w)).2 ∧
    d1.mContextSet = d.mContextSet ∧ d1.mRenderer = d.mRenderer ∧
    List.Forall₂ (fun s s1 =>
        s1.self = s.self ∧ s1.mWindow = s.mWindow ∧ s1.mShareHandle = s.mShareHandle ∧
        s1.mTexture = 0 ∧
        (s1.mSwapChain ≠ 0 ∨
          (s1.mSwapChain = 0 ∧ s1.mWidth = s.mWidth ∧ s1.mHeight = s.mHeight)) ∧
        (s.mWindow = 0 → s1.mWidth = s.mWidth ∧ s1.mHeight = s.mHeight))
      d.mSurfaceSet d1.mSurfaceSet := by
  unfold Display.restoreLostDevice at h
  simp only at h
  split at h
  · simp at h
  · split at h
    · cases h
    · split at h
      · simp at h
      · rename_i hreset
        split at h
        · cases h
        · rename_i ss w3 hr
          simp only [Option.some.injEq, Prod.mk.injEq, true_and] at h
          rw [releaseSurfaces_fst] at hr
          have hx := resetSurfaces_restoredFrom hr
          have hxa : ss = (restoredFrom env d.mSurfaceSet (resetDeviceCall d w)).1 :=
            congrArg Prod.fst hx
          have hxb : w3.trace = (restoredFrom env d.mSurfaceSet (resetDeviceCall d w)).2 :=
            congrArg Prod.snd hx
          refine ⟨?_, ?_, ?_, ?_, ?_, ?_⟩
          · simpa [resetDeviceCall, World.log] using hreset
          · rw [← h.1]; exact hxa
          · rw [← h.2]; exact hxb
          · rw [← h.1]
          · rw [← h.1]
          · rw [← h.1]
            simp only
            rw [hxa]
            exact restoredFrom_shape env _ _

/-- Claim C2 at a concrete input: `displayTwo` with a backend that cannot make
offscreen swap chains and a window that now measures 800 x 600. -/
theorem restoreLostDevice_success_restored_witness :
    ∃ d1 w1, displayTwo.restoreLostDevice envNoOffscreen worldInit = some (true, d1, w1) ∧
      (restoredFrom envNoOffscreen displayTwo.mSurfaceSet
          (resetDeviceCall displayTwo worldInit)).1.map
          (fun s => (s.self, s.mSwapChain, s.mWidth, s.mHeight, s.mTexture))
        = [(1, 0, 64, 64, 0), (2, 7, 800, 600, 0)] ∧
      d1.mSurfaceSet = (restoredFrom envNoOffscreen displayTwo.mSurfaceSet
          (resetDeviceCall displayTwo worldInit)).1 ∧
      w1.trace = (restoredFrom envNoOffscreen displayTwo.mSurfaceSet
          (resetDeviceCall displayTwo worldInit)).2 :=
  ⟨_, _, rfl, by decide,
    (restoreLostDevice_success_restored envNoOffscreen displayTwo _ worldInit _ rfl).2.1,
    (restoreLostDevice_success_restored envNoOffscreen displayTwo _ worldInit _ rfl).2.2.1⟩

/-- Claim C3. With no notification-enabled context and an initialized display,
if the backend call `resetDevice()` fails then `restoreLostDevice` returns
`false` and records `EGL_BAD_ALLOC`; every surface is the one it was with
swap chain and bound texture null (so the surface set has the same
members), the context set and the backend are unchanged, and the calls made
are releases followed by the one `resetDevice`: no swap chain is asked for. -/
theorem restoreLostDevice_reset_failure (env : Env) (d : Display) (w : World)
    (hctx : ∀ c ∈ d.mContextSet, c.isResetNotificationEnabled = false)
    (hinit : d.mRenderer ≠ 0)
    (hreset : env.resetDevice (resetDeviceCall d w) = false) :
    ∃ d1 w1, d.restoreLostDevice env w = some (false, d1, w1) ∧
      getCurrentError w1 = EGL_BAD_ALLOC ∧
      d1.mSurfaceSet = d.mSurfaceSet.map (fun s => { s with mSwapChain := 0, mTexture := 0 }) ∧
      (∀ s ∈ d1.mSurfaceSet, s.mSwapChain = 0 ∧ s.mTexture = 0) ∧
      d1.mSurfaceSet.map Surface.self = d.mSurfaceSet.map Surface.self ∧
      d1.mContextSet = d.mContextSet ∧ d1.mRenderer = d.mRenderer ∧
      ∃ new, w1.trace = Event.resetDevice :: (new ++ w.trace) ∧
        (∀ e ∈ new, e.isRelease = true) ∧
        ∀ e ∈ Event.resetDevice :: new, e.isCreateSwapChain = false := by
  have hany : d.mContextSet.any Context.isResetNotificationEnabled = false := by
    rw [List.any_eq_false]
    intro c hc
    simp [hctx c hc]
  obtain ⟨new, htr, hnew⟩ := releaseSurfaces_trace d.mSurfaceSet w
  unfold resetDeviceCall at hreset
  refine ⟨{ d with mSurfaceSet := (releaseSurfaces d.mSurfaceSet w).1 },
    error ((releaseSurfaces d.mSurfaceSet w).2.log Event.resetDevice) EGL_BAD_ALLOC,
    ?_, rfl, ?_, ?_, ?_, rfl, rfl, new, ?_, hnew, ?_⟩
  · simp [Display.restoreLostDevice, hany, hinit, World.log, hreset]
  · exact releaseSurfaces_fst _ _
  · intro s hs
    simp only [releaseSurfaces_fst, List.mem_map] at hs
    obtain ⟨s0, _, rfl⟩ := hs
    exact ⟨rfl, rfl⟩
  · simp [releaseSurfaces_fst]
  · simp [error, setCurrentError, World.log, htr]
  · intro e he
    rcases List.mem_cons.mp he with rfl | h
    · rfl
    · exact Event.not_create_of_release (hnew e h)

/-- Claim C3 at a concrete input: `displayTwo` with a backend whose device reset fails. -/
theorem restoreLostDevice_reset_failure_witness :
    (∀ c ∈ displayTwo.mContextSet, c.isResetNotificationEnabled = false) ∧
    displayTwo.mRenderer ≠ 0 ∧
    envResetFails.resetDevice (resetDeviceCall displayTwo worldInit) = false ∧
    ∃ d1 w1, displayTwo.restoreLostDevice envResetFails worldInit = some (false, d1, w1) ∧
      getCurrentError w1 = EGL_BAD_ALLOC ∧
      d1.mSurfaceSet
        = displayTwo.mSurfaceSet.map (fun s => { s with mSwapChain := 0, mTexture := 0 }) ∧
      (∀ s ∈ d1.mSurfaceSet, s.mSwapChain = 0 ∧ s.mTexture = 0) ∧
      d1.mSurfaceSet.map Surface.self = displayTwo.mSurfaceSet.map Surface.self ∧
      d1.mContextSet = displayTwo.mContextSet ∧ d1.mRenderer = displayTwo.mRenderer ∧
      ∃ new, w1.trace = Event.resetDevice :: (new ++ worldInit.trace) ∧
        (∀ e ∈ new, e.isRelease = true) ∧
        ∀ e ∈ Event.resetDevice :: new, e.isCreateSwapChain = false :=
  ⟨by decide, by decide, rfl,
   restoreLostDevice_reset_failure envResetFails displayTwo worldInit (by decide) (by decide) rfl⟩

/-! ## Members no call changes -/

theorem Surface.Kept.refl (s : Surface) : s.Kept s := ⟨rfl, rfl, rfl, rfl, rfl⟩

theorem Surface.Kept.trans {s s1 s2 : Surface} (h1 : s.Kept s1) (h2 : s1.Kept s2) : s.Kept s2 :=
  ⟨h2.1.trans h1.1, h2.2.1.trans h1.2.1, h2.2.2.1.trans h1.2.2.1,
   h2.2.2.2.1.trans h1.2.2.2.1, h2.2.2.2.2.trans h1.2.2.2.2⟩

theorem Surface.release_kept (s : Surface) (w : World) : s.Kept (s.release w).1 := by
  rw [Surface.release_fst]; exact ⟨rfl, rfl, rfl, rfl, rfl⟩

theorem Surface.resetSwapChainWH_kept {env : Env} {s s1 : Surface} {bw bh : Int} {w w1 : World}
    {b : Bool} (h : s.resetSwapChainWH env bw bh w = some (b, s1, w1)) : s.Kept s1 := by
  rcases (Surface.resetSwapChainWH_eq h).2 with ⟨_, hs⟩ | ⟨_, hs⟩ <;> subst hs <;>
    exact ⟨rfl, rfl, rfl, rfl, rfl⟩

theorem Surface.resetSwapChain_kept {env : Env} {s s1 : Surface} {w w1 : World} {b : Bool}
    (h : s.resetSwapChain env w = some (b, s1, w1)) : s.Kept s1 := by
  rcases Surface.resetSwapChain_eq h with ⟨_, _, hs, _⟩ | ⟨_, hs | hs⟩
  · rw [hs]; exact ⟨rfl, rfl, rfl, rfl, rfl⟩
  · subst hs; exact Surface.Kept.refl _
  · subst hs; exact ⟨rfl, rfl, rfl, rfl, rfl⟩

theorem Surface.initialize_kept {env : Env} {s s1 : Surface} {w w1 : World} {b : Bool}
    (h : Surface.initialize env s w = some (b, s1, w1)) : s.Kept s1 := by
  unfold Surface.initialize at h
  split at h
  · cases h
  · rename_i s2 w2 hr
    simp only [Option.some.injEq, Prod.mk.injEq] at h
    rw [← h.2.1]; exact Surface.resetSwapChain_kept hr
  · rename_i s2 w2 hr
    simp only [Option.some.injEq, Prod.mk.injEq] at h
    rw [← h.2.1]; exact Surface.resetSwapChain_kept hr

theorem Surface.resizeSwapChain_eq {env : Env} {d : Display} {s s1 : Surface} {bw bh : Int}
    {w w1 : World} {b : Bool} (h : s.resizeSwapChain env d bw bh w = some (b, s1, w1)) :
    s.mSwapChain ≠ 0 ∧
    ((b = true ∧ s1 = { s with mWidth := bw, mHeight := bh }) ∨ (b = false ∧ s1 = s)) := by
  unfold Surface.resizeSwapChain at h
  split at h
  · cases h
  · rename_i hsc
    refine ⟨hsc, ?_⟩
    simp only at h
    split at h
    · simp only [Option.some.injEq, Prod.mk.injEq] at h
      exact Or.inr ⟨h.1.symm, h.2.1.symm⟩
    · split at h
      · simp only [Option.some.injEq, Prod.mk.injEq] at h
        exact Or.inr ⟨h.1.symm, h.2.1.symm⟩
      · simp only [Option.some.injEq, Prod.mk.injEq] at h
        exact Or.inl ⟨h.1.symm, h.2.1.symm⟩

theorem Surface.resizeSwapChain_kept {env : Env} {d : Display} {s s1 : Surface} {bw bh : Int}
    {w w1 : World} {b : Bool} (h : s.resizeSwapChain env d bw bh w = some (b, s1, w1)) :
    s.Kept s1 := by
  rcases (Surface.resizeSwapChain_eq h).2 with ⟨_, hs⟩ | ⟨_, hs⟩ <;> subst hs <;>
    exact ⟨rfl, rfl, rfl, rfl, rfl⟩

theorem Surface.checkForOutOfDateSwapChain_kept {env : Env} {d : Display} {s s1 : Surface}
    {w w1 : World} {b : Bool}
    (h : s.checkForOutOfDateSwapChain env d w = some (b, s1, w1)) : s.Kept s1 := by
  unfold Surface.checkForOutOfDateSwapChain at h
  simp only at h
  split at h
  · simp only [Option.some.injEq, Prod.mk.injEq] at h
    rw [← h.2.1]; exact Surface.Kept.refl _
  · rename_i cw chh _
    split at h
    · cases h
    · rename_i s2 w2 hch
      have hk : s.Kept s2 := by
        split at hch
        · rw [Option.map_eq_some'] at hch
          obtain ⟨⟨b0, s3, w3⟩, hr, he⟩ := hch
          simp only [Prod.mk.injEq] at he
          rw [← he.1]; exact Surface.resetSwapChainWH_kept hr
        · split at hch
          · rw [Option.map_eq_some'] at hch
            obtain ⟨⟨b0, s3, w3⟩, hr, he⟩ := hch
            simp only [Prod.mk.injEq] at he
            rw [← he.1]; exact Surface.resizeSwapChain_kept hr
          · simp only [Option.some.injEq, Prod.mk.injEq] at hch
            rw [← hch.1]; exact Surface.Kept.refl _
      split at h
      · split at h <;>
        · simp only [Option.some.injEq, Prod.mk.injEq] at h
          rw [← h.2.1]; exact hk
      · simp only [Option.some.injEq, Prod.mk.injEq] at h
        rw [← h.2.1]; exact hk

theorem Surface.swapRect_kept {env : Env} {d : Display} {s s1 : Surface} {x y width height : Int}
    {w w1 : World} {b : Bool}
    (h : s.swapRect env d x y width height w = some (b, s1, w1)) : s.Kept s1 := by
  unfold Surface.swapRect at h
  simp only at h
  split at h
  · simp only [Option.some.injEq, Prod.mk.injEq] at h
    rw [← h.2.1]; exact Surface.Kept.refl _
  · generalize (if wrapEGLint (x + width) > s.mWidth then wrapEGLint (s.mWidth - x)
      else width) = wd at h
    generalize (if wrapEGLint (y + height) > s.mHeight then wrapEGLint (s.mHeight - y)
      else height) = ht at h
    split at h
    · simp only [Option.some.injEq, Prod.mk.injEq] at h
      rw [← h.2.1]; exact Surface.Kept.refl _
    · split at h
      · split at h
        · cases h
        · simp only [Option.some.injEq, Prod.mk.injEq] at h
          rw [← h.2.1]; exact Surface.Kept.refl _
      · split at h
        · simp only [Option.some.injEq, Prod.mk.injEq] at h
          rw [← h.2.1]; exact Surface.Kept.refl _
        · split at h
          · cases h
          · rename_i hc
            simp only [Option.some.injEq, Prod.mk.injEq] at h
            rw [← h.2.1]; exact Surface.checkForOutOfDateSwapChain_kept hc

/-- Every call other than `setSwapInterval` keeps the identity, the target,
the backend pointer and the swap interval of the surface. -/
theorem Surface.call_kept {env : Env} {d : Display} {s s1 : Surface} {w w1 : World}
    {c : SurfaceCall} (hc : ∀ n, c ≠ SurfaceCall.setSwapInterval n)
    (h : Surface.call env d s w c = some (s1, w1)) : s.Kept s1 := by
  match c, hc, h with
  | SurfaceCall.setSwapInterval n, hc, _ => exact absurd rfl (hc n)
  | SurfaceCall.release, _, h =>
    simp only [Surface.call, Option.some.injEq] at h
    have := Surface.release_kept s w
    rw [h] at this; exact this
  | SurfaceCall.setBoundTexture t, _, h =>
    simp only [Surface.call, Option.some.injEq, Prod.mk.injEq] at h
    rw [← h.1]; exact ⟨rfl, rfl, rfl, rfl, rfl⟩
  | SurfaceCall.init, _, h =>
    simp only [Surface.call, Option.map_eq_some'] at h
    obtain ⟨⟨b, s2, w2⟩, hr, he⟩ := h
    simp only [Prod.mk.injEq] at he
    rw [← he.1]; exact Surface.initialize_kept hr
  | SurfaceCall.resetSwapChain, _, h =>
    simp only [Surface.call, Option.map_eq_some'] at h
    obtain ⟨⟨b, s2, w2⟩, hr, he⟩ := h
    simp only [Prod.mk.injEq] at he
    rw [← he.1]; exact Surface.resetSwapChain_kept hr
  | SurfaceCall.resizeSwapChain bw bh, _, h =>
    simp only [Surface.call, Option.map_eq_some'] at h
    obtain ⟨⟨b, s2, w2⟩, hr, he⟩ := h
    simp only [Prod.mk.injEq] at he
    rw [← he.1]; exact Surface.resizeSwapChain_kept hr
  | SurfaceCall.resetSwapChainWH bw bh, _, h =>
    simp only [Surface.call, Option.map_eq_some'] at h
    obtain ⟨⟨b, s2, w2⟩, hr, he⟩ := h
    simp only [Prod.mk.injEq] at he
    rw [← he.1]; exact Surface.resetSwapChainWH_kept hr
  | SurfaceCall.swapRect x y width height, _, h =>
    simp only [Surface.call, Option.map_eq_some'] at h
    obtain ⟨⟨b, s2, w2⟩, hr, he⟩ := h
    simp only [Prod.mk.injEq] at he
    rw [← he.1]; exact Surface.swapRect_kept hr
  | SurfaceCall.swap, _, h =>
    simp only [Surface.call, Option.map_eq_some', Surface.swap] at h
    obtain ⟨⟨b, s2, w2⟩, hr, he⟩ := h
    simp only [Prod.mk.injEq] at he
    rw [← he.1]; exact Surface.swapRect_kept hr
  | SurfaceCall.checkForOutOfDateSwapChain, _, h =>
    simp only [Surface.call, Option.map_eq_some'] at h
    obtain ⟨⟨b, s2, w2⟩, hr, he⟩ := h
    simp only [Prod.mk.injEq] at he
    rw [← he.1]; exact Surface.checkForOutOfDateSwapChain_kept hr

/-! ## Swap interval -/

theorem Surface.setSwapInterval_clamp (env : Env) {s : Surface} (hr : s.mRenderer ≠ 0)
    (hmm : env.minSwapInterval ≤ env.maxSwapInterval) (n : Int)
    (hin : s.mSwapInterval = n → env.minSwapInterval ≤ n ∧ n ≤ env.maxSwapInterval) :
    ∃ s1, s.setSwapInterval env n = some s1 ∧
      s1.mSwapInterval = clampInterval env.minSwapInterval env.maxSwapInterval n ∧
      s1.mRenderer = s.mRenderer := by
  unfold Surface.setSwapInterval clampInterval
  by_cases hEq : s.mSwapInterval = n
  · rw [if_pos hEq]
    refine ⟨s, rfl, ?_, rfl⟩
    obtain ⟨h1, h2⟩ := hin hEq
    rw [hEq, if_neg (by omega), if_neg (by omega)]
  · rw [if_neg hEq, if_neg hr]
    refine ⟨_, rfl, ?_, rfl⟩
    simp only [max_def, min_def]
    split_ifs <;> omega

/-- Claim C10. For a backend with `minSwapInterval ≤ maxSwapInterval`: a surface
made by either constructor and then taken through any sequence of calls of
its member functions has its stored swap interval within
`[minSwapInterval, maxSwapInterval]`, and `setSwapInterval n` then returns and
stores `n` clamped into that range. -/
theorem swapInterval_in_range_and_clamped (env : Env)
    (hmm : env.minSwapInterval ≤ env.maxSwapInterval) (s0 : Surface)
    (hctor : (∃ self renderer window dirty0,
                Surface.mkWindow env self renderer window dirty0 = some s0) ∨
             (∃ self renderer shareHandle width height textureFormat textureType dirty0,
                Surface.mkOffscreen env self renderer shareHandle width height textureFormat
                  textureType dirty0 = some s0))
    (calls : List (Display × SurfaceCall)) (w : World) (s : Surface) (w1 : World)
    (hrun : Surface.run env calls (s0, w) = some (s, w1)) :
    (env.minSwapInterval ≤ s.mSwapInterval ∧ s.mSwapInterval ≤ env.maxSwapInterval) ∧
    ∀ n : Int, ∃ s1, s.setSwapInterval env n = some s1 ∧
      s1.mSwapInterval = clampInterval env.minSwapInterval env.maxSwapInterval n ∧
      env.minSwapInterval ≤ s1.mSwapInterval ∧ s1.mSwapInterval ≤ env.maxSwapInterval := by
  have hclamp : ∀ n : Int,
      env.minSwapInterval ≤ clampInterval env.minSwapInterval env.maxSwapInterval n ∧
      clampInterval env.minSwapInterval env.maxSwapInterval n ≤ env.maxSwapInterval := by
    intro n; unfold clampInterval; split_ifs <;> omega
  -- the constructors end in `setSwapInterval(1)` on a surface whose interval is `-1`
  have hinit : s0.mRenderer ≠ 0 ∧
      env.minSwapInterval ≤ s0.mSwapInterval ∧ s0.mSwapInterval ≤ env.maxSwapInterval := by
    have hset : ∀ p : Surface, p.mSwapInterval = -1 → p.setSwapInterval env 1 = some s0 →
        s0.mRenderer ≠ 0 ∧
        env.minSwapInterval ≤ s0.mSwapInterval ∧ s0.mSwapInterval ≤ env.maxSwapInterval := by
      intro p hp hs
      have hr : p.mRenderer ≠ 0 := by
        intro h0
        simp [Surface.setSwapInterval, hp, h0] at hs
      obtain ⟨s1, h1, h2, h3⟩ := Surface.setSwapInterval_clamp env hr hmm 1
        (fun h => by rw [hp] at h; exact absurd h (by decide))
      rw [hs] at h1
      cases h1
      exact ⟨h3 ▸ hr, h2 ▸ (hclamp 1).1, h2 ▸ (hclamp 1).2⟩
    rcases hctor with ⟨self, r, win, dirty0, h⟩ | ⟨self, r, sh, wd, ht, tf, tt, dirty0, h⟩
    · exact hset _ rfl h
    · exact hset _ rfl h
  -- every call keeps the invariant
  have hinv : ∀ (calls : List (Display × SurfaceCall)) (s0 : Surface) (w : World),
      (s0.mRenderer ≠ 0 ∧
        env.minSwapInterval ≤ s0.mSwapInterval ∧ s0.mSwapInterval ≤ env.maxSwapInterval) →
      Surface.run env calls (s0, w) = some (s, w1) →
      (s.mRenderer ≠ 0 ∧
        env.minSwapInterval ≤ s.mSwapInterval ∧ s.mSwapInterval ≤ env.maxSwapInterval) := by
    intro calls
    induction calls with
    | nil =>
      intro s0 w h0 hr
      simp only [Surface.run, Option.some.injEq, Prod.mk.injEq] at hr
      rw [← hr.1]; exact h0
    | cons dc rest ih =>
      intro s0 w h0 hr
      obtain ⟨d, c⟩ := dc
      simp only [Surface.run] at hr
      split at hr
      · cases hr
      · rename_i st1 hcall
        obtain ⟨s2, w2⟩ := st1
        refine ih s2 w2 ?_ hr
        by_cases hc : ∃ n, c = SurfaceCall.setSwapInterval n
        · obtain ⟨n, rfl⟩ := hc
          obtain ⟨s3, h1, h2, h3⟩ := Surface.setSwapInterval_clamp env h0.1 hmm n
            (fun h => h ▸ h0.2)
          simp only [Surface.call, h1, Option.map_some', Option.some.injEq, Prod.mk.injEq]
            at hcall
          rw [← hcall.1]
          exact ⟨h3 ▸ h0.1, h2 ▸ (hclamp n).1, h2 ▸ (hclamp n).2⟩
        · have hk := Surface.call_kept (fun n hn => hc ⟨n, hn⟩) hcall
          exact ⟨hk.2.1 ▸ h0.1, hk.2.2.2.2 ▸ h0.2.1, hk.2.2.2.2 ▸ h0.2.2⟩
  have hs := hinv calls s0 w hinit hrun
  refine ⟨hs.2, fun n => ?_⟩
  obtain ⟨s1, h1, h2, _⟩ := Surface.setSwapInterval_clamp env hs.1 hmm n
    (fun h => h ▸ hs.2)
  exact ⟨s1, h1, h2, h2 ▸ (hclamp n).1, h2 ▸ (hclamp n).2⟩

/-- Claim C10 at a concrete input: a window surface taken through four calls. -/
theorem swapInterval_in_range_and_clamped_witness :
    envOk.minSwapInterval ≤ envOk.maxSwapInterval ∧
    Surface.mkWindow envOk 10 1 9 false = some sampleConstructed ∧
    ∃ s w1,
      Surface.run envOk
        [(displayTwo, SurfaceCall.setSwapInterval 7), (displayTwo, SurfaceCall.init),
         (displayTwo, SurfaceCall.swap), (displayTwo, SurfaceCall.setSwapInterval (-3))]
        (sampleConstructed, worldInit) = some (s, w1) ∧
      (envOk.minSwapInterval ≤ s.mSwapInterval ∧ s.mSwapInterval ≤ envOk.maxSwapInterval) ∧
      ∀ n : Int, ∃ s1, s.setSwapInterval envOk n = some s1 ∧
        s1.mSwapInterval = clampInterval envOk.minSwapInterval envOk.maxSwapInterval n ∧
        envOk.minSwapInterval ≤ s1.mSwapInterval ∧ s1.mSwapInterval ≤ envOk.maxSwapInterval := by
  refine ⟨by decide, rfl, ?_⟩
  have hsome : (Surface.run envOk
      [(displayTwo, SurfaceCall.setSwapInterval 7), (displayTwo, SurfaceCall.init),
       (displayTwo, SurfaceCall.swap), (displayTwo, SurfaceCall.setSwapInterval (-3))]
      (sampleConstructed, worldInit)).isSome = true := rfl
  obtain ⟨⟨s, w1⟩, h⟩ := Option.isSome_iff_exists.mp hsome
  exact ⟨s, w1, h, swapInterval_in_range_and_clamped envOk (by decide) sampleConstructed
    (Or.inl ⟨10, 1, 9, false, rfl⟩) _ worldInit s w1 h⟩

/-! ## Attribute lists -/

theorem windowAttrib_unrecognised {k : Int} (hk : k ∉ windowKeys) (v : Option Int) :
    windowAttrib k v = some (Parsed.fail EGL_BAD_ATTRIBUTE) := by
  simp only [windowKeys, List.mem_cons, List.mem_singleton, not_or, List.not_mem_nil,
    or_false] at hk
  simp [windowAttrib, hk.1, hk.2.1, hk.2.2]

theorem windowAttrib_some (k v : Int) :
    windowAttrib k (some v) = some (Parsed.ok ()) ∨
    (windowAttrib k (some v) = some (Parsed.fail EGL_BAD_MATCH) ∧ windowBadMatch (k, v)) ∨
    windowAttrib k (some v) = some (Parsed.fail EGL_BAD_ATTRIBUTE) := by
  unfold windowAttrib windowBadMatch
  dsimp only
  split_ifs with h1 h2 h3 h4 h5
  all_goals first
    | exact Or.inl rfl
    | exact Or.inr (Or.inr rfl)
    | exact Or.inr (Or.inl ⟨rfl, Or.inl h4⟩)
    | exact Or.inr (Or.inl ⟨rfl, Or.inr (Or.inl h5)⟩)
    | exact Or.inr (Or.inl ⟨rfl, Or.inr (Or.inr ⟨h1, h3⟩)⟩)

theorem parseWindowAttribs_unrecognised (pre post : List (Int × Int)) (k v : Int)
    (hpre : ∀ p ∈ pre, p.1 ≠ EGL_NONE) (hk0 : k ≠ EGL_NONE) (hk : k ∉ windowKeys) :
    ∃ e, parseWindowAttribs (attribArray (pre ++ (k, v) :: post)) = some (Parsed.fail e) ∧
      (e = EGL_BAD_ATTRIBUTE ∨ e = EGL_BAD_MATCH) ∧
      ((∀ p ∈ pre, ¬ windowBadMatch p) → e = EGL_BAD_ATTRIBUTE) := by
  induction pre with
  | nil =>
    refine ⟨EGL_BAD_ATTRIBUTE, ?_, Or.inl rfl, fun _ => rfl⟩
    simp [attribArray, parseWindowAttribs, hk0, windowAttrib_unrecognised hk]
  | cons p rest ih =>
    obtain ⟨pk, pv⟩ := p
    have hpk : pk ≠ EGL_NONE := hpre (pk, pv) (List.mem_cons_self _ _)
    obtain ⟨e, he, hcase, hba⟩ := ih (fun q hq => hpre q (List.mem_cons_of_mem _ hq))
    rcases windowAttrib_some pk pv with h | ⟨h, hbm⟩ | h
    · refine ⟨e, ?_, hcase, fun hall => hba (fun q hq => hall q (List.mem_cons_of_mem _ hq))⟩
      simp [attribArray, parseWindowAttribs, hpk, h, he]
    · refine ⟨EGL_BAD_MATCH, ?_, Or.inr rfl, fun hall => ?_⟩
      · simp [attribArray, parseWindowAttribs, hpk, h]
      · exact absurd hbm (hall (pk, pv) (List.mem_cons_self _ _))
    · refine ⟨EGL_BAD_ATTRIBUTE, ?_, Or.inl rfl, fun _ => rfl⟩
      simp [attribArray, parseWindowAttribs, hpk, h]

theorem offscreenAttrib_unrecognised {k : Int} (hk : k ∉ offscreenKeys) (v : Option Int)
    (a : OffscreenAttribs) : offscreenAttrib k v a = some (Parsed.fail EGL_BAD_ATTRIBUTE) := by
  simp only [offscreenKeys, List.mem_cons, List.mem_singleton, not_or, List.not_mem_nil,
    or_false] at hk
  obtain ⟨h1, h2, h3, h4, h5, h6, h7, h8⟩ := hk
  simp [offscreenAttrib, h1, h2, h3, h4, h5, h6, h7, h8]

theorem offscreenAttrib_some (k v : Int) (a : OffscreenAttribs) :
    (∃ a1, offscreenAttrib k (some v) a = some (Parsed.ok a1)) ∨
    (offscreenAttrib k (some v) a = some (Parsed.fail EGL_BAD_MATCH) ∧
      offscreenBadMatch (k, v)) ∨
    offscreenAttrib k (some v) a = some (Parsed.fail EGL_BAD_ATTRIBUTE) := by
  unfold offscreenAttrib offscreenBadMatch
  dsimp only
  split_ifs
  all_goals first
    | exact Or.inl ⟨_, rfl⟩
    | exact Or.inr (Or.inr rfl)
    | exact Or.inr (Or.inl ⟨rfl, Or.inl ‹_›⟩)
    | exact Or.inr (Or.inl ⟨rfl, Or.inr ‹_›⟩)

theorem parseOffscreenAttribs_unrecognised (pre post : List (Int × Int)) (k v : Int)
    (a : OffscreenAttribs)
    (hpre : ∀ p ∈ pre, p.1 ≠ EGL_NONE) (hk0 : k ≠ EGL_NONE) (hk : k ∉ offscreenKeys) :
    ∃ e, parseOffscreenAttribs (attribArray (pre ++ (k, v) :: post)) a
        = some (Parsed.fail e) ∧
      (e = EGL_BAD_ATTRIBUTE ∨ e = EGL_BAD_MATCH) ∧
      ((∀ p ∈ pre, ¬ offscreenBadMatch p) → e = EGL_BAD_ATTRIBUTE) := by
  induction pre generalizing a with
  | nil =>
    refine ⟨EGL_BAD_ATTRIBUTE, ?_, Or.inl rfl, fun _ => rfl⟩
    simp [attribArray, parseOffscreenAttribs, hk0, offscreenAttrib_unrecognised hk]
  | cons p rest ih =>
    obtain ⟨pk, pv⟩ := p
    have hpk : pk ≠ EGL_NONE := hpre (pk, pv) (List.mem_cons_self _ _)
    rcases offscreenAttrib_some pk pv a with ⟨a1, h⟩ | ⟨h, hbm⟩ | h
    · obtain ⟨e, he, hcase, hba⟩ := ih a1 (fun q hq => hpre q (List.mem_cons_of_mem _ hq))
      refine ⟨e, ?_, hcase, fun hall => hba (fun q hq => hall q (List.mem_cons_of_mem _ hq))⟩
      simp [attribArray, parseOffscreenAttribs, hpk, h, he]
    · refine ⟨EGL_BAD_MATCH, ?_, Or.inr rfl, fun hall => ?_⟩
      · simp [attribArray, parseOffscreenAttribs, hpk, h]
      · exact absurd hbm (hall (pk, pv) (List.mem_cons_self _ _))
    · refine ⟨EGL_BAD_ATTRIBUTE, ?_, Or.inl rfl, fun _ => rfl⟩
      simp [attribArray, parseOffscreenAttribs, hpk, h]

/-! ## Rejections of the creation functions -/

/-- Claim C5, as stated, fails: window `9` backs a live surface of `displayTwo`,
yet with the attribute list `EGL_RENDER_BUFFER, EGL_SINGLE_BUFFER, EGL_NONE` the
attribute loop returns first and the recorded error is `EGL_BAD_MATCH`. -/
theorem createWindowSurface_existing_window_bad_list :
    displayTwo.hasExistingWindowSurface 9 = true ∧
    displayTwo.createWindowSurface envOk worldInit 9
        (some [EGL_RENDER_BUFFER, EGL_SINGLE_BUFFER, EGL_NONE])
      = some (EGL_NO_SURFACE, displayTwo, error worldInit EGL_BAD_MATCH) ∧
    getCurrentError (error worldInit EGL_BAD_MATCH) ≠ EGL_BAD_ALLOC :=
  ⟨by decide, by decide, by decide⟩

/-- Claim C5, amended.  When `window` already backs a live surface and the
attribute list is null or is accepted by the attribute loop,
`createWindowSurface` returns `EGL_NO_SURFACE` with `EGL_BAD_ALLOC` recorded;
when the loop rejects the list with the code `e` it returns `EGL_NO_SURFACE`
with `e` recorded.  In both cases the display is unchanged (the existing
surface with its swap chain, size and swap interval included) and no
collaborator is called. -/
theorem createWindowSurface_existing_window (env : Env) (d : Display) (w : World)
    (window : Handle) (attribList : Option (List Int))
    (hex : ∃ s ∈ d.mSurfaceSet, s.getWindowHandle = window) :
    (readWindowAttribs attribList = some (Parsed.ok ()) →
      d.createWindowSurface env w window attribList
        = some (EGL_NO_SURFACE, d, error w EGL_BAD_ALLOC)) ∧
    (∀ e, readWindowAttribs attribList = some (Parsed.fail e) →
      d.createWindowSurface env w window attribList = some (EGL_NO_SURFACE, d, error w e)) ∧
    (∀ e, getCurrentError (error w e) = e ∧ (error w e).trace = w.trace) := by
  have hany : d.hasExistingWindowSurface window = true := by
    obtain ⟨s, hs, hw⟩ := hex
    exact List.any_eq_true.mpr ⟨s, hs, by simpa [Surface.getWindowHandle] using hw⟩
  refine ⟨fun h => ?_, fun e h => ?_, fun e => ⟨rfl, rfl⟩⟩
  · simp [Display.createWindowSurface, h, hany]
  · simp [Display.createWindowSurface, h]

/-- Claim C5 at a concrete input: window `9` of `displayTwo` with an accepted attribute list. -/
theorem createWindowSurface_existing_window_witness :
    (∃ s ∈ displayTwo.mSurfaceSet, s.getWindowHandle = 9) ∧
    readWindowAttribs (some [EGL_RENDER_BUFFER, EGL_BACK_BUFFER, EGL_NONE])
      = some (Parsed.ok ()) ∧
    displayTwo.createWindowSurface envOk worldInit 9
        (some [EGL_RENDER_BUFFER, EGL_BACK_BUFFER, EGL_NONE])
      = some (EGL_NO_SURFACE, displayTwo, error worldInit EGL_BAD_ALLOC) :=
  ⟨⟨sampleWindow, by decide, rfl⟩, by decide,
   (createWindowSurface_existing_window envOk displayTwo worldInit 9
      (some [EGL_RENDER_BUFFER, EGL_BACK_BUFFER, EGL_NONE])
      ⟨sampleWindow, by decide, rfl⟩).1 (by decide)⟩

/-- Claim C7, as stated, fails: the list `EGL_VG_COLORSPACE, 0, 0x9999, 0, EGL_NONE`
holds the key `0x9999`, which neither function knows, but both return at the
pair before it and record `EGL_BAD_MATCH`. -/
theorem unrecognised_key_after_bad_match :
    (0x9999 : Int) ∉ windowKeys ∧ (0x9999 : Int) ∉ offscreenKeys ∧
    displayTwo.createWindowSurface envOk worldInit 20
        (some (attribArray [(EGL_VG_COLORSPACE, 0), (0x9999, 0)]))
      = some (EGL_NO_SURFACE, displayTwo, error worldInit EGL_BAD_MATCH) ∧
    displayTwo.createOffscreenSurface envOk worldInit 0
        (some (attribArray [(EGL_VG_COLORSPACE, 0), (0x9999, 0)]))
      = some (EGL_NO_SURFACE, displayTwo, error worldInit EGL_BAD_MATCH) ∧
    getCurrentError (error worldInit EGL_BAD_MATCH) ≠ EGL_BAD_ATTRIBUTE :=
  ⟨by decide, by decide, by decide, by decide, by decide⟩

/-- Claim C7, amended.  For an `EGL_NONE`-terminated list of pairs that holds a
key the function has no `case` for, `createWindowSurface` and
`createOffscreenSurface` return `EGL_NO_SURFACE`, the display is unchanged, no
collaborator is called, and the recorded error is `EGL_BAD_ATTRIBUTE` or
`EGL_BAD_MATCH`; it is `EGL_BAD_ATTRIBUTE` whenever no pair before that key is
one the function answers with `EGL_BAD_MATCH`. -/
theorem unrecognised_key_rejected (env : Env) (d : Display) (w : World)
    (window shareHandle : Handle) (pre post : List (Int × Int)) (k v : Int)
    (hpre : ∀ p ∈ pre, p.1 ≠ EGL_NONE) (hk0 : k ≠ EGL_NONE) :
    (k ∉ windowKeys →
      ∃ e, d.createWindowSurface env w window (some (attribArray (pre ++ (k, v) :: post)))
          = some (EGL_NO_SURFACE, d, error w e) ∧
        (e = EGL_BAD_ATTRIBUTE ∨ e = EGL_BAD_MATCH) ∧
        ((∀ p ∈ pre, ¬ windowBadMatch p) → e = EGL_BAD_ATTRIBUTE)) ∧
    (k ∉ offscreenKeys →
      ∃ e, d.createOffscreenSurface env w shareHandle
            (some (attribArray (pre ++ (k, v) :: post)))
          = some (EGL_NO_SURFACE, d, error w e) ∧
        (e = EGL_BAD_ATTRIBUTE ∨ e = EGL_BAD_MATCH) ∧
        ((∀ p ∈ pre, ¬ offscreenBadMatch p) → e = EGL_BAD_ATTRIBUTE)) ∧
    (∀ e, getCurrentError (error w e) = e ∧ (error w e).trace = w.trace) := by
  refine ⟨fun hk => ?_, fun hk => ?_, fun e => ⟨rfl, rfl⟩⟩
  · obtain ⟨e, he, h1, h2⟩ := parseWindowAttribs_unrecognised pre post k v hpre hk0 hk
    exact ⟨e, by simp [Display.createWindowSurface, readWindowAttribs, he], h1, h2⟩
  · obtain ⟨e, he, h1, h2⟩ :=
      parseOffscreenAttribs_unrecognised pre post k v OffscreenAttribs.init hpre hk0 hk
    exact ⟨e, by simp [Display.createOffscreenSurface, readOffscreenAttribs, he], h1, h2⟩

/-- Claim C7 at a concrete input: an unknown key between a width and a height. -/
theorem unrecognised_key_rejected_witness :
    (∀ p ∈ [(EGL_WIDTH, (64 : Int))], p.1 ≠ EGL_NONE) ∧ (0x9999 : Int) ≠ EGL_NONE ∧
    (0x9999 : Int) ∉ offscreenKeys ∧
    ∃ e, displayTwo.createOffscreenSurface envOk worldInit 0
          (some (attribArray ([(EGL_WIDTH, 64)] ++ (0x9999, 0) :: [(EGL_HEIGHT, 64)])))
        = some (EGL_NO_SURFACE, displayTwo, error worldInit e) ∧
      (e = EGL_BAD_ATTRIBUTE ∨ e = EGL_BAD_MATCH) ∧
      ((∀ p ∈ [(EGL_WIDTH, (64 : Int))], ¬ offscreenBadMatch p) → e = EGL_BAD_ATTRIBUTE) :=
  ⟨by decide, by decide, by decide,
   (unrecognised_key_rejected envOk displayTwo worldInit 0 0 [(EGL_WIDTH, 64)]
      [(EGL_HEIGHT, 64)] 0x9999 0 (by decide) (by decide)).2.1 (by decide)⟩

/-- Claim C8. When the attribute loop of `createOffscreenSurface` ends without
error with the values `a`: a negative width or height makes the call return
`EGL_NO_SURFACE` with `EGL_BAD_PARAMETER`; otherwise a zero width or height
(also one never given) makes it return `EGL_NO_SURFACE` with
`EGL_BAD_ATTRIBUTE`.  In both cases the display is unchanged and the trace is
the one before the call: no swap chain is asked for, no recovery is run. -/
theorem createOffscreenSurface_bad_size (env : Env) (d : Display) (w : World)
    (shareHandle : Handle) (attribList : Option (List Int)) (a : OffscreenAttribs)
    (hp : readOffscreenAttribs attribList = some (Parsed.ok a)) :
    ((a.width < 0 ∨ a.height < 0) →
      d.createOffscreenSurface env w shareHandle attribList
        = some (EGL_NO_SURFACE, d, error w EGL_BAD_PARAMETER)) ∧
    (0 ≤ a.width → 0 ≤ a.height → (a.width = 0 ∨ a.height = 0) →
      d.createOffscreenSurface env w shareHandle attribList
        = some (EGL_NO_SURFACE, d, error w EGL_BAD_ATTRIBUTE)) ∧
    (∀ e, getCurrentError (error w e) = e ∧ (error w e).trace = w.trace) := by
  refine ⟨fun h => ?_, fun h1 h2 h3 => ?_, fun e => ⟨rfl, rfl⟩⟩
  · simp [Display.createOffscreenSurface, hp, h]
  · have hn : ¬ (a.width < 0 ∨ a.height < 0) := by omega
    simp [Display.createOffscreenSurface, hp, hn, h3]

/-- Claim C8 at a concrete input: a list that gives a negative height. -/
theorem createOffscreenSurface_bad_size_witness :
    readOffscreenAttribs (some [EGL_HEIGHT, -5, EGL_NONE])
      = some (Parsed.ok { OffscreenAttribs.init with height := -5 }) ∧
    displayTwo.createOffscreenSurface envOk worldInit 0 (some [EGL_HEIGHT, -5, EGL_NONE])
      = some (EGL_NO_SURFACE, displayTwo, error worldInit EGL_BAD_PARAMETER) :=
  ⟨by decide,
   (createOffscreenSurface_bad_size envOk displayTwo worldInit 0
      (some [EGL_HEIGHT, -5, EGL_NONE]) { OffscreenAttribs.init with height := -5 }
      (by decide)).1 (Or.inr (by decide))⟩

/-- Claim C9, as stated, fails: the list `EGL_TEXTURE_FORMAT, EGL_TEXTURE_RGB, EGL_NONE`
gives a texture format without a texture target, but no width, and the call
returns at the size check with `EGL_BAD_ATTRIBUTE`. -/
theorem createOffscreenSurface_single_sided_without_size :
    readOffscreenAttribs (some [EGL_TEXTURE_FORMAT, EGL_TEXTURE_RGB, EGL_NONE])
      = some (Parsed.ok { width := 0, height := 0, textureFormat := EGL_TEXTURE_RGB,
                          textureTarget := EGL_NO_TEXTURE }) ∧
    EGL_TEXTURE_RGB ≠ EGL_NO_TEXTURE ∧
    displayTwo.createOffscreenSurface envOk worldInit 0
        (some [EGL_TEXTURE_FORMAT, EGL_TEXTURE_RGB, EGL_NONE])
      = some (EGL_NO_SURFACE, displayTwo, error worldInit EGL_BAD_ATTRIBUTE) ∧
    getCurrentError (error worldInit EGL_BAD_ATTRIBUTE) ≠ EGL_BAD_MATCH :=
  ⟨by decide, by decide, by decide, by decide⟩

/-- Claim C9, amended.  When the attribute loop of `createOffscreenSurface` ends
without error with a positive width and height (and the display is
initialized if a texture format was given): if exactly one of texture format
and texture target differs from `EGL_NO_TEXTURE`, the call returns
`EGL_NO_SURFACE` with `EGL_BAD_MATCH` recorded and the display unchanged; if
both differ or both are `EGL_NO_TEXTURE`, the pairing test is false, and once
the power-of-two test has passed the call goes on to recovery and
construction. -/
theorem createOffscreenSurface_texture_pairing (env : Env) (d : Display) (w : World)
    (shareHandle : Handle) (attribList : Option (List Int)) (a : OffscreenAttribs)
    (hp : readOffscreenAttribs attribList = some (Parsed.ok a))
    (hw : 0 < a.width) (hh : 0 < a.height)
    (hinit : a.textureFormat ≠ EGL_NO_TEXTURE → d.mRenderer ≠ 0) :
    (((a.textureFormat ≠ EGL_NO_TEXTURE ∧ a.textureTarget = EGL_NO_TEXTURE) ∨
      (a.textureFormat = EGL_NO_TEXTURE ∧ a.textureTarget ≠ EGL_NO_TEXTURE)) →
      ∃ w1, d.createOffscreenSurface env w shareHandle attribList
          = some (EGL_NO_SURFACE, d, w1) ∧
        getCurrentError w1 = EGL_BAD_MATCH ∧
        (w1.trace = w.trace ∨ w1.trace = Event.getNonPower2TextureSupport :: w.trace)) ∧
    (((a.textureFormat = EGL_NO_TEXTURE ∧ a.textureTarget = EGL_NO_TEXTURE) ∨
      (a.textureFormat ≠ EGL_NO_TEXTURE ∧ a.textureTarget ≠ EGL_NO_TEXTURE)) →
      textureMismatch a = false ∧
      ∀ w1, d.needsPow2 env a w = some (false, w1) →
        d.createOffscreenSurface env w shareHandle attribList
          = d.makeOffscreenSurface env w1 shareHandle a) := by
  have hn1 : ¬ (a.width < 0 ∨ a.height < 0) := by omega
  have hn2 : ¬ (a.width = 0 ∨ a.height = 0) := by omega
  constructor
  · intro hside
    have hmis : textureMismatch a = true := by
      simp only [textureMismatch, decide_eq_true_eq]; exact hside
    by_cases hf : a.textureFormat = EGL_NO_TEXTURE
    · refine ⟨error w EGL_BAD_MATCH, ?_, rfl, Or.inl rfl⟩
      simp [Display.createOffscreenSurface, hp, hn1, hn2, Display.needsPow2, hf, hmis]
    · have hr := hinit hf
      by_cases hpow : (!env.getNonPower2TextureSupport (w.log
          Event.getNonPower2TextureSupport).trace
            && (!isPow2 a.width || !isPow2 a.height)) = true
      · refine ⟨error (w.log Event.getNonPower2TextureSupport) EGL_BAD_MATCH, ?_, rfl,
          Or.inr rfl⟩
        simp only [Display.createOffscreenSurface, hp, if_neg hn1, if_neg hn2,
          Display.needsPow2, if_pos hf, if_neg hr, hpow]
      · refine ⟨error (w.log Event.getNonPower2TextureSupport) EGL_BAD_MATCH, ?_, rfl,
          Or.inr rfl⟩
        have hpow' := Bool.eq_false_iff.mpr hpow
        simp only [Display.createOffscreenSurface, hp, if_neg hn1, if_neg hn2,
          Display.needsPow2, if_pos hf, if_neg hr, hpow', hmis, if_true]
  · intro hboth
    have hmis : textureMismatch a = false := by
      simp only [textureMismatch, decide_eq_false_iff_not]
      rcases hboth with ⟨h1, h2⟩ | ⟨h1, h2⟩
      · rintro (⟨h3, _⟩ | ⟨_, h4⟩)
        · exact h3 h1
        · exact h4 h2
      · rintro (⟨_, h4⟩ | ⟨h3, _⟩)
        · exact h2 h4
        · exact h1 h3
    refine ⟨hmis, fun w1 hw1 => ?_⟩
    simp [Display.createOffscreenSurface, hp, hn1, hn2, hw1, hmis]

/-- Claim C9 at a concrete input: a list that gives a texture target without a texture format. -/
theorem createOffscreenSurface_texture_pairing_witness :
    readOffscreenAttribs
        (some [EGL_WIDTH, 64, EGL_HEIGHT, 32, EGL_TEXTURE_TARGET, EGL_TEXTURE_2D, EGL_NONE])
      = some (Parsed.ok { width := 64, height := 32, textureFormat := EGL_NO_TEXTURE,
                          textureTarget := EGL_TEXTURE_2D }) ∧
    ∃ w1, displayTwo.createOffscreenSurface envOk worldInit 0
          (some [EGL_WIDTH, 64, EGL_HEIGHT, 32, EGL_TEXTURE_TARGET, EGL_TEXTURE_2D, EGL_NONE])
        = some (EGL_NO_SURFACE, displayTwo, w1) ∧
      getCurrentError w1 = EGL_BAD_MATCH ∧
      (w1.trace = worldInit.trace ∨
        w1.trace = Event.getNonPower2TextureSupport :: worldInit.trace) :=
  ⟨by decide,
   (createOffscreenSurface_texture_pairing envOk displayTwo worldInit 0
      (some [EGL_WIDTH, 64, EGL_HEIGHT, 32, EGL_TEXTURE_TARGET, EGL_TEXTURE_2D, EGL_NONE])
      { width := 64, height := 32, textureFormat := EGL_NO_TEXTURE,
        textureTarget := EGL_TEXTURE_2D }
      (by decide) (by decide) (by decide) (fun h => absurd rfl h)).1
      (Or.inr ⟨rfl, by decide⟩)⟩

/-! ## Sets of pointers -/

theorem le_foldr_max (l : List Nat) (a : Nat) (h : a ∈ l) : a ≤ l.foldr max 0 := by
  induction l with
  | nil => cases h
  | cons b rest ih =>
    simp only [List.foldr_cons]
    rcases List.mem_cons.mp h with rfl | h'
    · exact le_max_left _ _
    · exact le_trans (ih h') (le_max_right _ _)

theorem freshHandle_ne_zero (live : List Handle) (proposal : Handle) :
    freshHandle live proposal ≠ 0 := by
  unfold freshHandle
  split
  · rename_i h; exact h.1
  · exact Nat.succ_ne_zero _

theorem freshHandle_not_mem (live : List Handle) (proposal : Handle) :
    freshHandle live proposal ∉ live := by
  unfold freshHandle
  split
  · rename_i h; exact h.2
  · intro hmem
    have := le_foldr_max live _ hmem
    omega

theorem setInsert_perm {α : Type} (key : α → Handle) (x : α) (l : List α)
    (hx : key x ∉ l.map key) : (setInsert key x l).Perm (x :: l) := by
  induction l with
  | nil => exact List.Perm.refl _
  | cons y rest ih =>
    have hy : key x ≠ key y := fun h => hx (by simp [h])
    have hrest : key x ∉ rest.map key := fun h => hx (by simp only [List.map_cons]; exact List.mem_cons_of_mem _ h)
    simp only [setInsert]
    split_ifs with h1
    · exact List.Perm.refl _
    · exact ((ih hrest).cons y).trans (List.Perm.swap x y rest)

theorem identsApart_symm : Symmetric identsApart := by
  intro a b h
  refine ⟨fun e => h.1 e.symm, fun e => ?_⟩
  rw [e]; exact h.2 e.symm

/-! ## What recovery and creation do to the surface set -/

theorem Surface.Kept.ident_eq {s s1 : Surface} (h : s.Kept s1) : s1.ident = s.ident := by
  unfold Surface.ident Surface.getWindowHandle
  rw [h.1, h.2.2.1]

theorem releaseSurfaces_ident (l : List Surface) (w : World) :
    (releaseSurfaces l w).1.map Surface.ident = l.map Surface.ident := by
  rw [releaseSurfaces_fst, List.map_map]
  rfl

theorem resetSurfaces_ident {env : Env} {l l1 : List Surface} {w w1 : World}
    (h : resetSurfaces env l w = some (l1, w1)) :
    l1.map Surface.ident = l.map Surface.ident := by
  have h2 := resetSurfaces_forall₂ h
  clear h
  induction h2 with
  | nil => rfl
  | cons hab _ ih =>
    obtain ⟨b, w0, w2, hr⟩ := hab
    simp only [List.map_cons]
    rw [ih, (Surface.resetSwapChain_kept hr).ident_eq]

theorem Display.restoreLostDevice_ident {env : Env} {d d1 : Display} {w w1 : World} {b : Bool}
    (h : d.restoreLostDevice env w = some (b, d1, w1)) :
    d1.mSurfaceSet.map Surface.ident = d.mSurfaceSet.map Surface.ident ∧
    d1.mRenderer = d.mRenderer ∧ d1.mContextSet = d.mContextSet := by
  unfold Display.restoreLostDevice at h
  simp only at h
  split at h
  · simp only [Option.some.injEq, Prod.mk.injEq] at h
    rw [← h.2.1]; exact ⟨rfl, rfl, rfl⟩
  · split at h
    · cases h
    · split at h
      · simp only [Option.some.injEq, Prod.mk.injEq] at h
        rw [← h.2.1]
        exact ⟨releaseSurfaces_ident _ _, rfl, rfl⟩
      · split at h
        · cases h
        · rename_i ss w3 hr
          simp only [Option.some.injEq, Prod.mk.injEq] at h
          rw [← h.2.1]
          exact ⟨(resetSurfaces_ident hr).trans (releaseSurfaces_ident _ _), rfl, rfl⟩

theorem Display.recoverIfLost_ident {env : Env} {d d1 : Display} {w w1 : World} {b : Bool}
    (h : d.recoverIfLost env w = some (b, d1, w1)) :
    d1.mSurfaceSet.map Surface.ident = d.mSurfaceSet.map Surface.ident ∧
    d1.mRenderer = d.mRenderer ∧ d1.mContextSet = d.mContextSet ∧ d.mRenderer ≠ 0 := by
  unfold Display.recoverIfLost at h
  split at h
  · cases h
  · rename_i hr
    simp only at h
    split at h
    · obtain ⟨h1, h2, h3⟩ := Display.restoreLostDevice_ident h
      exact ⟨h1, h2, h3, hr⟩
    · simp only [Option.some.injEq, Prod.mk.injEq] at h
      rw [← h.2.1]; exact ⟨rfl, rfl, rfl, hr⟩

/-- What `adoptSurface` returns: nothing and the display as it was, or the
address of the surface, now initialized, live and inserted. -/
theorem Display.adoptSurface_spec {env : Env} {d d1 : Display} {w w1 : World}
    {surface : Surface} {r : Handle}
    (h : d.adoptSurface env w surface = some (r, d1, w1)) :
    (r = EGL_NO_SURFACE ∧ d1 = d ∧
      ∃ s1 w0, Surface.initialize env surface w = some (false, s1, w0)) ∨
    (r = surface.self ∧
      ∃ s1 w0, Surface.initialize env surface w = some (true, s1, w0) ∧
        s1.ident = surface.ident ∧ s1.mSwapChain ≠ 0 ∧
        d1 = { d with mSurfaceSet := setInsert Surface.self s1 d.mSurfaceSet }) := by
  unfold Display.adoptSurface at h
  split at h
  · cases h
  · rename_i s1 w0 hi
    simp only [Option.some.injEq, Prod.mk.injEq] at h
    exact Or.inl ⟨h.1.symm, h.2.1.symm, s1, w0, hi⟩
  · rename_i s1 w0 hi
    simp only [Option.some.injEq, Prod.mk.injEq] at h
    have hk := Surface.initialize_kept hi
    refine Or.inr ⟨by rw [← h.1, hk.1], s1, w0, hi, hk.ident_eq, ?_, h.2.1.symm⟩
    unfold Surface.initialize at hi
    split at hi
    · cases hi
    · simp at hi
    · rename_i s2 w2 hr
      simp only [Option.some.injEq, Prod.mk.injEq, true_and] at hi
      rcases Surface.resetSwapChain_eq hr with ⟨_, hsc, _⟩ | ⟨hf, _⟩
      · rw [← hi.1]; exact hsc
      · cases hf

theorem Surface.setSwapInterval_ident {env : Env} {s s1 : Surface} {n : Int}
    (h : s.setSwapInterval env n = some s1) : s1.ident = s.ident ∧ s1.mSwapChain = s.mSwapChain := by
  unfold Surface.setSwapInterval at h
  split at h
  · cases h; exact ⟨rfl, rfl⟩
  · split at h
    · cases h
    · cases h; exact ⟨rfl, rfl⟩

theorem map_self_of_ident {l l1 : List Surface}
    (h : l1.map Surface.ident = l.map Surface.ident) :
    l1.map Surface.self = l.map Surface.self := by
  have := congrArg (List.map Prod.fst) h
  simpa [List.map_map, Function.comp_def, Surface.ident] using this

theorem Display.adoptSurface_created {env : Env} {d d0 d1 : Display} {w w1 : World}
    {surface : Surface} {r window proposal : Handle}
    (hd0 : d0.mSurfaceSet.map Surface.ident = d.mSurfaceSet.map Surface.ident)
    (hs : surface.ident = (freshHandle (d0.mSurfaceSet.map Surface.self) proposal, window))
    (h : d0.adoptSurface env w surface = some (r, d1, w1)) : Created d d1 r window := by
  have hself : surface.self = freshHandle (d0.mSurfaceSet.map Surface.self) proposal :=
    congrArg Prod.fst hs
  rcases Display.adoptSurface_spec h with ⟨hr, hd, _⟩ | ⟨hr, s1, w0, _, hid, hsc, hd⟩
  · exact Or.inl ⟨hr, by rw [hd]; exact hd0⟩
  · refine Or.inr ⟨?_, ?_, s1, d0.mSurfaceSet, hd0, ?_, hsc, by rw [hd]⟩
    · rw [hr, hself]; exact freshHandle_ne_zero _ _
    · rw [hr, hself, ← map_self_of_ident hd0]; exact freshHandle_not_mem _ _
    · rw [hid, hs, hr, hself]

theorem Display.makeWindowSurface_created {env : Env} {d d1 : Display} {w w1 : World}
    {r window : Handle} (h : d.makeWindowSurface env w window = some (r, d1, w1)) :
    Created d d1 r window := by
  unfold Display.makeWindowSurface at h
  split at h
  · cases h
  · rename_i d0 w0 hrec
    simp only [Option.some.injEq, Prod.mk.injEq] at h
    rw [← h.1, ← h.2.1]
    exact Or.inl ⟨rfl, (Display.recoverIfLost_ident hrec).1⟩
  · rename_i d0 w0 hrec
    simp only at h
    split at h
    · cases h
    · rename_i surface hmk
      exact Display.adoptSurface_created (Display.recoverIfLost_ident hrec).1
        (Surface.setSwapInterval_ident hmk).1 h

theorem Display.makeOffscreenSurface_created {env : Env} {d d1 : Display} {w w1 : World}
    {r shareHandle : Handle} {a : OffscreenAttribs}
    (h : d.makeOffscreenSurface env w shareHandle a = some (r, d1, w1)) :
    Created d d1 r 0 := by
  unfold Display.makeOffscreenSurface at h
  split at h
  · cases h
  · rename_i d0 w0 hrec
    simp only [Option.some.injEq, Prod.mk.injEq] at h
    rw [← h.1, ← h.2.1]
    exact Or.inl ⟨rfl, (Display.recoverIfLost_ident hrec).1⟩
  · rename_i d0 w0 hrec
    simp only at h
    split at h
    · cases h
    · rename_i surface hmk
      exact Display.adoptSurface_created (Display.recoverIfLost_ident hrec).1
        (Surface.setSwapInterval_ident hmk).1 h

theorem Display.createWindowSurface_created {env : Env} {d d1 : Display} {w w1 : World}
    {r window : Handle} {attribList : Option (List Int)}
    (h : d.createWindowSurface env w window attribList = some (r, d1, w1)) :
    Created d d1 r window ∧
    (r ≠ EGL_NO_SURFACE → ∀ t ∈ d.mSurfaceSet, t.getWindowHandle ≠ window) := by
  unfold Display.createWindowSurface at h
  split at h
  · cases h
  · simp only [Option.some.injEq, Prod.mk.injEq] at h
    rw [← h.1, ← h.2.1]
    exact ⟨Or.inl ⟨rfl, rfl⟩, fun hne => absurd rfl hne⟩
  · split at h
    · simp only [Option.some.injEq, Prod.mk.injEq] at h
      rw [← h.1, ← h.2.1]
      exact ⟨Or.inl ⟨rfl, rfl⟩, fun hne => absurd rfl hne⟩
    · rename_i hex
      refine ⟨Display.makeWindowSurface_created h, fun _ t ht hw => hex ?_⟩
      exact List.any_eq_true.mpr ⟨t, ht, by simpa [Surface.getWindowHandle] using hw⟩

theorem Display.createOffscreenSurface_created {env : Env} {d d1 : Display} {w w1 : World}
    {r shareHandle : Handle} {attribList : Option (List Int)}
    (h : d.createOffscreenSurface env w shareHandle attribList = some (r, d1, w1)) :
    Created d d1 r 0 := by
  unfold Display.createOffscreenSurface at h
  split at h
  · cases h
  · simp only [Option.some.injEq, Prod.mk.injEq] at h
    rw [← h.1, ← h.2.1]; exact Or.inl ⟨rfl, rfl⟩
  · split at h
    · simp only [Option.some.injEq, Prod.mk.injEq] at h
      rw [← h.1, ← h.2.1]; exact Or.inl ⟨rfl, rfl⟩
    · split at h
      · simp only [Option.some.injEq, Prod.mk.injEq] at h
        rw [← h.1, ← h.2.1]; exact Or.inl ⟨rfl, rfl⟩
      · split at h
        · cases h
        · simp only [Option.some.injEq, Prod.mk.injEq] at h
          rw [← h.1, ← h.2.1]; exact Or.inl ⟨rfl, rfl⟩
        · split at h
          · simp only [Option.some.injEq, Prod.mk.injEq] at h
            rw [← h.1, ← h.2.1]; exact Or.inl ⟨rfl, rfl⟩
          · exact Display.makeOffscreenSurface_created h

/-- Claim C4. If `createWindowSurface` or `createOffscreenSurface` returns `r`: with
`r = EGL_NO_SURFACE` the display holds the surfaces it held before; otherwise
`r` is a new address, the surface set is the old one with `r` added,
`isValidSurface r` holds and the surface at `r` has a swap chain.  A surface
whose `initialize()` fails is released and deleted, the surface set staying
as it was. -/
theorem createSurface_membership (env : Env) (d d1 : Display) (w w1 : World)
    (window shareHandle r : Handle) (attribList : Option (List Int))
    (h : d.createWindowSurface env w window attribList = some (r, d1, w1) ∨
         d.createOffscreenSurface env w shareHandle attribList = some (r, d1, w1)) :
    (r = EGL_NO_SURFACE →
      d1.mSurfaceSet.map Surface.self = d.mSurfaceSet.map Surface.self) ∧
    (r ≠ EGL_NO_SURFACE →
      r ∉ d.mSurfaceSet.map Surface.self ∧
      (d1.mSurfaceSet.map Surface.self).Perm (r :: d.mSurfaceSet.map Surface.self) ∧
      d1.isValidSurface r = true ∧
      ∀ s ∈ d1.mSurfaceSet, s.self = r → s.getSwapChain ≠ 0) ∧
    (∀ (d0 : Display) (w0 w2 : World) (surface s2 : Surface),
      Surface.initialize env surface w0 = some (false, s2, w2) →
      d0.adoptSurface env w0 surface = some (EGL_NO_SURFACE, d0, (s2.release w2).2)) := by
  have hc : ∃ win, Created d d1 r win := by
    rcases h with h | h
    · exact ⟨window, (Display.createWindowSurface_created h).1⟩
    · exact ⟨0, Display.createOffscreenSurface_created h⟩
  obtain ⟨win, hc⟩ := hc
  refine ⟨fun hr => ?_, fun hr => ?_, fun d0 w0 w2 surface s2 hi => ?_⟩
  · rcases hc with ⟨_, hid⟩ | ⟨hne, _⟩
    · exact map_self_of_ident hid
    · exact absurd hr hne
  · rcases hc with ⟨h0, _⟩ | ⟨_, hfresh, s1, l, hl, hs1, hsc, hd1⟩
    · exact absurd h0 hr
    · have hself : s1.self = r := congrArg Prod.fst hs1
      have hlself : l.map Surface.self = d.mSurfaceSet.map Surface.self :=
        map_self_of_ident hl
      have hperm : d1.mSurfaceSet.Perm (s1 :: l) := by
        rw [hd1]
        exact setInsert_perm Surface.self s1 l (by rw [hself, hlself]; exact hfresh)
      refine ⟨hfresh, ?_, ?_, ?_⟩
      · have := hperm.map Surface.self
        rw [List.map_cons, hself, hlself] at this
        exact this
      · exact List.any_eq_true.mpr
          ⟨s1, hperm.symm.subset (List.mem_cons_self _ _), by simp [hself]⟩
      · intro s hs hsr
        rcases List.mem_cons.mp (hperm.subset hs) with rfl | hmem
        · exact hsc
        · exfalso
          apply hfresh
          rw [← hlself, ← hsr]
          exact List.mem_map_of_mem _ hmem
  · simp [Display.adoptSurface, hi]

/-- Claim C4 at a concrete input: a window surface created on window `11` of `displayTwo`. -/
theorem createSurface_membership_witness :
    ∃ d1 w1, displayTwo.createWindowSurface envOk worldInit 11 none = some (12, d1, w1) ∧
      12 ∉ displayTwo.mSurfaceSet.map Surface.self ∧
      (d1.mSurfaceSet.map Surface.self).Perm (12 :: displayTwo.mSurfaceSet.map Surface.self) ∧
      d1.isValidSurface 12 = true ∧
      ∀ s ∈ d1.mSurfaceSet, s.self = 12 → s.getSwapChain ≠ 0 := by
  have hr : (displayTwo.createWindowSurface envOk worldInit 11 none).map (fun x => x.1)
      = some 12 := by decide
  obtain ⟨⟨r, d1, w1⟩, h, hr1⟩ := Option.map_eq_some'.mp hr
  simp only at hr1
  subst hr1
  exact ⟨d1, w1, h,
    (createSurface_membership envOk displayTwo d1 worldInit w1 11 0 12 none (Or.inl h)).2.1
      (by decide)⟩

/-! ## Uniqueness of window handles -/

theorem Display.surfacesApart_of_ident {d d1 : Display}
    (h : d1.mSurfaceSet.map Surface.ident = d.mSurfaceSet.map Surface.ident)
    (hd : d.surfacesApart) : d1.surfacesApart := by
  unfold Display.surfacesApart at *
  rw [h]; exact hd

theorem Display.surfacesApart_of_created {d d1 : Display} {r window : Handle}
    (hc : Created d d1 r window)
    (hwin : r ≠ EGL_NO_SURFACE → ∀ t ∈ d.mSurfaceSet, t.getWindowHandle = window → window = 0)
    (hd : d.surfacesApart) : d1.surfacesApart := by
  rcases hc with ⟨_, hid⟩ | ⟨hne, hfresh, s1, l, hl, hs1, _, hd1⟩
  · exact Display.surfacesApart_of_ident hid hd
  · have hself : s1.self = r := congrArg Prod.fst hs1
    have hlself : l.map Surface.self = d.mSurfaceSet.map Surface.self := map_self_of_ident hl
    have hperm : d1.mSurfaceSet.Perm (s1 :: l) := by
      rw [hd1]
      exact setInsert_perm Surface.self s1 l (by rw [hself, hlself]; exact hfresh)
    unfold Display.surfacesApart at *
    rw [(hperm.map Surface.ident).pairwise_iff (fun {a b} h => identsApart_symm h)]
    rw [List.map_cons, hl, hs1, List.pairwise_cons]
    refine ⟨fun b hb => ?_, hd⟩
    obtain ⟨t, ht, rfl⟩ := List.mem_map.mp hb
    refine ⟨fun e => hfresh ?_, fun e => ?_⟩
    · simp only [Surface.ident] at e
      rw [e]; exact List.mem_map_of_mem _ ht
    · simp only [Surface.ident] at e
      exact hwin hne t ht e.symm

theorem Display.destroySurface_apart {d d1 : Display} {w w1 : World} {surface : Handle}
    (h : d.destroySurface w surface = some (d1, w1)) (hd : d.surfacesApart) :
    d1.surfacesApart := by
  have hsub : ∀ p : Handle, (({ d with mSurfaceSet := setErase Surface.self p d.mSurfaceSet } :
      Display).mSurfaceSet.map Surface.ident).Sublist (d.mSurfaceSet.map Surface.ident) :=
    fun p => List.Sublist.map _ (List.filter_sublist _)
  unfold Display.destroySurface at h
  split at h
  · simp only [Option.some.injEq, Prod.mk.injEq] at h
    rw [← h.1]; exact List.Pairwise.sublist (hsub _) hd
  · split at h
    · cases h
    · simp only [Option.some.injEq, Prod.mk.injEq] at h
      rw [← h.1]; exact List.Pairwise.sublist (hsub _) hd

theorem Display.terminateSurfaces_apart {fuel : Nat} {d d1 : Display} {w w1 : World}
    (h : Display.terminateSurfaces fuel d w = some (d1, w1)) (hd : d.surfacesApart) :
    d1.surfacesApart := by
  induction fuel generalizing d w with
  | zero =>
    unfold Display.terminateSurfaces at h
    split at h
    · simp only [Option.some.injEq, Prod.mk.injEq] at h
      rw [← h.1]; exact hd
    · cases h
  | succ n ih =>
    unfold Display.terminateSurfaces at h
    split at h
    · simp only [Option.some.injEq, Prod.mk.injEq] at h
      rw [← h.1]; exact hd
    · split at h
      · cases h
      · rename_i d2 w2 hds
        exact ih h (Display.destroySurface_apart hds hd)

theorem Display.terminateContexts_surfaces {fuel : Nat} {d d1 : Display} {w w1 : World}
    (h : Display.terminateContexts fuel d w = some (d1, w1)) :
    d1.mSurfaceSet = d.mSurfaceSet := by
  induction fuel generalizing d w with
  | zero =>
    unfold Display.terminateContexts at h
    split at h
    · simp only [Option.some.injEq, Prod.mk.injEq] at h
      rw [← h.1]
    · cases h
  | succ n ih =>
    unfold Display.terminateContexts at h
    split at h
    · simp only [Option.some.injEq, Prod.mk.injEq] at h
      rw [← h.1]
    · simp only at h
      exact (ih h).trans rfl

theorem Display.terminate_apart {d d1 : Display} {w w1 : World}
    (h : d.terminate w = some (d1, w1)) (hd : d.surfacesApart) : d1.surfacesApart := by
  unfold Display.terminate at h
  split at h
  · cases h
  · rename_i d2 w2 hs
    split at h
    · cases h
    · rename_i d3 w3 hc
      simp only [Option.some.injEq, Prod.mk.injEq] at h
      have h2 := Display.terminateSurfaces_apart hs hd
      have h3 := Display.terminateContexts_surfaces hc
      rw [← h.1]
      unfold Display.surfacesApart at *
      simp only
      rw [h3]; exact h2

theorem Display.initialize_apart {env : Env} {d d1 : Display} {w w1 : World} {b : Bool}
    (h : Display.initialize env d w = some (b, d1, w1)) (hd : d.surfacesApart) :
    d1.surfacesApart := by
  unfold Display.initialize at h
  split at h
  · simp only [Option.some.injEq, Prod.mk.injEq] at h
    rw [← h.2.1]; exact hd
  · simp only at h
    split at h
    · split at h
      · cases h
      · rename_i d2 w2 ht
        simp only [Option.some.injEq, Prod.mk.injEq] at h
        rw [← h.2.1]
        exact Display.terminate_apart ht hd
    · split at h
      · split at h
        · cases h
        · rename_i d2 w2 ht
          simp only [Option.some.injEq, Prod.mk.injEq] at h
          rw [← h.2.1]
          exact Display.terminate_apart ht hd
      · simp only [Option.some.injEq, Prod.mk.injEq] at h
        rw [← h.2.1]; exact hd

theorem Display.createContext_ident {env : Env} {d d1 : Display} {w w1 : World}
    {shareContext r : Handle} {notifyResets robustAccess : Bool}
    (h : d.createContext env w shareContext notifyResets robustAccess = some (r, d1, w1)) :
    d1.mSurfaceSet.map Surface.ident = d.mSurfaceSet.map Surface.ident := by
  unfold Display.createContext at h
  split at h
  · simp only [Option.some.injEq, Prod.mk.injEq] at h
    rw [← h.2.1]
  · split at h
    · cases h
    · rename_i d2 w2 hrec
      simp only [Option.some.injEq, Prod.mk.injEq] at h
      rw [← h.2.1]; exact (Display.recoverIfLost_ident hrec).1
    · rename_i d2 w2 hrec
      simp only [Option.some.injEq, Prod.mk.injEq] at h
      rw [← h.2.1]; exact (Display.recoverIfLost_ident hrec).1

theorem Display.call_apart {env : Env} {d d1 : Display} {w w1 : World} {c : DisplayCall}
    (h : Display.call env d w c = some (d1, w1)) (hd : d.surfacesApart) :
    d1.surfacesApart := by
  match c, h with
  | DisplayCall.init, h =>
    simp only [Display.call, Option.map_eq_some'] at h
    obtain ⟨⟨b, d2, w2⟩, hr, he⟩ := h
    simp only [Prod.mk.injEq] at he
    rw [← he.1]; exact Display.initialize_apart hr hd
  | DisplayCall.terminate, h =>
    simp only [Display.call] at h
    exact Display.terminate_apart h hd
  | DisplayCall.createWindowSurface window attribList, h =>
    simp only [Display.call, Option.map_eq_some'] at h
    obtain ⟨⟨r, d2, w2⟩, hr, he⟩ := h
    simp only [Prod.mk.injEq] at he
    rw [← he.1]
    obtain ⟨hc, hwin⟩ := Display.createWindowSurface_created hr
    exact Display.surfacesApart_of_created hc (fun hne t ht e => absurd e (hwin hne t ht)) hd
  | DisplayCall.createOffscreenSurface shareHandle attribList, h =>
    simp only [Display.call, Option.map_eq_some'] at h
    obtain ⟨⟨r, d2, w2⟩, hr, he⟩ := h
    simp only [Prod.mk.injEq] at he
    rw [← he.1]
    exact Display.surfacesApart_of_created (Display.createOffscreenSurface_created hr)
      (fun _ _ _ _ => rfl) hd
  | DisplayCall.createContext shareContext notifyResets robustAccess, h =>
    simp only [Display.call, Option.map_eq_some'] at h
    obtain ⟨⟨r, d2, w2⟩, hr, he⟩ := h
    simp only [Prod.mk.injEq] at he
    rw [← he.1]
    exact Display.surfacesApart_of_ident (Display.createContext_ident hr) hd
  | DisplayCall.destroySurface surface, h =>
    simp only [Display.call] at h
    exact Display.destroySurface_apart h hd
  | DisplayCall.destroyContext context, h =>
    simp only [Display.call, Display.destroyContext, Option.some.injEq, Prod.mk.injEq] at h
    rw [← h.1]; exact hd
  | DisplayCall.restoreLostDevice, h =>
    simp only [Display.call, Option.map_eq_some'] at h
    obtain ⟨⟨b, d2, w2⟩, hr, he⟩ := h
    simp only [Prod.mk.injEq] at he
    rw [← he.1]
    exact Display.surfacesApart_of_ident (Display.restoreLostDevice_ident hr).1 hd

theorem Display.run_apart {env : Env} {calls : List DisplayCall} {d d1 : Display} {w w1 : World}
    (h : Display.run env calls (d, w) = some (d1, w1)) (hd : d.surfacesApart) :
    d1.surfacesApart := by
  induction calls generalizing d w with
  | nil =>
    simp only [Display.run, Option.some.injEq, Prod.mk.injEq] at h
    rw [← h.1]; exact hd
  | cons c rest ih =>
    simp only [Display.run] at h
    split at h
    · cases h
    · rename_i st hcall
      obtain ⟨d2, w2⟩ := st
      exact ih h (Display.call_apart hcall hd)

/-- Claim C6. In every state reached from a freshly constructed display by a
sequence of `initialize`, `terminate`, `createWindowSurface`,
`createOffscreenSurface`, `createContext`, `destroySurface`, `destroyContext`
and `restoreLostDevice` calls, two live surfaces with the same address are
the same surface, and two live surfaces bound to the same (non-null) window
are the same surface. -/
theorem window_handles_unique (env : Env) (w0 : World) (calls : List DisplayCall)
    (d : Display) (w : World)
    (hrun : Display.run env calls (Display.new, w0) = some (d, w)) :
    (∀ s ∈ d.mSurfaceSet, ∀ t ∈ d.mSurfaceSet, s.self = t.self → s = t) ∧
    (∀ s ∈ d.mSurfaceSet, ∀ t ∈ d.mSurfaceSet,
      s.getWindowHandle ≠ 0 → s.getWindowHandle = t.getWindowHandle → s = t) := by
  have hnew : Display.new.surfacesApart := List.Pairwise.nil
  have hd := Display.run_apart hrun hnew
  unfold Display.surfacesApart at hd
  rw [List.pairwise_map] at hd
  have hsymm : Symmetric (fun a b : Surface => identsApart a.ident b.ident) :=
    fun a b h => identsApart_symm h
  constructor
  · intro s hs t ht hst
    by_contra hne
    exact (hd.forall hsymm hs ht hne).1 hst
  · intro s hs t ht hwin hst
    by_contra hne
    exact hwin ((hd.forall hsymm hs ht hne).2 hst)

/-- Claim C6 at a concrete input: a run that creates three surfaces and recovers from a lost device. -/
theorem window_handles_unique_witness :
    ∃ d w, Display.run envOk
        [DisplayCall.init, DisplayCall.createWindowSurface 9 none,
         DisplayCall.createWindowSurface 9 none,
         DisplayCall.createOffscreenSurface 0 (some [EGL_WIDTH, 64, EGL_HEIGHT, 64, EGL_NONE]),
         DisplayCall.createWindowSurface 11 none, DisplayCall.restoreLostDevice]
        (Display.new, worldInit) = some (d, w) ∧
      d.mSurfaceSet.map Surface.ident = [(13, 9), (18, 0), (22, 11)] ∧
      (∀ s ∈ d.mSurfaceSet, ∀ t ∈ d.mSurfaceSet, s.self = t.self → s = t) ∧
      (∀ s ∈ d.mSurfaceSet, ∀ t ∈ d.mSurfaceSet,
        s.getWindowHandle ≠ 0 → s.getWindowHandle = t.getWindowHandle → s = t) := by
  have hsome : (Display.run envOk
      [DisplayCall.init, DisplayCall.createWindowSurface 9 none,
       DisplayCall.createWindowSurface 9 none,
       DisplayCall.createOffscreenSurface 0 (some [EGL_WIDTH, 64, EGL_HEIGHT, 64, EGL_NONE]),
       DisplayCall.createWindowSurface 11 none, DisplayCall.restoreLostDevice]
      (Display.new, worldInit)).map (fun st => st.1.mSurfaceSet.map Surface.ident)
      = some [(13, 9), (18, 0), (22, 11)] := by decide
  obtain ⟨⟨d, w⟩, h, hid⟩ := Option.map_eq_some'.mp hsome
  exact ⟨d, w, h, hid, window_handles_unique envOk worldInit _ d w h⟩

/-! ## Departures of the code from the stated behaviour -/

/-- Claim C11 fails on the code for an interval outside the backend range:
with the range `0 .. 4`, `setSwapInterval 7` stores `4`, a successful reset
clears `mSwapIntervalDirty`, and a second `setSwapInterval 7` compares the
stored `4` with `7`, goes on, and sets `mSwapIntervalDirty` again. -/
theorem setSwapInterval_out_of_range_marks_dirty_again :
    sampleOffscreen.setSwapInterval envOk 7
      = some { sampleOffscreen with mSwapInterval := 4, mSwapIntervalDirty := true } ∧
    ({ sampleOffscreen with mSwapInterval := 4, mSwapIntervalDirty := true } :
        Surface).resetSwapChainWH envOk 64 64 worldInit
      = some (true, { sampleOffscreen with mSwapInterval := 4, mSwapIntervalDirty := false },
          worldInit.log (Event.swapChainReset 5 64 64 4)) ∧
    ({ sampleOffscreen with mSwapInterval := 4, mSwapIntervalDirty := false } :
        Surface).setSwapInterval envOk 7
      = some { sampleOffscreen with mSwapInterval := 4, mSwapIntervalDirty := true } :=
  ⟨by decide, by decide, by decide⟩

/-- Claim C13 fails on the code when only the swap interval is pending: the
surface on window `9` is the current draw surface, its size is the client
size and `mSwapIntervalDirty` is set; `checkForOutOfDateSwapChain` performs the
full reset, which clears the flag, then reads the flag again: it returns
`false` and does not call `glMakeCurrent`. -/
theorem checkForOutOfDateSwapChain_reset_reported_unchanged :
    worldDrawing.current.drawSurface = sampleWindow.self ∧
    ({ sampleWindow with mSwapIntervalDirty := true } :
        Surface).checkForOutOfDateSwapChain envSameSize displayTwo worldDrawing
      = some (false, sampleWindow,
          { worldDrawing with
            trace := [Event.swapChainReset 6 640 480 1, Event.getClientRect 9] }) :=
  ⟨rfl, by decide⟩

/-- Claim C19 fails on the code when the geometry query answers for a surface
without window (as `get_screen_size` does): a 64 x 64 offscreen surface made
by `createOffscreenSurface` is resized to the reported 800 x 600 by the
`checkForOutOfDateSwapChain` at the end of its first `swap`. -/
theorem offscreen_surface_resized_by_swap :
    (displayEmpty.createOffscreenSurface envOk worldInit 0
        (some [EGL_WIDTH, 64, EGL_HEIGHT, 64, EGL_NONE])).bind
      (fun r => r.2.1.mSurfaceSet.head?.bind (fun s =>
        (s.swap envOk r.2.1 r.2.2).map (fun x =>
          (r.1, s.self, s.getWindowHandle, s.getWidth, s.getHeight, x.1, x.2.1.getWidth,
            x.2.1.getHeight, x.2.2.trace.take 3))))
      = some (12, 12, 0, 64, 64, true, 800, 600,
          [Event.swapChainResize 103 800 600, Event.getClientRect 0,
           Event.swapChainSwapRect 103 0 0 64 64]) := by
  rfl

/-! ## Failure of the swap-chain reset -/

theorem Display.destroySurface_head {d : Display} {s : Surface} {rest : List Surface}
    (w : World) (hd : d.mSurfaceSet = s :: rest) :
    ∃ w1, d.destroySurface w s.self
        = some ({ d with mSurfaceSet := rest.filter (fun y => y.self ≠ s.self) }, w1) ∧
      w1.current = w.current ∧
      ∃ new, w1.trace = new ++ w.trace ∧ ∀ e ∈ new, e.isRelease = true := by
  have hfilter : setErase Surface.self s.self d.mSurfaceSet
      = rest.filter (fun y => y.self ≠ s.self) := by
    rw [hd]; simp [setErase]
  unfold Display.destroySurface
  by_cases h0 : s.self = 0
  · rw [if_pos h0, hfilter]
    exact ⟨w, rfl, rfl, [], rfl, fun e he => absurd he (List.not_mem_nil e)⟩
  · rw [if_neg h0, hd]
    simp only [List.find?_cons_of_pos, decide_True, hfilter]
    rw [← hd, hfilter]
    exact ⟨(s.release w).2, rfl, Surface.release_current s w, Surface.release_trace s w⟩

theorem Display.terminateSurfaces_spec (fuel : Nat) (d : Display) (w : World)
    (hfuel : d.mSurfaceSet.length ≤ fuel) :
    ∃ w1, Display.terminateSurfaces fuel d w = some ({ d with mSurfaceSet := [] }, w1) ∧
      w1.current = w.current ∧
      ∃ new, w1.trace = new ++ w.trace ∧ ∀ e ∈ new, e.isRelease = true := by
  induction fuel generalizing d w with
  | zero =>
    have hnil : d.mSurfaceSet = [] := List.length_eq_zero.mp (Nat.le_zero.mp hfuel)
    refine ⟨w, ?_, rfl, [], rfl, fun e he => absurd he (List.not_mem_nil e)⟩
    unfold Display.terminateSurfaces
    rw [hnil]
    simp only [List.isEmpty_nil, if_true]
    rw [← hnil]
  | succ n ih =>
    cases hd : d.mSurfaceSet with
    | nil =>
      refine ⟨w, ?_, rfl, [], rfl, fun e he => absurd he (List.not_mem_nil e)⟩
      unfold Display.terminateSurfaces
      rw [hd]
      simp only
      rw [← hd]
    | cons s rest =>
      obtain ⟨w1, h1, hc1, new1, ht1, hr1⟩ := Display.destroySurface_head w hd
      have hlen : ({ d with mSurfaceSet := rest.filter (fun y => y.self ≠ s.self) } :
          Display).mSurfaceSet.length ≤ n := by
        have := List.length_filter_le (fun y : Surface => decide (y.self ≠ s.self)) rest
        rw [hd] at hfuel
        simp only [List.length_cons] at hfuel
        simp only
        omega
      obtain ⟨w2, h2, hc2, new2, ht2, hr2⟩ := ih _ w1 hlen
      refine ⟨w2, ?_, hc2.trans hc1, new2 ++ new1, ?_, ?_⟩
      · unfold Display.terminateSurfaces
        rw [hd]
        simp only
        rw [h1]
        exact h2
      · rw [ht2, ht1, List.append_assoc]
      · intro e he
        rcases List.mem_append.mp he with h | h
        · exact hr2 e h
        · exact hr1 e h

theorem Display.terminateContexts_spec (fuel : Nat) (d : Display) (w : World)
    (hfuel : d.mContextSet.length ≤ fuel) :
    ∃ w1, Display.terminateContexts fuel d w = some ({ d with mContextSet := [] }, w1) ∧
      w1.current = w.current ∧
      ∃ new, w1.trace = new ++ w.trace ∧
        (∀ e ∈ new, ∃ c ∈ d.mContextSet, e = Event.glDestroyContext c.self) ∧
        (∀ c ∈ d.mContextSet, Event.glDestroyContext c.self ∈ new) := by
  induction fuel generalizing d w with
  | zero =>
    have hnil : d.mContextSet = [] := List.length_eq_zero.mp (Nat.le_zero.mp hfuel)
    refine ⟨w, ?_, rfl, [], rfl, fun e he => absurd he (List.not_mem_nil e), ?_⟩
    · unfold Display.terminateContexts
      rw [hnil]
      simp only [List.isEmpty_nil, if_true]
      rw [← hnil]
    · rw [hnil]; intro c hc; cases hc
  | succ n ih =>
    cases hd : d.mContextSet with
    | nil =>
      refine ⟨w, ?_, rfl, [], rfl, fun e he => absurd he (List.not_mem_nil e), ?_⟩
      · unfold Display.terminateContexts
        rw [hd]
        simp only
        rw [← hd]
      · intro c hc; cases hc
    | cons c rest =>
      have hset : (d.destroyContext w c.self).1.mContextSet
          = rest.filter (fun y => y.self ≠ c.self) := by
        simp [Display.destroyContext, setErase, hd]
      have hlen : (d.destroyContext w c.self).1.mContextSet.length ≤ n := by
        rw [hset]
        rw [hd] at hfuel
        simp only [List.length_cons] at hfuel
        exact le_trans (List.length_filter_le _ _) (by omega)
      obtain ⟨w2, h2, hc2, new2, ht2, hin2, hall2⟩ := ih (d.destroyContext w c.self).1
        (d.destroyContext w c.self).2 hlen
      refine ⟨w2, ?_, hc2, new2 ++ [Event.glDestroyContext c.self], ?_, ?_, ?_⟩
      · unfold Display.terminateContexts
        rw [hd]
        simp only
        rw [h2]
        rfl
      · rw [ht2]
        simp [Display.destroyContext, World.log]
      · intro e he
        rcases List.mem_append.mp he with h | h
        · obtain ⟨c1, hc1, he1⟩ := hin2 e h
          rw [hset] at hc1
          exact ⟨c1, List.mem_cons_of_mem _ (List.mem_filter.mp hc1).1, he1⟩
        · rw [List.mem_singleton] at h
          exact ⟨c, List.mem_cons_self _ _, h⟩
      · intro c1 hc1
        by_cases hsame : c1.self = c.self
        · rw [hsame]
          exact List.mem_append_right _ (List.mem_singleton.mpr rfl)
        · rcases List.mem_cons.mp hc1 with rfl | hmem
          · exact absurd rfl hsame
          · refine List.mem_append_left _ (hall2 c1 ?_)
            rw [hset]
            exact List.mem_filter.mpr ⟨hmem, by simpa using hsame⟩

theorem Surface.release_calls (s : Surface) (w : World) :
    (s.release w).2.trace = s.releaseCalls ++ w.trace := by
  unfold Surface.release Surface.releaseCalls World.log
  simp only
  split_ifs <;> simp

theorem filter_self_ne_of_nodup {s : Surface} {rest : List Surface}
    (hnd : ((s :: rest).map Surface.self).Nodup) :
    rest.filter (fun y => y.self ≠ s.self) = rest := by
  rw [List.filter_eq_self]
  intro y hy
  simp only [List.map_cons, List.nodup_cons, List.mem_map, not_exists, not_and] at hnd
  simpa using hnd.1 y hy

theorem Display.terminateSurfaces_calls (fuel : Nat) (d : Display) (w : World)
    (hnz : ∀ s ∈ d.mSurfaceSet, s.self ≠ 0) (hnd : (d.mSurfaceSet.map Surface.self).Nodup)
    {d1 : Display} {w1 : World} (h : Display.terminateSurfaces fuel d w = some (d1, w1)) :
    w1.trace = (d.mSurfaceSet.reverse.map Surface.releaseCalls).flatten ++ w.trace := by
  induction fuel generalizing d w with
  | zero =>
    unfold Display.terminateSurfaces at h
    split at h
    · rename_i hempty
      simp only [Option.some.injEq, Prod.mk.injEq] at h
      rw [← h.2, List.isEmpty_iff.mp hempty]
      rfl
    · cases h
  | succ n ih =>
    cases hd : d.mSurfaceSet with
    | nil =>
      unfold Display.terminateSurfaces at h
      rw [hd] at h
      simp only [Option.some.injEq, Prod.mk.injEq] at h
      rw [← h.2]
      rfl
    | cons s rest =>
      have hs0 : s.self ≠ 0 := hnz s (by rw [hd]; exact List.mem_cons_self _ _)
      have hnd' := hnd
      rw [hd] at hnd'
      have hfilter : setErase Surface.self s.self d.mSurfaceSet = rest := by
        rw [hd]
        simp only [setErase, ne_eq, List.filter_cons, not_true_eq_false, decide_False,
          Bool.false_eq_true, if_false]
        exact filter_self_ne_of_nodup hnd'
      have hds : d.destroySurface w s.self
          = some ({ d with mSurfaceSet := rest }, (s.release w).2) := by
        unfold Display.destroySurface
        rw [if_neg hs0, hfilter, hd]
        simp only [List.find?_cons_of_pos, decide_True]
      unfold Display.terminateSurfaces at h
      rw [hd] at h
      simp only at h
      rw [hds] at h
      simp only at h
      have hrec := ih { d with mSurfaceSet := rest } (s.release w).2
        (fun t ht => hnz t (by rw [hd]; exact List.mem_cons_of_mem _ ht))
        (by simpa using (List.nodup_cons.mp hnd').2) h
      rw [hrec, Surface.release_calls]
      simp

theorem Display.terminate_spec (d : Display) (w : World) :
    ∃ w1 ss cs, d.terminate w = some (Display.new, w1) ∧
      w1.current = w.current ∧
      w1.trace = rendererTeardown d.mRenderer ++ (cs ++ (ss ++ w.trace)) ∧
      (∀ e ∈ ss, e.isRelease = true) ∧
      (∀ e ∈ cs, ∃ c ∈ d.mContextSet, e = Event.glDestroyContext c.self) ∧
      (∀ c ∈ d.mContextSet, Event.glDestroyContext c.self ∈ cs) ∧
      ((∀ s ∈ d.mSurfaceSet, s.self ≠ 0) → (d.mSurfaceSet.map Surface.self).Nodup →
        ss = (d.mSurfaceSet.reverse.map Surface.releaseCalls).flatten) := by
  obtain ⟨w1, h1, hc1, ss, ht1, hr1⟩ :=
    Display.terminateSurfaces_spec d.mSurfaceSet.length d w (Nat.le_refl _)
  obtain ⟨w2, h2, hc2, cs, ht2, hin2, hall2⟩ :=
    Display.terminateContexts_spec ({ d with mSurfaceSet := [] } : Display).mContextSet.length
      { d with mSurfaceSet := [] } w1 (Nat.le_refl _)
  refine ⟨glDestroyRenderer w2 d.mRenderer, ss, cs, ?_, ?_, ?_, hr1, hin2, hall2, ?_⟩
  · unfold Display.terminate
    rw [h1]
    simp only
    rw [h2]
    rfl
  · unfold glDestroyRenderer
    split
    · exact hc2.trans hc1
    · exact hc2.trans hc1
  · unfold glDestroyRenderer rendererTeardown World.log
    split
    · simp [ht2, ht1]
    · simp [ht2, ht1]
  · intro hnz hnd
    have hx := Display.terminateSurfaces_calls _ d w hnz hnd h1
    rw [ht1] at hx
    exact List.append_cancel_right hx

theorem Display.terminate_new (w : World) : Display.new.terminate w = some (Display.new, w) := by
  simp [Display.terminate, Display.new, Display.terminateSurfaces, Display.terminateContexts,
    glDestroyRenderer]

/-- Claim C17. `terminate()` returns for every display, each loop being given as
many iterations as its set has members, and every iteration on a non-empty
set removes at least its first member.  The calls it makes are, in this
order, the releases of the surfaces, one `glDestroyContext` for every
context, and the destructor of the backend if there is one.  When the
members of the surface set are distinct non-null pointers, the releases are
exactly the calls of `release()` on every surface, in set order: the `delete`
of its swap chain if it has one, then `releaseTexImage` on its bound texture
if it has one; so every live swap chain is deleted.  `terminate()` leaves the
freshly constructed display: no backend, both sets empty.  A second
`terminate()` changes neither the display nor the world. -/
theorem terminate_destroys_in_order (d : Display) (w : World) :
    ∃ w1 ss cs, d.terminate w = some (Display.new, w1) ∧
      Display.new.mRenderer = 0 ∧ Display.new.mSurfaceSet = [] ∧
      Display.new.mContextSet = [] ∧
      w1.trace = rendererTeardown d.mRenderer ++ (cs ++ (ss ++ w.trace)) ∧
      (∀ e ∈ ss, e.isRelease = true) ∧
      (∀ e ∈ cs, e.isDestroyContext = true) ∧
      (∀ c ∈ d.mContextSet, Event.glDestroyContext c.self ∈ cs) ∧
      ((∀ s ∈ d.mSurfaceSet, s.self ≠ 0) → (d.mSurfaceSet.map Surface.self).Nodup →
        ss = (d.mSurfaceSet.reverse.map Surface.releaseCalls).flatten ∧
        (∀ s ∈ d.mSurfaceSet, s.getSwapChain ≠ 0 →
          Event.swapChainDelete s.getSwapChain ∈ ss) ∧
        (∀ s ∈ d.mSurfaceSet, s.getBoundTexture ≠ 0 →
          Event.releaseTexImage s.getBoundTexture ∈ ss)) ∧
      (∀ s rest, d.mSurfaceSet = s :: rest →
        ∃ d1 w2, d.destroySurface w s.self = some (d1, w2) ∧
          d1.mSurfaceSet.length < d.mSurfaceSet.length) ∧
      (∀ c rest, d.mContextSet = c :: rest →
        (d.destroyContext w c.self).1.mContextSet.length < d.mContextSet.length) ∧
      Display.new.terminate w1 = some (Display.new, w1) := by
  obtain ⟨w1, ss, cs, h, _, ht, hss, hcs, hall, hexact⟩ := Display.terminate_spec d w
  refine ⟨w1, ss, cs, h, rfl, rfl, rfl, ht, hss, ?_, hall, ?_, ?_, ?_,
    Display.terminate_new w1⟩
  · intro e he
    obtain ⟨c, _, rfl⟩ := hcs e he
    rfl
  · intro hnz hnd
    have hss' := hexact hnz hnd
    refine ⟨hss', ?_, ?_⟩
    · intro s hs hsc
      rw [hss']
      simp only [List.mem_flatten, List.mem_map, List.mem_reverse]
      refine ⟨s.releaseCalls, ⟨s, hs, rfl⟩, ?_⟩
      unfold Surface.releaseCalls
      simp only [Surface.getSwapChain] at hsc
      simp [hsc, Surface.getSwapChain]
    · intro s hs htex
      rw [hss']
      simp only [List.mem_flatten, List.mem_map, List.mem_reverse]
      refine ⟨s.releaseCalls, ⟨s, hs, rfl⟩, ?_⟩
      unfold Surface.releaseCalls
      simp only [Surface.getBoundTexture] at htex
      simp [htex, Surface.getBoundTexture]
  · intro s rest hd
    obtain ⟨w2, h2, _⟩ := Display.destroySurface_head w hd
    refine ⟨_, w2, h2, ?_⟩
    rw [hd]
    exact Nat.lt_succ_of_le (List.length_filter_le _ _)
  · intro c rest hd
    have hset : (d.destroyContext w c.self).1.mContextSet
        = rest.filter (fun y => y.self ≠ c.self) := by
      simp [Display.destroyContext, setErase, hd]
    rw [hset, hd]
    exact Nat.lt_succ_of_le (List.length_filter_le _ _)

/-- Claim C17 at a concrete input: `displayFull`, with two surfaces, two contexts
and a backend; the swap chains `5` and `6` are deleted and texture `4` is
released before the contexts `3` and `8` are destroyed, and the backend `1`
goes last. -/
theorem terminate_destroys_in_order_witness :
    displayFull.terminate worldInit
      = some (Display.new,
          { worldInit with
            trace := [Event.glDestroyRenderer 1, Event.glDestroyContext 8,
              Event.glDestroyContext 3, Event.releaseTexImage 4, Event.swapChainDelete 6,
              Event.swapChainDelete 5] }) ∧
    ∃ w1 ss cs, displayFull.terminate worldInit = some (Display.new, w1) ∧
      w1.trace = rendererTeardown displayFull.mRenderer ++ (cs ++ (ss ++ worldInit.trace)) ∧
      ss = (displayFull.mSurfaceSet.reverse.map Surface.releaseCalls).flatten ∧
      ss = [Event.releaseTexImage 4, Event.swapChainDelete 6, Event.swapChainDelete 5] := by
  obtain ⟨w1, ss, cs, h, _, _, _, ht, _, _, _, hexact, _⟩ :=
    terminate_destroys_in_order displayFull worldInit
  have hss := (hexact (by decide) (by decide)).1
  refine ⟨by decide, w1, ss, cs, h, ht, hss, ?_⟩
  rw [hss]
  decide

/-- Claim C16. For every display, `terminate()` returns, and `initialize()`
called next returns as well, with success or with failure as the backend
decides; in both cases the surface set and the context set are empty, so
`isValidSurface` and `isValidContext` are false of every pointer, also of the
surfaces and contexts that were live before. -/
theorem terminate_then_initialize_empty (env : Env) (d : Display) (w : World) :
    ∃ d1 w1 b d2 w2, d.terminate w = some (d1, w1) ∧
      Display.initialize env d1 w1 = some (b, d2, w2) ∧
      d2.mSurfaceSet = [] ∧ d2.mContextSet = [] ∧
      (b = true ↔ d2.isInitialized = true) ∧
      (∀ s ∈ d.mSurfaceSet, d2.isValidSurface s.self = false) ∧
      (∀ c ∈ d.mContextSet, d2.isValidContext c.self = false) ∧
      (∀ p, d2.isValidSurface p = false ∧ d2.isValidContext p = false) := by
  obtain ⟨w1, _, _, h, _⟩ := Display.terminate_spec d w
  have hinit : ∃ b d2 w2, Display.initialize env Display.new w1 = some (b, d2, w2) ∧
      d2.mSurfaceSet = [] ∧ d2.mContextSet = [] ∧ (b = true ↔ d2.isInitialized = true) := by
    unfold Display.initialize
    rw [if_neg (by simp [Display.isInitialized, Display.new])]
    simp only
    by_cases hr : (glCreateRenderer env w1).1 = 0
    · refine ⟨false, Display.new, error (glCreateRenderer env w1).2 EGL_NOT_INITIALIZED, ?_,
        rfl, rfl, by simp [Display.isInitialized, Display.new]⟩
      rw [if_pos (by simpa [Display.new] using hr)]
      have ht : ({ Display.new with mRenderer := (glCreateRenderer env w1).1 } : Display)
          = Display.new := by simp [Display.new, hr]
      rw [ht, Display.terminate_new]
    · refine ⟨true, { Display.new with mRenderer := (glCreateRenderer env w1).1 },
        (glCreateRenderer env w1).2, ?_, rfl, rfl, by simp [Display.isInitialized, hr]⟩
      rw [if_neg (by simpa [Display.new] using hr)]
      simp [Display.isInitialized, hr]
  obtain ⟨b, d2, w2, hi, hs, hc, hb⟩ := hinit
  refine ⟨Display.new, w1, b, d2, w2, h, hi, hs, hc, hb, ?_, ?_, ?_⟩
  · intro s _; simp [Display.isValidSurface, hs]
  · intro c _; simp [Display.isValidContext, hc]
  · intro p; simp [Display.isValidSurface, Display.isValidContext, hs, hc]

/-! ## The surface a creation call returns -/

theorem Surface.setSwapInterval_from_minus_one {env : Env} {p s : Surface}
    (hp : p.mSwapInterval = -1) (h : p.setSwapInterval env 1 = some s) :
    p.mRenderer ≠ 0 ∧
    s = { p with mSwapInterval := min (max 1 env.minSwapInterval) env.maxSwapInterval,
                 mSwapIntervalDirty := true } := by
  unfold Surface.setSwapInterval at h
  rw [if_neg (by rw [hp]; decide)] at h
  split at h
  · cases h
  · rename_i hr
    simp only [Option.some.injEq] at h
    exact ⟨hr, h.symm⟩

theorem Surface.initialize_true {env : Env} {s s1 : Surface} {w w1 : World}
    (h : Surface.initialize env s w = some (true, s1, w1)) :
    s.resetSwapChain env w = some (true, s1, w1) := by
  unfold Surface.initialize at h
  split at h
  · cases h
  · simp at h
  · rename_i s2 w2 hr
    simp only [Option.some.injEq, Prod.mk.injEq, true_and] at h
    rw [hr, h.1, h.2]

theorem Surface.initialize_false {env : Env} {s s1 : Surface} {w w1 : World}
    (h : Surface.initialize env s w = some (false, s1, w1)) :
    s.resetSwapChain env w = some (false, s1, w1) := by
  unfold Surface.initialize at h
  split at h
  · cases h
  · rename_i s2 w2 hr
    simp only [Option.some.injEq, Prod.mk.injEq, true_and] at h
    rw [hr, h.1, h.2]
  · simp at h

/-- The surface found at the address a successful `adoptSurface` returns is
the one `initialize()` left, and the world is the one it left with
`EGL_SUCCESS` recorded. -/
theorem Display.adoptSurface_member {env : Env} {d0 d1 : Display} {w w1 : World}
    {surface s : Surface} {r : Handle}
    (h : d0.adoptSurface env w surface = some (r, d1, w1)) (hr : r ≠ EGL_NO_SURFACE)
    (hfresh : surface.self ∉ d0.mSurfaceSet.map Surface.self)
    (hs : s ∈ d1.mSurfaceSet) (hsr : s.self = r) :
    ∃ w0, Surface.initialize env surface w = some (true, s, w0) ∧ w1 = success w0 := by
  unfold Display.adoptSurface at h
  split at h
  · cases h
  · simp only [Option.some.injEq, Prod.mk.injEq] at h
    exact absurd h.1.symm hr
  · rename_i s1 w0 hi
    simp only [Option.some.injEq, Prod.mk.injEq] at h
    have hself : s1.self = surface.self := (Surface.initialize_kept hi).1
    have hperm := setInsert_perm Surface.self s1 d0.mSurfaceSet (by rw [hself]; exact hfresh)
    rw [← h.2.1] at hs
    rcases List.mem_cons.mp (hperm.subset hs) with rfl | hmem
    · exact ⟨w0, hi, h.2.2.symm⟩
    · exfalso
      apply hfresh
      rw [← hself, h.1, ← hsr]
      exact List.mem_map_of_mem _ hmem

/-- What is known of the surface at the address a successful
`createWindowSurface` returns. -/
theorem Display.createWindowSurface_surface {env : Env} {d d1 : Display} {w w1 : World}
    {r window : Handle} {attribList : Option (List Int)} {s : Surface}
    (h : d.createWindowSurface env w window attribList = some (r, d1, w1))
    (hr : r ≠ EGL_NO_SURFACE) (hs : s ∈ d1.mSurfaceSet) (hsr : s.self = r) :
    s.getWindowHandle = window ∧ s.getSwapChain ≠ 0 ∧ s.mRenderer ≠ 0 ∧
    s.mSwapIntervalDirty = false ∧
    s.mSwapInterval = min (max 1 env.minSwapInterval) env.maxSwapInterval := by
  unfold Display.createWindowSurface at h
  split at h
  · cases h
  · simp only [Option.some.injEq, Prod.mk.injEq] at h
    exact absurd h.1.symm hr
  · split at h
    · simp only [Option.some.injEq, Prod.mk.injEq] at h
      exact absurd h.1.symm hr
    · unfold Display.makeWindowSurface at h
      split at h
      · cases h
      · simp only [Option.some.injEq, Prod.mk.injEq] at h
        exact absurd h.1.symm hr
      · rename_i d0 w0 hrec
        simp only at h
        split at h
        · cases h
        · rename_i surface hmk
          obtain ⟨hren, hsurf⟩ := Surface.setSwapInterval_from_minus_one rfl hmk
          have hfresh : surface.self ∉ d0.mSurfaceSet.map Surface.self := by
            rw [hsurf]; exact freshHandle_not_mem _ _
          obtain ⟨w2, hi, _⟩ := Display.adoptSurface_member h hr hfresh hs hsr
          rcases Surface.resetSwapChain_eq (Surface.initialize_true hi) with
            ⟨_, hsc, heq, _, _⟩ | ⟨hf, _⟩
          · rw [heq, hsurf]
            refine ⟨rfl, ?_, hren, rfl, rfl⟩
            simpa [Surface.getSwapChain] using hsc
          · cases hf

/-- Claim C14, as stated, fails for a backend whose largest swap interval is
`0`: the constructor already stores `0`, `setSwapInterval 0` returns at once
without marking the interval dirty, and `checkForOutOfDateSwapChain` with an
unchanged window only queries the geometry: the swap chain gets no reset. -/
theorem setSwapInterval_zero_without_reset :
    (displayEmpty.createWindowSurface envIntervalZero worldInit 9 none).bind
      (fun r => r.2.1.mSurfaceSet.head?.bind (fun s =>
        (s.setSwapInterval envIntervalZero 0).bind (fun s1 =>
          (s1.checkForOutOfDateSwapChain envIntervalZero r.2.1 r.2.2).map (fun x =>
            (r.1, s.self, s.mSwapInterval, s1.mSwapIntervalDirty, s.getWidth, s.getHeight,
              x.1, x.2.2.trace.take 1, decide (x.2.2.trace.drop 1 = r.2.2.trace))))))
      = some (12, 12, 0, false, 800, 600, false, [Event.getClientRect 9], true) := by
  rfl

/-- Claim C14, amended.  For a backend whose largest swap interval is not `0`:
on the surface a successful `createWindowSurface` on `window` returned,
`setSwapInterval 0` followed by `checkForOutOfDateSwapChain`, the geometry
query reporting the size the surface has and the swap chain reset reporting
success, makes exactly two calls, the geometry query and one
`reset(width, height, interval)` with the clamped interval (so no resize),
and leaves `mSwapIntervalDirty` false and the width and height as they were. -/
theorem interval_change_forces_full_reset (env : Env) (d d1 dd : Display) (w w1 w2 : World)
    (r window : Handle) (attribList : Option (List Int)) (s : Surface)
    (hmax : env.maxSwapInterval ≠ 0)
    (hcreate : d.createWindowSurface env w window attribList = some (r, d1, w1))
    (hr : r ≠ EGL_NO_SURFACE) (hs : s ∈ d1.mSurfaceSet) (hsr : s.self = r)
    (hsize : env.getClientRect (Event.getClientRect window :: w2.trace)
      = some (s.getWidth, s.getHeight))
    (hreset : env.swapChainReset
        (Event.swapChainReset s.getSwapChain s.getWidth s.getHeight
            (min (max 0 env.minSwapInterval) env.maxSwapInterval)
          :: Event.getClientRect window :: w2.trace) = EGL_SUCCESS) :
    ∃ s1 b s2 w3, s.setSwapInterval env 0 = some s1 ∧ s1.mSwapIntervalDirty = true ∧
      s1.checkForOutOfDateSwapChain env dd w2 = some (b, s2, w3) ∧
      w3.trace = Event.swapChainReset s.getSwapChain s.getWidth s.getHeight
            (min (max 0 env.minSwapInterval) env.maxSwapInterval)
          :: Event.getClientRect window :: w2.trace ∧
      s2.mSwapIntervalDirty = false ∧
      s2.mSwapInterval = min (max 0 env.minSwapInterval) env.maxSwapInterval ∧
      s2.getWidth = s.getWidth ∧ s2.getHeight = s.getHeight := by
  obtain ⟨hwin, hsc, hren, hdirty, hint⟩ :=
    Display.createWindowSurface_surface hcreate hr hs hsr
  have hne : s.mSwapInterval ≠ 0 := by
    rw [hint]
    simp only [max_def, min_def]
    split_ifs <;> omega
  simp only [Surface.getWindowHandle, Surface.getSwapChain, Surface.getWidth,
    Surface.getHeight] at hwin hsc hsize hreset ⊢
  refine ⟨{ s with mSwapInterval := min (max 0 env.minSwapInterval) env.maxSwapInterval,
                   mSwapIntervalDirty := true }, false,
    { s with mSwapInterval := min (max 0 env.minSwapInterval) env.maxSwapInterval,
             mSwapIntervalDirty := false },
    (w2.log (Event.getClientRect window)).log (Event.swapChainReset s.mSwapChain s.mWidth
      s.mHeight (min (max 0 env.minSwapInterval) env.maxSwapInterval)),
    ?_, rfl, ?_, rfl, rfl, rfl, rfl, rfl⟩
  · simp [Surface.setSwapInterval, hne, hren]
  · have hok : EGL_SUCCESS ≠ EGL_CONTEXT_LOST := by decide
    simp [Surface.checkForOutOfDateSwapChain, Surface.getWindowHandle, Surface.getWidth,
      Surface.getHeight, hwin, World.log, hsize, Surface.resetSwapChainWH, hsc, hreset, hok]

/-- Claim C14 at a concrete input: a surface created on window `9` under
`envOk`, whose window stays 800 x 600. -/
theorem interval_change_forces_full_reset_witness :
    ∃ d1 w1 s, displayEmpty.createWindowSurface envOk worldInit 9 none = some (12, d1, w1) ∧
      s ∈ d1.mSurfaceSet ∧ s.self = 12 ∧
      ∃ s1 b s2 w3, s.setSwapInterval envOk 0 = some s1 ∧ s1.mSwapIntervalDirty = true ∧
        s1.checkForOutOfDateSwapChain envOk d1 w1 = some (b, s2, w3) ∧
        w3.trace = Event.swapChainReset s.getSwapChain s.getWidth s.getHeight
              (min (max 0 envOk.minSwapInterval) envOk.maxSwapInterval)
            :: Event.getClientRect 9 :: w1.trace ∧
        s2.mSwapIntervalDirty = false ∧
        s2.mSwapInterval = min (max 0 envOk.minSwapInterval) envOk.maxSwapInterval ∧
        s2.getWidth = s.getWidth ∧ s2.getHeight = s.getHeight := by
  have hsome : (displayEmpty.createWindowSurface envOk worldInit 9 none).bind
      (fun r => r.2.1.mSurfaceSet.head?.map
        (fun s => (r.1, s.self, s.getWidth, s.getHeight))) = some (12, 12, 800, 600) := rfl
  obtain ⟨⟨r, d1, w1⟩, hc, hrest⟩ := Option.bind_eq_some.mp hsome
  obtain ⟨s, hhead, hval⟩ := Option.map_eq_some'.mp hrest
  simp only [Prod.mk.injEq] at hval
  obtain ⟨hr, hself, hwd, hht⟩ := hval
  subst hr
  have hmem : s ∈ d1.mSurfaceSet := List.mem_of_mem_head? hhead
  exact ⟨d1, w1, s, hc, hmem, hself,
    interval_change_forces_full_reset envOk displayEmpty d1 d1 worldInit w1 w1 12 9 none s
      (by decide) hc (by decide) hmem hself (by rw [hwd, hht]; rfl) rfl⟩

/-! ## The order of the calls made -/

theorem Surface.resetSwapChainWH_trace {env : Env} {s s1 : Surface} {bw bh : Int}
    {w w1 : World} {b : Bool} (h : s.resetSwapChainWH env bw bh w = some (b, s1, w1)) :
    ∃ new, w1.trace = new ++ w.trace := by
  unfold Surface.resetSwapChainWH at h
  split at h
  · cases h
  · simp only at h
    split at h
    · split at h
      · cases h
      · simp only [Option.some.injEq, Prod.mk.injEq] at h
        rw [← h.2.2]
        exact ⟨[Event.rendererNotifyDeviceLost,
          Event.swapChainReset s.mSwapChain bw bh s.mSwapInterval], rfl⟩
    · split at h
      · simp only [Option.some.injEq, Prod.mk.injEq] at h
        rw [← h.2.2]
        exact ⟨[Event.swapChainReset s.mSwapChain bw bh s.mSwapInterval], rfl⟩
      · simp only [Option.some.injEq, Prod.mk.injEq] at h
        rw [← h.2.2]
        exact ⟨[Event.swapChainReset s.mSwapChain bw bh s.mSwapInterval], rfl⟩

theorem Surface.createAndReset_trace {env : Env} {s s1 : Surface} {width height : Int}
    {w w1 : World} {b : Bool} (h : s.createAndReset env width height w = some (b, s1, w1)) :
    ∃ new, w1.trace = new ++ Event.createSwapChain s.mWindow s.mShareHandle GL_RGBA8_OES
      GL_DEPTH24_STENCIL8_OES :: w.trace := by
  unfold Surface.createAndReset at h
  simp only at h
  split at h
  · cases h
  · split at h
    · simp only [Option.some.injEq, Prod.mk.injEq] at h
      rw [← h.2.2]
      exact ⟨[], rfl⟩
    · split at h
      · cases h
      · rename_i s2 w2 heq
        simp only [Option.some.injEq, Prod.mk.injEq] at h
        obtain ⟨new, hn⟩ := Surface.resetSwapChainWH_trace heq
        rw [← h.2.2, hn]
        exact ⟨new, rfl⟩
      · rename_i s2 w2 heq
        simp only [Option.some.injEq, Prod.mk.injEq] at h
        obtain ⟨new, hn⟩ := Surface.resetSwapChainWH_trace heq
        rw [← h.2.2]
        refine ⟨Event.swapChainDelete s2.mSwapChain :: new, ?_⟩
        simp only [World.log, hn]
        rfl

theorem Surface.resetSwapChain_trace {env : Env} {s s1 : Surface} {w w1 : World} {b : Bool}
    (h : s.resetSwapChain env w = some (b, s1, w1)) :
    (∃ new, w1.trace = new ++ w.trace) ∧
    (s.mWindow = 0 → ∃ new, w1.trace = new ++ Event.createSwapChain 0 s.mShareHandle
      GL_RGBA8_OES GL_DEPTH24_STENCIL8_OES :: w.trace) := by
  unfold Surface.resetSwapChain at h
  simp only at h
  split at h
  · rename_i hwin
    refine ⟨?_, fun h0 => absurd h0 hwin⟩
    split at h
    · simp only [Option.some.injEq, Prod.mk.injEq] at h
      rw [← h.2.2]
      exact ⟨[Event.getClientRect s.getWindowHandle], rfl⟩
    · obtain ⟨new, hn⟩ := Surface.createAndReset_trace h
      refine ⟨new ++ [Event.createSwapChain s.mWindow s.mShareHandle GL_RGBA8_OES
        GL_DEPTH24_STENCIL8_OES, Event.getClientRect s.getWindowHandle], ?_⟩
      rw [hn]
      simp [World.log]
  · rename_i hwin
    have hwin0 : s.mWindow = 0 := by simpa using hwin
    obtain ⟨new, hn⟩ := Surface.createAndReset_trace h
    rw [hwin0] at hn
    refine ⟨⟨new ++ [Event.createSwapChain 0 s.mShareHandle GL_RGBA8_OES
      GL_DEPTH24_STENCIL8_OES], ?_⟩, fun _ => ⟨new, hn⟩⟩
    rw [hn]
    simp

theorem resetSurfaces_trace {env : Env} {l l1 : List Surface} {w w1 : World}
    (h : resetSurfaces env l w = some (l1, w1)) : ∃ new, w1.trace = new ++ w.trace := by
  induction l generalizing l1 w w1 with
  | nil =>
    simp only [resetSurfaces, Option.some.injEq, Prod.mk.injEq] at h
    rw [← h.2]; exact ⟨[], rfl⟩
  | cons s rest ih =>
    simp only [resetSurfaces] at h
    split at h
    · cases h
    · rename_i b s1 w2 hs
      split at h
      · cases h
      · rename_i rest1 w3 hr
        simp only [Option.some.injEq, Prod.mk.injEq] at h
        obtain ⟨n1, h1⟩ := (Surface.resetSwapChain_trace hs).1
        obtain ⟨n2, h2⟩ := ih hr
        rw [← h.2, h2, h1]
        exact ⟨n2 ++ n1, by simp⟩

/-- The calls of a `restoreLostDevice`: when it fails, none asks for a swap
chain; when it succeeds, the device reset stands between the releases and
the re-creations. -/
theorem Display.restoreLostDevice_trace {env : Env} {d d1 : Display} {w w1 : World} {b : Bool}
    (h : d.restoreLostDevice env w = some (b, d1, w1)) :
    (b = false → ∃ new, w1.trace = new ++ w.trace ∧ ∀ e ∈ new, e.isCreateSwapChain = false) ∧
    (b = true → ∃ recreated released, w1.trace = recreated ++ Event.resetDevice ::
        (released ++ w.trace) ∧ ∀ e ∈ released, e.isRelease = true) := by
  obtain ⟨rel, hrel, hrel2⟩ := releaseSurfaces_trace d.mSurfaceSet w
  unfold Display.restoreLostDevice at h
  simp only at h
  split at h
  · simp only [Option.some.injEq, Prod.mk.injEq] at h
    rw [← h.1, ← h.2.2]
    exact ⟨fun _ => ⟨[], rfl, fun e he => absurd he (List.not_mem_nil e)⟩,
      fun hb => absurd hb (by decide)⟩
  · split at h
    · cases h
    · split at h
      · simp only [Option.some.injEq, Prod.mk.injEq] at h
        rw [← h.1, ← h.2.2]
        refine ⟨fun _ => ⟨Event.resetDevice :: rel, ?_, ?_⟩, fun hb => absurd hb (by decide)⟩
        · simp [error, setCurrentError, World.log, hrel]
        · intro e he
          rcases List.mem_cons.mp he with rfl | hm
          · rfl
          · exact Event.not_create_of_release (hrel2 e hm)
      · split at h
        · cases h
        · rename_i ss w3 hr
          simp only [Option.some.injEq, Prod.mk.injEq] at h
          rw [← h.1, ← h.2.2]
          obtain ⟨rec, hrec⟩ := resetSurfaces_trace hr
          refine ⟨fun hb => absurd hb (by decide), fun _ => ⟨rec, rel, ?_, hrel2⟩⟩
          rw [hrec]
          simp [World.log, hrel]

theorem Display.needsPow2_trace {env : Env} {d : Display} {a : OffscreenAttribs}
    {w wp : World} {b : Bool} (h : d.needsPow2 env a w = some (b, wp)) :
    ∃ new, wp.trace = new ++ w.trace ∧ ∀ e ∈ new, e.isCreateSwapChain = false := by
  unfold Display.needsPow2 at h
  split at h
  · split at h
    · cases h
    · simp only [Option.some.injEq, Prod.mk.injEq] at h
      rw [← h.2]
      refine ⟨[Event.getNonPower2TextureSupport], rfl, fun e he => ?_⟩
      rw [List.mem_singleton] at he
      rw [he]; rfl
  · simp only [Option.some.injEq, Prod.mk.injEq] at h
    rw [← h.2]
    exact ⟨[], rfl, fun e he => absurd he (List.not_mem_nil e)⟩

/-- Claim C15. For an attribute list that passes every check of
`createOffscreenSurface` with a positive width and height, on an initialized
display whose backend reports a lost device: `restoreLostDevice` runs on the
world right after `testDeviceLost`.  If it fails, the call returns
`EGL_NO_SURFACE` in the state the recovery left, and none of the calls made
asks for a swap chain.  If it succeeds, its device reset stands between the
releases and the re-creations of the existing surfaces, the request for the
swap chain of the new surface comes after all of these, and a surface that
is returned has the requested width and height. -/
theorem createOffscreenSurface_recovers_first (env : Env) (d d1 : Display) (w wp w1 : World)
    (shareHandle r : Handle) (attribList : Option (List Int)) (a : OffscreenAttribs)
    (hp : readOffscreenAttribs attribList = some (Parsed.ok a))
    (hw : 0 < a.width) (hh : 0 < a.height)
    (hpow : d.needsPow2 env a w = some (false, wp))
    (hmis : textureMismatch a = false)
    (hinit : d.isInitialized = true)
    (hlost : env.testDeviceLost (Event.testDeviceLost false :: wp.trace) = true)
    (hcall : d.createOffscreenSurface env w shareHandle attribList = some (r, d1, w1)) :
    ∃ b d0 w0, d.restoreLostDevice env (wp.log (Event.testDeviceLost false)) = some (b, d0, w0) ∧
      (b = false → r = EGL_NO_SURFACE ∧ d1 = d0 ∧ w1 = w0 ∧
        ∃ new, w1.trace = new ++ w.trace ∧ ∀ e ∈ new, e.isCreateSwapChain = false) ∧
      (b = true →
        (∃ recreated released, w0.trace = recreated ++ Event.resetDevice ::
            (released ++ Event.testDeviceLost false :: wp.trace) ∧
          ∀ e ∈ released, e.isRelease = true) ∧
        (∃ later, w1.trace = later ++ Event.createSwapChain 0 shareHandle GL_RGBA8_OES
            GL_DEPTH24_STENCIL8_OES :: Event.newSurface :: w0.trace) ∧
        (r ≠ EGL_NO_SURFACE → ∀ s ∈ d1.mSurfaceSet, s.self = r →
          s.getWidth = a.width ∧ s.getHeight = a.height)) := by
  have hn1 : ¬ (a.width < 0 ∨ a.height < 0) := by omega
  have hn2 : ¬ (a.width = 0 ∨ a.height = 0) := by omega
  have hr0 : d.mRenderer ≠ 0 := by simpa [Display.isInitialized] using hinit
  simp only [Display.createOffscreenSurface, hp, if_neg hn1, if_neg hn2, hpow, hmis,
    Bool.false_eq_true, if_false] at hcall
  have hrec : d.recoverIfLost env wp
      = d.restoreLostDevice env (wp.log (Event.testDeviceLost false)) := by
    simp [Display.recoverIfLost, hr0, World.log, hlost]
  unfold Display.makeOffscreenSurface at hcall
  rw [hrec] at hcall
  obtain ⟨npow, hnpow, hnpow2⟩ := Display.needsPow2_trace hpow
  split at hcall
  · cases hcall
  · rename_i d0 w0 hres
    simp only [Bool.false_eq_true, if_false, Option.some.injEq, Prod.mk.injEq] at hcall
    refine ⟨false, d0, w0, hres, fun _ => ⟨hcall.1.symm, hcall.2.1.symm, hcall.2.2.symm, ?_⟩,
      fun hb => absurd hb (by decide)⟩
    obtain ⟨new, hnew, hnew2⟩ := (Display.restoreLostDevice_trace hres).1 rfl
    refine ⟨new ++ Event.testDeviceLost false :: npow, ?_, ?_⟩
    · rw [← hcall.2.2, hnew]
      simp [World.log, hnpow]
    · intro e he
      rcases List.mem_append.mp he with h1 | h1
      · exact hnew2 e h1
      · rcases List.mem_cons.mp h1 with rfl | h2
        · rfl
        · exact hnpow2 e h2
  · rename_i d0 w0 hres
    simp only at hcall
    refine ⟨true, d0, w0, hres, fun hb => absurd hb (by decide), fun _ => ⟨?_, ?_, ?_⟩⟩
    · exact (Display.restoreLostDevice_trace hres).2 rfl
    · split at hcall
      · cases hcall
      · rename_i surface hmk
        obtain ⟨_, hsurf⟩ := Surface.setSwapInterval_from_minus_one rfl hmk
        have hwin : surface.mWindow = 0 := by rw [hsurf]
        have hsh : surface.mShareHandle = shareHandle := by rw [hsurf]
        unfold Display.adoptSurface at hcall
        split at hcall
        · cases hcall
        · rename_i s1 w2 hi
          simp only [Option.some.injEq, Prod.mk.injEq] at hcall
          obtain ⟨l1, hl1⟩ := (Surface.resetSwapChain_trace (Surface.initialize_false hi)).2 hwin
          obtain ⟨l2, hl2, _⟩ := Surface.release_trace s1 w2
          refine ⟨l2 ++ l1, ?_⟩
          rw [← hcall.2.2, hl2, hl1, hsh]
          simp [World.log]
        · rename_i s1 w2 hi
          simp only [Option.some.injEq, Prod.mk.injEq] at hcall
          obtain ⟨l1, hl1⟩ := (Surface.resetSwapChain_trace (Surface.initialize_true hi)).2 hwin
          refine ⟨l1, ?_⟩
          rw [← hcall.2.2]
          simp only [success, setCurrentError]
          rw [hl1, hsh]
          rfl
    · intro hr s hs hsr
      split at hcall
      · cases hcall
      · rename_i surface hmk
        obtain ⟨_, hsurf⟩ := Surface.setSwapInterval_from_minus_one rfl hmk
        have hfresh : surface.self ∉ d0.mSurfaceSet.map Surface.self := by
          rw [hsurf]; exact freshHandle_not_mem _ _
        obtain ⟨w2, hi, _⟩ := Display.adoptSurface_member hcall hr hfresh hs hsr
        rcases Surface.resetSwapChain_eq (Surface.initialize_true hi) with
          ⟨_, _, _, hoff, _⟩ | ⟨hf, _⟩
        · have hdims := hoff (by rw [hsurf])
          simp only [Surface.getWidth, Surface.getHeight]
          rw [hdims.1, hdims.2, hsurf]
          exact ⟨rfl, rfl⟩
        · cases hf

/-- Claim C15 at a concrete input: a 64 x 32 offscreen surface asked from
`displayTwo` while the backend reports a lost device. -/
theorem createOffscreenSurface_recovers_first_witness :
    ∃ d1 w1, displayTwo.createOffscreenSurface envLost worldInit 0
          (some [EGL_WIDTH, 64, EGL_HEIGHT, 32, EGL_NONE]) = some (21, d1, w1) ∧
      ∃ b d0 w0, displayTwo.restoreLostDevice envLost
            (worldInit.log (Event.testDeviceLost false)) = some (b, d0, w0) ∧
        (b = false → (21 : Handle) = EGL_NO_SURFACE ∧ d1 = d0 ∧ w1 = w0 ∧
          ∃ new, w1.trace = new ++ worldInit.trace ∧ ∀ e ∈ new, e.isCreateSwapChain = false) ∧
        (b = true →
          (∃ recreated released, w0.trace = recreated ++ Event.resetDevice ::
              (released ++ Event.testDeviceLost false :: worldInit.trace) ∧
            ∀ e ∈ released, e.isRelease = true) ∧
          (∃ later, w1.trace = later ++ Event.createSwapChain 0 0 GL_RGBA8_OES
              GL_DEPTH24_STENCIL8_OES :: Event.newSurface :: w0.trace) ∧
          ((21 : Handle) ≠ EGL_NO_SURFACE → ∀ s ∈ d1.mSurfaceSet, s.self = 21 →
            s.getWidth = 64 ∧ s.getHeight = 32)) := by
  have hsome : (displayTwo.createOffscreenSurface envLost worldInit 0
      (some [EGL_WIDTH, 64, EGL_HEIGHT, 32, EGL_NONE])).map (fun x => x.1) = some 21 := rfl
  obtain ⟨⟨r, d1, w1⟩, hc, hr⟩ := Option.map_eq_some'.mp hsome
  simp only at hr
  subst hr
  exact ⟨d1, w1, hc,
    createOffscreenSurface_recovers_first envLost displayTwo d1 worldInit worldInit w1 0 _
      (some [EGL_WIDTH, 64, EGL_HEIGHT, 32, EGL_NONE])
      { width := 64, height := 32, textureFormat := EGL_NO_TEXTURE,
        textureTarget := EGL_NO_TEXTURE }
      (by decide) (by decide) (by decide) rfl (by decide) rfl rfl hc⟩

/-! ## Failure sentinels and the recorded error -/

/-- Claim C21. On a surface with a swap chain and a backend, for every width
and height (so for the non-negative ones): `resetSwapChain(w, h)` calls the
reset of the swap chain with the stored swap interval; on success it returns
`true`, stores the width and height and clears `mSwapIntervalDirty`; on
context-lost it notifies the backend, returns `false` and leaves the surface
as it was; on any other status it records that status through `error`,
returns `false` and leaves the surface as it was.  `resizeSwapChain(w, h)` on
success returns `true` and stores the width and height, nothing else. -/
theorem resetSwapChain_and_resize_effects (env : Env) (d : Display) (s : Surface)
    (bw bh : Int) (w : World) (hsc : s.getSwapChain ≠ 0) (hren : s.mRenderer ≠ 0) :
    (env.swapChainReset
        (Event.swapChainReset s.getSwapChain bw bh s.mSwapInterval :: w.trace) = EGL_SUCCESS →
      s.resetSwapChainWH env bw bh w
        = some (true, { s with mWidth := bw, mHeight := bh, mSwapIntervalDirty := false },
            w.log (Event.swapChainReset s.getSwapChain bw bh s.mSwapInterval))) ∧
    (env.swapChainReset
        (Event.swapChainReset s.getSwapChain bw bh s.mSwapInterval :: w.trace)
          = EGL_CONTEXT_LOST →
      s.resetSwapChainWH env bw bh w
        = some (false, s,
            (w.log (Event.swapChainReset s.getSwapChain bw bh s.mSwapInterval)).log
              Event.rendererNotifyDeviceLost)) ∧
    (∀ status, env.swapChainReset
        (Event.swapChainReset s.getSwapChain bw bh s.mSwapInterval :: w.trace) = status →
      status ≠ EGL_SUCCESS → status ≠ EGL_CONTEXT_LOST →
      s.resetSwapChainWH env bw bh w
        = some (false, s,
            error (w.log (Event.swapChainReset s.getSwapChain bw bh s.mSwapInterval)) status) ∧
      getCurrentError
        (error (w.log (Event.swapChainReset s.getSwapChain bw bh s.mSwapInterval)) status)
          = status) ∧
    (env.swapChainResize (Event.swapChainResize s.getSwapChain bw bh :: w.trace) = EGL_SUCCESS →
      s.resizeSwapChain env d bw bh w
        = some (true, { s with mWidth := bw, mHeight := bh },
            w.log (Event.swapChainResize s.getSwapChain bw bh))) := by
  have hok : EGL_SUCCESS ≠ EGL_CONTEXT_LOST := by decide
  simp only [Surface.getSwapChain] at hsc ⊢
  refine ⟨fun h => ?_, fun h => ?_, fun status h h1 h2 => ⟨?_, rfl⟩, fun h => ?_⟩
  · simp [Surface.resetSwapChainWH, hsc, World.log, h, hok]
  · simp [Surface.resetSwapChainWH, hsc, World.log, h, hren]
  · subst h
    simp [Surface.resetSwapChainWH, hsc, World.log, h1, h2]
  · simp [Surface.resizeSwapChain, hsc, World.log, h, hok]

/-- Claim C21 at a concrete input: the 64 x 64 sample surface reset to
128 x 32 on a backend that reports success. -/
theorem resetSwapChain_and_resize_effects_witness :
    sampleOffscreen.getSwapChain ≠ 0 ∧ sampleOffscreen.mRenderer ≠ 0 ∧
    envOk.swapChainReset
        (Event.swapChainReset sampleOffscreen.getSwapChain 128 32 sampleOffscreen.mSwapInterval
          :: worldInit.trace) = EGL_SUCCESS ∧
    sampleOffscreen.resetSwapChainWH envOk 128 32 worldInit
      = some (true,
          { sampleOffscreen with mWidth := 128, mHeight := 32, mSwapIntervalDirty := false },
          worldInit.log (Event.swapChainReset sampleOffscreen.getSwapChain 128 32
            sampleOffscreen.mSwapInterval)) :=
  ⟨by decide, by decide, rfl,
   (resetSwapChain_and_resize_effects envOk displayTwo sampleOffscreen 128 32 worldInit
      (by decide) (by decide)).1 rfl⟩

/-! ## Live surfaces and their swap chains -/

theorem World.Extends.same (w : World) : w.Extends w := ⟨[], rfl⟩

theorem World.Extends.andThen {w w1 w2 : World} (h1 : w.Extends w1) (h2 : w1.Extends w2) :
    w.Extends w2 := by
  obtain ⟨n1, e1⟩ := h1
  obtain ⟨n2, e2⟩ := h2
  exact ⟨n2 ++ n1, by rw [e2, e1, List.append_assoc]⟩

theorem World.Extends.log (w : World) (e : Event) : w.Extends (w.log e) := ⟨[e], rfl⟩

theorem World.Extends.of_trace_eq {w w1 : World} (h : w1.trace = w.trace) : w.Extends w1 :=
  ⟨[], h⟩

theorem World.Extends.mem {w w1 : World} (h : w.Extends w1) {e : Event} (he : e ∈ w.trace) :
    e ∈ w1.trace := by
  obtain ⟨n, hn⟩ := h
  rw [hn]; exact List.mem_append_right _ he

theorem Surface.release_extends (s : Surface) (w : World) : w.Extends (s.release w).2 := by
  obtain ⟨new, h, _⟩ := Surface.release_trace s w
  exact ⟨new, h⟩

theorem Surface.initialize_extends {env : Env} {s s1 : Surface} {w w1 : World} {b : Bool}
    (h : Surface.initialize env s w = some (b, s1, w1)) : w.Extends w1 := by
  cases b with
  | true => exact (Surface.resetSwapChain_trace (Surface.initialize_true h)).1
  | false => exact (Surface.resetSwapChain_trace (Surface.initialize_false h)).1

theorem Display.adoptSurface_extends {env : Env} {d d1 : Display} {w w1 : World}
    {surface : Surface} {r : Handle} (h : d.adoptSurface env w surface = some (r, d1, w1)) :
    w.Extends w1 := by
  unfold Display.adoptSurface at h
  split at h
  · cases h
  · rename_i s1 w0 hi
    simp only [Option.some.injEq, Prod.mk.injEq] at h
    rw [← h.2.2]
    exact (Surface.initialize_extends hi).andThen (Surface.release_extends s1 w0)
  · rename_i s1 w0 hi
    simp only [Option.some.injEq, Prod.mk.injEq] at h
    rw [← h.2.2]
    exact (Surface.initialize_extends hi).andThen (World.Extends.of_trace_eq rfl)

theorem Display.restoreLostDevice_extends {env : Env} {d d1 : Display} {w w1 : World}
    {b : Bool} (h : d.restoreLostDevice env w = some (b, d1, w1)) : w.Extends w1 := by
  cases b with
  | true =>
    obtain ⟨rec, rel, ht, _⟩ := (Display.restoreLostDevice_trace h).2 rfl
    exact ⟨rec ++ Event.resetDevice :: rel, by rw [ht]; simp⟩
  | false =>
    obtain ⟨new, ht, _⟩ := (Display.restoreLostDevice_trace h).1 rfl
    exact ⟨new, ht⟩

theorem Display.recoverIfLost_extends {env : Env} {d d1 : Display} {w w1 : World} {b : Bool}
    (h : d.recoverIfLost env w = some (b, d1, w1)) : w.Extends w1 := by
  unfold Display.recoverIfLost at h
  split at h
  · cases h
  · simp only at h
    split at h
    · exact (World.Extends.log w _).andThen (Display.restoreLostDevice_extends h)
    · simp only [Option.some.injEq, Prod.mk.injEq] at h
      rw [← h.2.2]; exact World.Extends.log w _

theorem setInsert_mem {α : Type} (key : α → Handle) (x y : α) (l : List α)
    (h : y ∈ setInsert key x l) : y = x ∨ y ∈ l := by
  induction l with
  | nil =>
    simp only [setInsert, List.mem_singleton] at h
    exact Or.inl h
  | cons z rest ih =>
    simp only [setInsert] at h
    split_ifs at h
    · rcases List.mem_cons.mp h with h1 | h1
      · exact Or.inl h1
      · exact Or.inr h1
    · exact Or.inr h
    · rcases List.mem_cons.mp h with h1 | h1
      · exact Or.inr (h1 ▸ List.mem_cons_self _ _)
      · rcases ih h1 with h2 | h2
        · exact Or.inl h2
        · exact Or.inr (List.mem_cons_of_mem _ h2)

theorem Display.restoreLostDevice_live {env : Env} {d d1 : Display} {w w1 : World} {b : Bool}
    (h : d.restoreLostDevice env w = some (b, d1, w1)) (hd : d.allLive) :
    d1.allLive ∨ Event.resetDevice ∈ w1.trace := by
  unfold Display.restoreLostDevice at h
  simp only at h
  split at h
  · simp only [Option.some.injEq, Prod.mk.injEq] at h
    rw [← h.2.1]; exact Or.inl hd
  · split at h
    · cases h
    · split at h
      · simp only [Option.some.injEq, Prod.mk.injEq] at h
        rw [← h.2.2]
        exact Or.inr (List.mem_cons_self _ _)
      · split at h
        · cases h
        · rename_i ss w3 hr
          simp only [Option.some.injEq, Prod.mk.injEq] at h
          rw [← h.2.2]
          have hext : World.Extends ((releaseSurfaces d.mSurfaceSet w).2.log Event.resetDevice) w3 :=
            resetSurfaces_trace hr
          exact Or.inr (hext.mem (List.mem_cons_self _ _))

theorem Display.recoverIfLost_live {env : Env} {d d1 : Display} {w w1 : World} {b : Bool}
    (h : d.recoverIfLost env w = some (b, d1, w1)) (hd : d.allLive) :
    d1.allLive ∨ Event.resetDevice ∈ w1.trace := by
  unfold Display.recoverIfLost at h
  split at h
  · cases h
  · simp only at h
    split at h
    · exact Display.restoreLostDevice_live h hd
    · simp only [Option.some.injEq, Prod.mk.injEq] at h
      rw [← h.2.1]; exact Or.inl hd

theorem Display.adoptSurface_live {env : Env} {d d1 : Display} {w w1 : World}
    {surface : Surface} {r : Handle} (h : d.adoptSurface env w surface = some (r, d1, w1))
    (hd : d.allLive) : d1.allLive := by
  rcases Display.adoptSurface_spec h with ⟨_, hd1, _⟩ | ⟨_, s1, w0, _, _, hsc, hd1⟩
  · rw [hd1]; exact hd
  · rw [hd1]
    intro s hs
    rcases setInsert_mem Surface.self s1 s d.mSurfaceSet hs with rfl | hmem
    · exact hsc
    · exact hd s hmem

theorem Display.makeWindowSurface_live {env : Env} {d d1 : Display} {w w1 : World}
    {r window : Handle} (h : d.makeWindowSurface env w window = some (r, d1, w1)) :
    w.Extends w1 ∧ (d.allLive → d1.allLive ∨ Event.resetDevice ∈ w1.trace) := by
  unfold Display.makeWindowSurface at h
  split at h
  · cases h
  · rename_i d0 w0 hrec
    simp only [Option.some.injEq, Prod.mk.injEq] at h
    rw [← h.2.1, ← h.2.2]
    exact ⟨Display.recoverIfLost_extends hrec, Display.recoverIfLost_live hrec⟩
  · rename_i d0 w0 hrec
    simp only at h
    split at h
    · cases h
    · have hext := Display.adoptSurface_extends h
      refine ⟨(Display.recoverIfLost_extends hrec).andThen
        ((World.Extends.log w0 _).andThen hext), fun hd => ?_⟩
      rcases Display.recoverIfLost_live hrec hd with hl | hm
      · exact Or.inl (Display.adoptSurface_live h hl)
      · exact Or.inr (((World.Extends.log w0 _).andThen hext).mem hm)

theorem Display.makeOffscreenSurface_live {env : Env} {d d1 : Display} {w w1 : World}
    {r shareHandle : Handle} {a : OffscreenAttribs}
    (h : d.makeOffscreenSurface env w shareHandle a = some (r, d1, w1)) :
    w.Extends w1 ∧ (d.allLive → d1.allLive ∨ Event.resetDevice ∈ w1.trace) := by
  unfold Display.makeOffscreenSurface at h
  split at h
  · cases h
  · rename_i d0 w0 hrec
    simp only [Option.some.injEq, Prod.mk.injEq] at h
    rw [← h.2.1, ← h.2.2]
    exact ⟨Display.recoverIfLost_extends hrec, Display.recoverIfLost_live hrec⟩
  · rename_i d0 w0 hrec
    simp only at h
    split at h
    · cases h
    · have hext := Display.adoptSurface_extends h
      refine ⟨(Display.recoverIfLost_extends hrec).andThen
        ((World.Extends.log w0 _).andThen hext), fun hd => ?_⟩
      rcases Display.recoverIfLost_live hrec hd with hl | hm
      · exact Or.inl (Display.adoptSurface_live h hl)
      · exact Or.inr (((World.Extends.log w0 _).andThen hext).mem hm)

theorem Display.createWindowSurface_live {env : Env} {d d1 : Display} {w w1 : World}
    {r window : Handle} {attribList : Option (List Int)}
    (h : d.createWindowSurface env w window attribList = some (r, d1, w1)) :
    w.Extends w1 ∧ (d.allLive → d1.allLive ∨ Event.resetDevice ∈ w1.trace) := by
  unfold Display.createWindowSurface at h
  split at h
  · cases h
  · simp only [Option.some.injEq, Prod.mk.injEq] at h
    rw [← h.2.1, ← h.2.2]
    exact ⟨World.Extends.of_trace_eq rfl, Or.inl⟩
  · split at h
    · simp only [Option.some.injEq, Prod.mk.injEq] at h
      rw [← h.2.1, ← h.2.2]
      exact ⟨World.Extends.of_trace_eq rfl, Or.inl⟩
    · exact Display.makeWindowSurface_live h

theorem Display.createOffscreenSurface_live {env : Env} {d d1 : Display} {w w1 : World}
    {r shareHandle : Handle} {attribList : Option (List Int)}
    (h : d.createOffscreenSurface env w shareHandle attribList = some (r, d1, w1)) :
    w.Extends w1 ∧ (d.allLive → d1.allLive ∨ Event.resetDevice ∈ w1.trace) := by
  unfold Display.createOffscreenSurface at h
  split at h
  · cases h
  · simp only [Option.some.injEq, Prod.mk.injEq] at h
    rw [← h.2.1, ← h.2.2]
    exact ⟨World.Extends.of_trace_eq rfl, Or.inl⟩
  · split at h
    · simp only [Option.some.injEq, Prod.mk.injEq] at h
      rw [← h.2.1, ← h.2.2]
      exact ⟨World.Extends.of_trace_eq rfl, Or.inl⟩
    · split at h
      · simp only [Option.some.injEq, Prod.mk.injEq] at h
        rw [← h.2.1, ← h.2.2]
        exact ⟨World.Extends.of_trace_eq rfl, Or.inl⟩
      · split at h
        · cases h
        · rename_i wp hp
          obtain ⟨new, hnew, _⟩ := Display.needsPow2_trace hp
          simp only [Option.some.injEq, Prod.mk.injEq] at h
          rw [← h.2.1, ← h.2.2]
          exact ⟨⟨new, hnew⟩, Or.inl⟩
        · rename_i wp hp
          obtain ⟨new, hnew, _⟩ := Display.needsPow2_trace hp
          have hext : w.Extends wp := ⟨new, hnew⟩
          split at h
          · simp only [Option.some.injEq, Prod.mk.injEq] at h
            rw [← h.2.1, ← h.2.2]
            exact ⟨hext.andThen (World.Extends.of_trace_eq rfl), Or.inl⟩
          · obtain ⟨h1, h2⟩ := Display.makeOffscreenSurface_live h
            exact ⟨hext.andThen h1, h2⟩

theorem Display.createContext_live {env : Env} {d d1 : Display} {w w1 : World}
    {shareContext r : Handle} {notifyResets robustAccess : Bool}
    (h : d.createContext env w shareContext notifyResets robustAccess = some (r, d1, w1)) :
    w.Extends w1 ∧ (d.allLive → d1.allLive ∨ Event.resetDevice ∈ w1.trace) := by
  unfold Display.createContext at h
  split at h
  · simp only [Option.some.injEq, Prod.mk.injEq] at h
    rw [← h.2.1, ← h.2.2]
    exact ⟨World.Extends.same w, Or.inl⟩
  · split at h
    · cases h
    · rename_i d2 w2 hrec
      simp only [Option.some.injEq, Prod.mk.injEq] at h
      rw [← h.2.1, ← h.2.2]
      exact ⟨Display.recoverIfLost_extends hrec, Display.recoverIfLost_live hrec⟩
    · rename_i d2 w2 hrec
      simp only [Option.some.injEq, Prod.mk.injEq] at h
      rw [← h.2.1, ← h.2.2]
      refine ⟨(Display.recoverIfLost_extends hrec).andThen (World.Extends.log w2 _), fun hd => ?_⟩
      rcases Display.recoverIfLost_live hrec hd with hl | hm
      · exact Or.inl hl
      · exact Or.inr ((World.Extends.log w2 _).mem hm)

theorem Display.destroySurface_live {d d1 : Display} {w w1 : World} {surface : Handle}
    (h : d.destroySurface w surface = some (d1, w1)) :
    w.Extends w1 ∧ (d.allLive → d1.allLive) := by
  have hsub : ∀ p : Handle, d.allLive →
      ({ d with mSurfaceSet := setErase Surface.self p d.mSurfaceSet } : Display).allLive :=
    fun p hd s hs => hd s (List.mem_of_mem_filter hs)
  unfold Display.destroySurface at h
  split at h
  · simp only [Option.some.injEq, Prod.mk.injEq] at h
    rw [← h.1, ← h.2]; exact ⟨World.Extends.same w, hsub _⟩
  · split at h
    · cases h
    · rename_i s _
      simp only [Option.some.injEq, Prod.mk.injEq] at h
      rw [← h.1, ← h.2]; exact ⟨Surface.release_extends s w, hsub _⟩

theorem Display.terminate_live {d d1 : Display} {w w1 : World}
    (h : d.terminate w = some (d1, w1)) : w.Extends w1 ∧ d1.allLive := by
  obtain ⟨w2, ss, cs, ht, _, htr, _⟩ := Display.terminate_spec d w
  rw [ht] at h
  simp only [Option.some.injEq, Prod.mk.injEq] at h
  rw [← h.1, ← h.2]
  refine ⟨⟨rendererTeardown d.mRenderer ++ (cs ++ ss), by rw [htr]; simp⟩, ?_⟩
  intro s hs
  exact absurd hs (List.not_mem_nil s)

theorem glCreateRenderer_extends (env : Env) (w : World) :
    w.Extends (glCreateRenderer env w).2 := by
  unfold glCreateRenderer glDestroyRenderer
  simp only
  split_ifs <;>
    first
    | exact World.Extends.log w _
    | exact (World.Extends.log w _).andThen (World.Extends.log _ _)

theorem Display.initialize_live {env : Env} {d d1 : Display} {w w1 : World} {b : Bool}
    (h : Display.initialize env d w = some (b, d1, w1)) :
    w.Extends w1 ∧ (d.allLive → d1.allLive) := by
  unfold Display.initialize at h
  split at h
  · simp only [Option.some.injEq, Prod.mk.injEq] at h
    rw [← h.2.1, ← h.2.2]; exact ⟨World.Extends.same w, id⟩
  · simp only at h
    split at h
    · split at h
      · cases h
      · rename_i d2 w2 ht
        simp only [Option.some.injEq, Prod.mk.injEq] at h
        rw [← h.2.1, ← h.2.2]
        obtain ⟨h1, h2⟩ := Display.terminate_live ht
        exact ⟨((glCreateRenderer_extends env w).andThen h1).andThen
          (World.Extends.of_trace_eq rfl), fun _ => h2⟩
    · split at h
      · split at h
        · cases h
        · rename_i d2 w2 ht
          simp only [Option.some.injEq, Prod.mk.injEq] at h
          rw [← h.2.1, ← h.2.2]
          obtain ⟨h1, h2⟩ := Display.terminate_live ht
          exact ⟨(glCreateRenderer_extends env w).andThen h1, fun _ => h2⟩
      · simp only [Option.some.injEq, Prod.mk.injEq] at h
        rw [← h.2.1, ← h.2.2]; exact ⟨glCreateRenderer_extends env w, id⟩

theorem Display.call_live {env : Env} {d d1 : Display} {w w1 : World} {c : DisplayCall}
    (h : Display.call env d w c = some (d1, w1)) :
    w.Extends w1 ∧ (d.allLive → d1.allLive ∨ Event.resetDevice ∈ w1.trace) := by
  match c, h with
  | DisplayCall.init, h =>
    simp only [Display.call, Option.map_eq_some'] at h
    obtain ⟨⟨b, d2, w2⟩, hr, he⟩ := h
    simp only [Prod.mk.injEq] at he
    rw [← he.1, ← he.2]
    obtain ⟨h1, h2⟩ := Display.initialize_live hr
    exact ⟨h1, fun hd => Or.inl (h2 hd)⟩
  | DisplayCall.terminate, h =>
    simp only [Display.call] at h
    obtain ⟨h1, h2⟩ := Display.terminate_live h
    exact ⟨h1, fun _ => Or.inl h2⟩
  | DisplayCall.createWindowSurface window attribList, h =>
    simp only [Display.call, Option.map_eq_some'] at h
    obtain ⟨⟨r, d2, w2⟩, hr, he⟩ := h
    simp only [Prod.mk.injEq] at he
    rw [← he.1, ← he.2]
    exact Display.createWindowSurface_live hr
  | DisplayCall.createOffscreenSurface shareHandle attribList, h =>
    simp only [Display.call, Option.map_eq_some'] at h
    obtain ⟨⟨r, d2, w2⟩, hr, he⟩ := h
    simp only [Prod.mk.injEq] at he
    rw [← he.1, ← he.2]
    exact Display.createOffscreenSurface_live hr
  | DisplayCall.createContext shareContext notifyResets robustAccess, h =>
    simp only [Display.call, Option.map_eq_some'] at h
    obtain ⟨⟨r, d2, w2⟩, hr, he⟩ := h
    simp only [Prod.mk.injEq] at he
    rw [← he.1, ← he.2]
    exact Display.createContext_live hr
  | DisplayCall.destroySurface surface, h =>
    simp only [Display.call] at h
    obtain ⟨h1, h2⟩ := Display.destroySurface_live h
    exact ⟨h1, fun hd => Or.inl (h2 hd)⟩
  | DisplayCall.destroyContext context, h =>
    simp only [Display.call, Display.destroyContext, Option.some.injEq, Prod.mk.injEq] at h
    rw [← h.1, ← h.2]; exact ⟨World.Extends.log w _, Or.inl⟩
  | DisplayCall.restoreLostDevice, h =>
    simp only [Display.call, Option.map_eq_some'] at h
    obtain ⟨⟨b, d2, w2⟩, hr, he⟩ := h
    simp only [Prod.mk.injEq] at he
    rw [← he.1, ← he.2]
    exact ⟨Display.restoreLostDevice_extends hr, Display.restoreLostDevice_live hr⟩

theorem Display.run_live {env : Env} {calls : List DisplayCall} {d d1 : Display} {w w1 : World}
    (h : Display.run env calls (d, w) = some (d1, w1)) :
    w.Extends w1 ∧ (d.allLive → d1.allLive ∨ Event.resetDevice ∈ w1.trace) := by
  induction calls generalizing d w with
  | nil =>
    simp only [Display.run, Option.some.injEq, Prod.mk.injEq] at h
    rw [← h.1, ← h.2]; exact ⟨World.Extends.same w, Or.inl⟩
  | cons c rest ih =>
    simp only [Display.run] at h
    split at h
    · cases h
    · rename_i st hcall
      obtain ⟨d2, w2⟩ := st
      obtain ⟨hx1, hl1⟩ := Display.call_live hcall
      obtain ⟨hx2, hl2⟩ := ih h
      refine ⟨hx1.andThen hx2, fun hd => ?_⟩
      rcases hl1 hd with hl | hm
      · exact hl2 hl
      · exact Or.inr (hx2.mem hm)

theorem recreateSurfaces_defined (l : List Surface) (w : World)
    (h : ∀ s ∈ l, s.getSwapChain ≠ 0) :
    ∃ w1, recreateSurfaces l w = some w1 ∧
      w1.trace = (l.map (fun s => Event.swapChainRecreate s.getSwapChain)).reverse ++ w.trace := by
  induction l generalizing w with
  | nil => exact ⟨w, rfl, rfl⟩
  | cons s rest ih =>
    have hs : s.getSwapChain ≠ 0 := h s (List.mem_cons_self _ _)
    obtain ⟨w1, h1, ht⟩ := ih (w.log (Event.swapChainRecreate s.getSwapChain))
      (fun t ht => h t (List.mem_cons_of_mem _ ht))
    refine ⟨w1, ?_, ?_⟩
    · simp only [recreateSurfaces, hs, if_false]
      exact h1
    · rw [ht]
      simp [World.log]

/-- Claim C22 fails on the code when the backend's device reset fails: after
`initialize`, one `createOffscreenSurface` and a `restoreLostDevice` whose
`resetDevice` returns `false`, the surface at address 13 is still in the
surface set, its swap chain is null, and `recreateSwapChains` in that state
calls `recreate()` through the null pointer (no result). -/
theorem reachable_surface_without_swap_chain :
    (Display.run envResetFails
      [DisplayCall.init,
       DisplayCall.createOffscreenSurface 0 (some [EGL_WIDTH, 64, EGL_HEIGHT, 64, EGL_NONE]),
       DisplayCall.restoreLostDevice]
      (Display.new, worldInit)).map
        (fun st => (st.1.mSurfaceSet.map (fun s => (s.self, s.getSwapChain)),
                    st.1.recreateSwapChains st.2))
      = some ([(13, 0)], none) := by
  rfl

/-- A null swap chain needs a device reset: in every state reached from a
freshly constructed display by a sequence of `initialize`, `terminate`,
`createWindowSurface`, `createOffscreenSurface`, `createContext`,
`destroySurface`, `destroyContext` and `restoreLostDevice` calls in which the
backend's device reset was never invoked, every live surface has a non-null
swap chain, and `recreateSwapChains` returns after calling `recreate()` once
on the swap chain of each live surface, in set order. -/
theorem live_surfaces_have_swap_chains (env : Env) (w0 : World) (calls : List DisplayCall)
    (d : Display) (w : World)
    (hrun : Display.run env calls (Display.new, w0) = some (d, w))
    (hreset : Event.resetDevice ∉ w.trace) :
    (∀ s ∈ d.mSurfaceSet, s.getSwapChain ≠ 0) ∧
    ∃ w1, d.recreateSwapChains w = some w1 ∧
      w1.trace =
        (d.mSurfaceSet.map (fun s => Event.swapChainRecreate s.getSwapChain)).reverse
          ++ w.trace := by
  have hnew : Display.new.allLive := fun s hs => absurd hs (List.not_mem_nil s)
  have hlive : d.allLive := by
    rcases (Display.run_live hrun).2 hnew with hl | hm
    · exact hl
    · exact absurd hm hreset
  exact ⟨hlive, recreateSurfaces_defined d.mSurfaceSet w hlive⟩

/-- The previous theorem at a concrete input: a run that creates a window surface, an offscreen surface and a context without any device reset. -/
theorem live_surfaces_have_swap_chains_witness :
    ∃ d w, Display.run envOk
        [DisplayCall.init, DisplayCall.createWindowSurface 9 none,
         DisplayCall.createOffscreenSurface 0 (some [EGL_WIDTH, 64, EGL_HEIGHT, 64, EGL_NONE]),
         DisplayCall.createContext 0 false false]
        (Display.new, worldInit) = some (d, w) ∧
      d.mSurfaceSet.map (fun s => (s.self, s.getSwapChain)) = [(13, 105), (18, 109)] ∧
      Event.resetDevice ∉ w.trace ∧
      (∀ s ∈ d.mSurfaceSet, s.getSwapChain ≠ 0) ∧
      ∃ w1, d.recreateSwapChains w = some w1 ∧
        w1.trace =
          (d.mSurfaceSet.map (fun s => Event.swapChainRecreate s.getSwapChain)).reverse
            ++ w.trace := by
  have hsome : (Display.run envOk
      [DisplayCall.init, DisplayCall.createWindowSurface 9 none,
       DisplayCall.createOffscreenSurface 0 (some [EGL_WIDTH, 64, EGL_HEIGHT, 64, EGL_NONE]),
       DisplayCall.createContext 0 false false]
      (Display.new, worldInit)).map
        (fun st => (st.1.mSurfaceSet.map (fun s => (s.self, s.getSwapChain)),
                    st.2.trace.contains Event.resetDevice))
      = some ([(13, 105), (18, 109)], false) := by rfl
  obtain ⟨⟨d, w⟩, h, hval⟩ := Option.map_eq_some'.mp hsome
  simp only [Prod.mk.injEq] at hval
  have hreset : Event.resetDevice ∉ w.trace := by
    intro hm
    have hc : w.trace.contains Event.resetDevice = true := by simpa using hm
    rw [hval.2] at hc
    exact absurd hc (by decide)
  exact ⟨d, w, h, hval.1, hreset, live_surfaces_have_swap_chains envOk worldInit _ d w h hreset⟩

/-! ## The rectangle handed to the swap chain -/

end egl
